import Mathlib

/-!
# Protocol front end of the CWSGI server: HTTP/2 frames and HTTP/1.1 lines

A shallow embedding of `wsgi/protocolhttp2.cpp` (frame codec and frame processing) and
of `wsgi/protocolhttp.cpp` (request line, header lines, pipelining).  Unsigned machine
integers are natural numbers; a narrowing conversion to `quint8` is written `quint8 n`
(reduction modulo 256).  Byte buffers are lists of natural numbers, each entry
standing for one octet.
-/

namespace CWSGI

/-! ## Enumerations of `protocolhttp2.cpp` -/

@[simp] def FlagSettingsAck : Nat := 0x1
@[simp] def FlagPingAck : Nat := 0x1
@[simp] def FlagHeadersEndStream : Nat := 0x1
@[simp] def FlagHeadersEndHeaders : Nat := 0x4
@[simp] def FlagHeadersPadded : Nat := 0x8
@[simp] def FlagHeadersPriority : Nat := 0x20
@[simp] def FlagDataEndStream : Nat := 0x1
@[simp] def FlagDataPadded : Nat := 0x8

@[simp] def FrameData : Nat := 0x0
@[simp] def FrameHeaders : Nat := 0x1
@[simp] def FramePriority : Nat := 0x2
@[simp] def FrameRstStream : Nat := 0x3
@[simp] def FrameSettings : Nat := 0x4
@[simp] def FramePushPromise : Nat := 0x5
@[simp] def FramePing : Nat := 0x6
@[simp] def FrameGoaway : Nat := 0x7
@[simp] def FrameWindowUpdate : Nat := 0x8
@[simp] def FrameContinuation : Nat := 0x9

@[simp] def ErrorNoError : Nat := 0x0
@[simp] def ErrorProtocolError : Nat := 0x1
@[simp] def ErrorInternalError : Nat := 0x2
@[simp] def ErrorFlowControlError : Nat := 0x3
@[simp] def ErrorSettingsTimeout : Nat := 0x4
@[simp] def ErrorStreamClosed : Nat := 0x5
@[simp] def ErrorFrameSizeError : Nat := 0x6
@[simp] def ErrorRefusedStream : Nat := 0x7
@[simp] def ErrorCancel : Nat := 0x8
@[simp] def ErrorCompressionError : Nat := 0x9
@[simp] def ErrorConnectError : Nat := 0xA
@[simp] def ErrorEnhanceYourCalm : Nat := 0xB
@[simp] def ErrorInadequateSecurity : Nat := 0xC
@[simp] def ErrorHttp11Required : Nat := 0xD

@[simp] def SETTINGS_HEADER_TABLE_SIZE : Nat := 0x1
@[simp] def SETTINGS_ENABLE_PUSH : Nat := 0x2
@[simp] def SETTINGS_MAX_CONCURRENT_STREAMS : Nat := 0x3
@[simp] def SETTINGS_INITIAL_WINDOW_SIZE : Nat := 0x4
@[simp] def SETTINGS_MAX_FRAME_SIZE : Nat := 0x5
@[simp] def SETTINGS_MAX_HEADER_LIST_SIZE : Nat := 0x6

@[simp] def PREFACE_SIZE : Nat := 24

/-- The client connection preface `"PRI * HTTP/2.0\r\n\r\nSM\r\n\r\n"`, as octets. -/
def preface : List Nat :=
  [80, 82, 73, 32, 42, 32, 72, 84, 84, 80, 47, 50, 46, 48, 13, 10, 13, 10, 83, 77, 13, 10, 13, 10]

/-! ## Octet helpers -/

/-- The conversion `quint8(n)`: the low eight bits of `n`. -/
def quint8 (n : Nat) : Nat := n % 256

/-- The 32-bit word `*reinterpret_cast<const quint32 *>(buf + off)` on a
little-endian host.  An octet beyond the end of the list reads as 0. -/
def loadWord (buf : List Nat) (off : Nat) : Nat :=
  buf.getD off 0 ||| (buf.getD (off + 1) 0 <<< 8) ||| (buf.getD (off + 2) 0 <<< 16)
    ||| (buf.getD (off + 3) 0 <<< 24)

/-- The function `h2_be32(buf + off)`: the four octets `ptr[0..3]` of the result are
filled from the loaded word, and the result is read back as a little-endian word. -/
def h2_be32 (buf : List Nat) (off : Nat) : Nat :=
  let src := loadWord buf off
  let p0 := (src >>> 24) &&& 0xff
  let p1 := (src >>> 16) &&& 0xff
  let p2 := (src >>> 8) &&& 0xff
  let p3 := src &&& 0xff
  p0 ||| (p1 <<< 8) ||| (p2 <<< 16) ||| (p3 <<< 24)

/-- The function `h2_be16(buf + off)`: two octets `ptr[0..1]` of the 16-bit result
are filled from the loaded word. -/
def h2_be16 (buf : List Nat) (off : Nat) : Nat :=
  let src := loadWord buf off
  let p0 := (src >>> 8) &&& 0xff
  let p1 := src &&& 0xff
  p0 ||| (p1 <<< 8)

/-! ## Data model -/

/-- Values of `Socket::connState` used by the HTTP/2 protocol. -/
inductive ConnState where
  | MethodLine
  | H2Frames
  deriving DecidableEq

/-- Values of `Socket::H2Stream::state`. -/
inductive StreamState where
  | Idle
  | Open
  | HalfClosed
  | Closed
  deriving DecidableEq

/-- A decoded header field: name octets and value octets. -/
abbrev Header := List Nat × List Nat

/-- The decoded frame header `H2Frame` handed to the frame handlers. -/
structure H2Frame where
  len : Nat
  streamId : Nat
  type : Nat
  flags : Nat
  deriving DecidableEq

/-- Modelled from the spec: `Socket::H2Stream` is declared in `socket.h`, which is
absent; the fields are those the handlers use and the spec lists (state, declared
content-length with -1 for unknown, consumed byte counter, flow-control window,
decoded header collection). -/
structure H2Stream where
  state : StreamState
  contentLength : Int
  consumedData : Int
  windowSize : Nat
  headers : List Header
  deriving DecidableEq

/-- Modelled from the spec: the record made by `new Socket::H2Stream`; the member
initialisers are in the absent `socket.h`.  A new stream is Idle, its content-length
unknown, nothing consumed, and its window the protocol default 65535. -/
def H2Stream.fresh : H2Stream :=
  { state := .Idle, contentLength := -1, consumedData := 0, windowSize := 65535, headers := [] }

/-- Modelled from the spec: the members of `Socket` (declared in the absent `socket.h`)
that `protocolhttp2.cpp` reads and writes.  `buffer` holds the `buf_size` valid octets
of the receive buffer.  The stream table `QHash<quint32, H2Stream *>` is an association
list.  `closed` records that `connectionClose()` was called, `written` is the octet
stream written to the `QIODevice` (every write is accepted in full), and `deferred`
lists the frames whose completion was queued with `QTimer::singleShot(0, ...)`. -/
structure Socket where
  buffer : List Nat
  connState : ConnState
  pktsize : Nat
  stream_id : Nat
  maxStreamId : Nat
  streamForContinuation : Nat
  windowSize : Nat
  canPush : Nat
  streams : List (Nat × H2Stream)
  closed : Bool
  written : List Nat
  deferred : List H2Frame
  deriving DecidableEq

/-- Modelled from the spec: a connection as it is when accepted (the member initialisers
are in the absent `socket.h`): empty buffer, waiting for the preface, no stream seen, no
continuation awaited, the protocol's default window 65535 and push permitted.  Used for
concrete runs only. -/
def Socket.fresh : Socket :=
  { buffer := [], connState := .MethodLine, pktsize := 0, stream_id := 0, maxStreamId := 0,
    streamForContinuation := 0, windowSize := 65535, canPush := 1, streams := [],
    closed := false, written := [], deferred := [] }

/-- The protocol object: configured buffer size, the max frame size derived from it,
and the external header codec `HPackTables::decode`, which receives the header block
fragment and the stream and returns an error code (0 for success), the decoded
headers and the stream as the codec left it. -/
structure ProtocolHttp2 where
  m_bufferSize : Nat
  m_maxFrameSize : Nat
  decode : List Nat → H2Stream → Nat × List Header × H2Stream

/-- The constructor `ProtocolHttp2::ProtocolHttp2`: the buffer size is clamped to
2147483647; below 16393 the process aborts (`qFatal`), otherwise the max frame size
is the buffer size minus 9. -/
def ProtocolHttp2.create (bufferSize : Nat)
    (decode : List Nat → H2Stream → Nat × List Header × H2Stream) : Option ProtocolHttp2 :=
  let b := min bufferSize 2147483647
  if b < 16393 then none
  else some { m_bufferSize := b, m_maxFrameSize := b - 9, decode := decode }

/-! ## Frame writer -/

/-- The nine octets of `struct h2_frame` as `sendFrame` fills them. -/
def frameHeader (type flags streamId dataLen : Nat) : List Nat :=
  [quint8 (dataLen >>> 16), quint8 (dataLen >>> 8), quint8 dataLen,
   quint8 type, quint8 flags,
   quint8 (streamId >>> 24), quint8 (streamId >>> 16), quint8 (streamId >>> 8), quint8 streamId]

/-- The function `ProtocolHttp2::sendFrame`: writes the header, then `dataLen` octets
of `data`; returns 0. -/
def sendFrame (s : Socket) (type flags streamId : Nat) (data : List Nat) (dataLen : Nat) :
    Socket × Nat :=
  ({ s with written := s.written ++ (frameHeader type flags streamId dataLen ++ data.take dataLen) },
   0)

/-- The frame-header decoder at the start of the `H2Frames` branch of `readyRead`:
24-bit length, type, flags and stream id with the reserved bit masked off. -/
def decodeFrameHeader (buffer : List Nat) : H2Frame :=
  let size2 := buffer.getD 0 0
  let size1 := buffer.getD 1 0
  let size0 := buffer.getD 2 0
  let type := buffer.getD 3 0
  let flags := buffer.getD 4 0
  let id3 := buffer.getD 5 0
  let id2 := buffer.getD 6 0
  let id1 := buffer.getD 7 0
  let id0 := buffer.getD 8 0
  { len := size0 ||| (size1 <<< 8) ||| (size2 <<< 16),
    streamId := id0 ||| (id1 <<< 8) ||| (id2 <<< 16) ||| ((id3 &&& 0x7f) <<< 24),
    type := type,
    flags := flags }

/-- The function `ProtocolHttp2::sendGoAway`: a GOAWAY frame on stream 0 whose payload
is the last stream id and the error code, both big-endian; returns the error code. -/
def sendGoAway (s : Socket) (lastStreamId error : Nat) : Socket × Nat :=
  let data := [quint8 (lastStreamId >>> 24), quint8 (lastStreamId >>> 16),
    quint8 (lastStreamId >>> 8), quint8 lastStreamId,
    quint8 (error >>> 24), quint8 (error >>> 16), quint8 (error >>> 8), quint8 error]
  ((sendFrame s FrameGoaway 0 0 data 8).1, error)

/-- The function `ProtocolHttp2::sendRstStream`: a RST_STREAM frame on `streamId`
carrying the big-endian error code; returns the error code. -/
def sendRstStream (s : Socket) (streamId error : Nat) : Socket × Nat :=
  let data := [quint8 (error >>> 24), quint8 (error >>> 16), quint8 (error >>> 8), quint8 error]
  ((sendFrame s FrameRstStream 0 streamId data 4).1, error)

/-- The payload `sendSettings` builds: six octets per (identifier, value) pair. -/
def settingsPayload : List (Nat × Nat) → List Nat
  | [] => []
  | pair :: rest =>
    [quint8 (pair.1 >>> 8), quint8 pair.1,
     quint8 (pair.2 >>> 24), quint8 (pair.2 >>> 16), quint8 (pair.2 >>> 8), quint8 pair.2]
      ++ settingsPayload rest

/-- The function `ProtocolHttp2::sendSettings`: a SETTINGS frame without flags on stream 0. -/
def sendSettings (s : Socket) (settings : List (Nat × Nat)) : Socket × Nat :=
  let data := settingsPayload settings
  sendFrame s FrameSettings 0 0 data data.length

/-- The function `ProtocolHttp2::sendSettingsAck`, that is `sendFrame(io, FrameSettings,
FlagSettingsAck)`; the defaulted arguments (declared in the absent `protocolhttp2.h`)
are stream id 0 and no payload. -/
def sendSettingsAck (s : Socket) : Socket × Nat :=
  sendFrame s FrameSettings FlagSettingsAck 0 [] 0

/-- The function `ProtocolHttp2::sendPing`. -/
def sendPing (s : Socket) (flags : Nat) (data : List Nat) (dataLen : Nat) : Socket × Nat :=
  sendFrame s FramePing flags 0 data dataLen

/-! ## Stream table -/

/-- Modelled from the spec: `Socket::connectionClose()` is defined outside the given
sources; the connection is marked closed. -/
def connectionClose (s : Socket) : Socket := { s with closed := true }

/-- The lookup `sock->streams.constFind(id)`. -/
def findStream (streams : List (Nat × H2Stream)) (id : Nat) : Option H2Stream :=
  match streams.find? (fun e => e.1 == id) with
  | some e => some e.2
  | none => none

/-- A write through the `H2Stream *` found for `id`: the record stored under `id`
is replaced. -/
def setStream (streams : List (Nat × H2Stream)) (id : Nat) (st : H2Stream) :
    List (Nat × H2Stream) :=
  streams.map (fun e => if e.1 = id then (e.1, st) else e)

/-- The call `sock->streams.insert(id, stream)`. -/
def insertStream (streams : List (Nat × H2Stream)) (id : Nat) (st : H2Stream) :
    List (Nat × H2Stream) :=
  if (findStream streams id).isSome then setStream streams id st else streams ++ [(id, st)]

/-- The scheduling call `QTimer::singleShot(0, io, [=] () { sendDummyReply(sock, io, fr); })`. -/
def schedule (s : Socket) (fr : H2Frame) : Socket := { s with deferred := s.deferred ++ [fr] }

/-! ## Frame handlers -/

/-- The `while (sock->pktsize > pos)` loop of `parseSettings`, starting at offset
`pos`; `some code` is the value of an early `return sendGoAway(...)`.  Each round
advances `pos` by 6, so `fuel = pktsize` rounds are never exhausted. -/
def settingsLoop : Nat → Socket → Nat → Socket × Option Nat
  | 0, s, _ => (s, none)
  | fuel + 1, s, pos =>
    if s.pktsize > pos then
      let identifier := h2_be16 s.buffer (9 + pos)
      let value := h2_be32 s.buffer (9 + 2 + pos)
      if identifier = SETTINGS_ENABLE_PUSH then
        if value > 1 then
          let r := sendGoAway s s.maxStreamId ErrorProtocolError
          (r.1, some r.2)
        else settingsLoop fuel { s with canPush := value } (pos + 6)
      else if identifier = SETTINGS_INITIAL_WINDOW_SIZE then
        if value > 2147483647 then
          let r := sendGoAway s s.maxStreamId ErrorFlowControlError
          (r.1, some r.2)
        else settingsLoop fuel { s with windowSize := value } (pos + 6)
      else if identifier = SETTINGS_MAX_FRAME_SIZE ∧ (value < 16384 ∨ value > 16777215) then
        let r := sendGoAway s s.maxStreamId ErrorProtocolError
        (r.1, some r.2)
      else settingsLoop fuel s (pos + 6)
    else (s, none)

/-- The function `ProtocolHttp2::parseSettings`. -/
def parseSettings (s : Socket) (fr : H2Frame) : Socket × Nat :=
  if (fr.flags &&& FlagSettingsAck ≠ 0 ∧ fr.len ≠ 0) ∨ fr.len % 6 ≠ 0 then
    ((sendGoAway s s.maxStreamId ErrorFrameSizeError).1, 1)
  else if fr.streamId ≠ 0 then
    ((sendGoAway s s.maxStreamId ErrorProtocolError).1, 1)
  else if fr.flags &&& FlagSettingsAck = 0 then
    match settingsLoop s.pktsize s 0 with
    | (s1, some code) => (s1, code)
    | (s1, none) => ((sendSettingsAck s1).1, ErrorNoError)
  else (s, ErrorNoError)

/-- The function `ProtocolHttp2::parseData`.  The pad-length octet is read at
`buffer + 9` whatever `fr.len` is; for a frame of length 0 that is the last thing
buffered it lies behind the buffered octets and reads as 0 here, and the frame is
rejected whatever its value (`padLength >= fr.len`). -/
def parseData (s : Socket) (fr : H2Frame) : Socket × Nat :=
  if fr.streamId = 0 then sendGoAway s s.maxStreamId ErrorProtocolError
  else
    let padded := fr.flags &&& FlagDataPadded ≠ 0
    let padLength := if padded then quint8 (s.buffer.getD 9 0) else 0
    if padded ∧ padLength ≥ fr.len then sendGoAway s s.maxStreamId ErrorProtocolError
    else
      match findStream s.streams fr.streamId with
      | none => sendGoAway s s.maxStreamId ErrorStreamClosed
      | some stream =>
        if stream.state = .Idle then sendGoAway s s.maxStreamId ErrorProtocolError
        else if stream.state = .HalfClosed ∨ stream.state = .Closed then
          sendGoAway s s.maxStreamId ErrorStreamClosed
        else
          let stream1 : H2Stream :=
            { stream with consumedData := stream.consumedData + ((fr.len - padLength : Nat) : Int) }
          let s1 : Socket := { s with streams := setStream s.streams fr.streamId stream1 }
          if stream1.contentLength ≠ -1 ∧
              ((fr.flags &&& FlagDataEndStream ≠ 0 ∧ stream1.contentLength ≠ stream1.consumedData) ∨
                stream1.contentLength > stream1.consumedData) then
            sendGoAway s1 s1.maxStreamId ErrorProtocolError
          else if fr.flags &&& FlagDataEndStream ≠ 0 then (schedule s1 fr, ErrorNoError)
          else (s1, ErrorNoError)

/-- The second half of `parseHeaders`, from the state update of the resolved stream
on.  `pos` is the size of the preamble already read.  The fragment handed to the codec
runs from `buffer + 9 + pos` for `fr.len - pos - padLength` octets (none when that
difference is not positive). -/
def headersTail (p : ProtocolHttp2) (s : Socket) (fr : H2Frame) (pos padLength : Nat)
    (stream : H2Stream) : Socket × Nat :=
  let stream1 : H2Stream := if stream.state = .Idle then { stream with state := .Open } else stream
  let stream2 : H2Stream :=
    if fr.flags &&& FlagHeadersEndStream ≠ 0 then { stream1 with state := .HalfClosed } else stream1
  let fragment := (s.buffer.drop (9 + pos)).take (fr.len - pos - padLength)
  let r := p.decode fragment stream2
  if r.1 ≠ 0 then
    sendGoAway { s with streams := setStream s.streams fr.streamId r.2.2 } s.maxStreamId r.1
  else
    let stream3 : H2Stream := { r.2.2 with headers := r.2.1 }
    let s1 : Socket := { s with streams := setStream s.streams fr.streamId stream3 }
    if fr.flags &&& FlagHeadersEndHeaders ≠ 0 then
      let s2 : Socket := { s1 with streamForContinuation := 0 }
      if (stream3.state = .HalfClosed ∨ fr.flags &&& FlagHeadersEndStream ≠ 0) ∧
          s2.streamForContinuation = 0 then
        (schedule s2 fr, 0)
      else (s2, 0)
    else ({ s1 with streamForContinuation := fr.streamId }, 0)

/-- The function `ProtocolHttp2::parseHeaders`.  The pad-length octet and the priority
fields are read at `buffer + 9` whatever `fr.len` is.  When the frame is shorter than
this preamble and is the last thing buffered, the code reads what the buffer memory
holds behind the buffered octets (left there by earlier reads); here such an octet
reads as 0, so a result that depends on such an octet is the result for the case that
the memory holds 0 there. -/
def parseHeaders (p : ProtocolHttp2) (s : Socket) (fr : H2Frame) : Socket × Nat :=
  if fr.streamId = 0 then sendGoAway s s.maxStreamId ErrorProtocolError
  else
    let padded := fr.flags &&& FlagHeadersPadded ≠ 0
    let padLength := if padded then quint8 (s.buffer.getD 9 0) else 0
    if padded ∧ padLength > fr.len then sendGoAway s s.maxStreamId ErrorProtocolError
    else
      let pos := if padded then 1 else 0
      let prio := fr.flags &&& FlagHeadersPriority ≠ 0
      let streamDependency := if prio then h2_be32 s.buffer (9 + pos) else 0
      if prio ∧ fr.streamId = streamDependency then
        sendGoAway s s.maxStreamId ErrorProtocolError
      else
        let pos1 := if prio then pos + 4 + 1 else pos
        match findStream s.streams fr.streamId with
        | some stream =>
          if fr.flags &&& FlagHeadersEndStream = 0 ∧ stream.state = .Open ∧
              s.streamForContinuation = 0 then
            sendGoAway s s.maxStreamId ErrorProtocolError
          else headersTail p s fr pos1 padLength stream
        | none =>
          if s.maxStreamId ≥ fr.streamId then sendGoAway s s.maxStreamId ErrorProtocolError
          else
            let s1 : Socket :=
              { s with maxStreamId := fr.streamId,
                       streams := insertStream s.streams fr.streamId H2Stream.fresh }
            headersTail p s1 fr pos1 padLength H2Stream.fresh

/-- The function `ProtocolHttp2::parsePriority`.  Past the two guards `fr.len` is 5, so
the `while (fr.len > pos)` loop, which advances `pos` by 6, runs exactly once. -/
def parsePriority (s : Socket) (fr : H2Frame) : Socket × Nat :=
  if fr.len ≠ 5 then
    (connectionClose (sendGoAway s s.maxStreamId ErrorFrameSizeError).1, 1)
  else if fr.streamId = 0 then
    (connectionClose (sendGoAway s s.maxStreamId ErrorProtocolError).1, 1)
  else
    let exclusiveAndStreamDep := h2_be32 s.buffer 9
    if fr.streamId = exclusiveAndStreamDep then sendGoAway s s.maxStreamId ErrorProtocolError
    else (s, 0)

/-- The function `ProtocolHttp2::parsePing`. -/
def parsePing (s : Socket) (fr : H2Frame) : Socket × Nat :=
  if fr.len ≠ 8 then
    (connectionClose (sendGoAway s s.maxStreamId ErrorFrameSizeError).1, 1)
  else if fr.streamId ≠ 0 then
    (connectionClose (sendGoAway s s.maxStreamId ErrorProtocolError).1, 1)
  else if fr.flags &&& FlagPingAck = 0 then
    ((sendPing s FlagPingAck (s.buffer.drop 9) 8).1, 0)
  else (s, 0)

/-- The function `ProtocolHttp2::parseRstStream`. -/
def parseRstStream (s : Socket) (fr : H2Frame) : Socket × Nat :=
  if fr.streamId = 0 then sendGoAway s s.maxStreamId ErrorProtocolError
  else if s.pktsize ≠ 4 then sendGoAway s s.maxStreamId ErrorFrameSizeError
  else
    match findStream s.streams fr.streamId with
    | none => sendGoAway s s.maxStreamId ErrorStreamClosed
    | some stream =>
      if stream.state = .Idle then sendGoAway s s.maxStreamId ErrorProtocolError
      else
        let stream1 : H2Stream := { stream with state := .Closed }
        ({ s with streams := setStream s.streams fr.streamId stream1 }, 0)

/-- Modelled from the spec: the window members are declared in the absent `socket.h`;
the spec gives the window as unsigned, so `windowSize + windowSizeIncrement` is a sum
of 32-bit unsigned operands, computed modulo 2^32 before it is widened to `quint64`.
(In the source the connection window is assigned from the `quint32` SETTINGS value and
handed to `sendData` as a `qint32`; an operand of any integer type up to 32 bits is
converted to `unsigned int` when added to the `quint32` increment.) -/
def windowSum (windowSize windowSizeIncrement : Nat) : Nat :=
  (windowSize + windowSizeIncrement) % 2 ^ 32

/-- The function `ProtocolHttp2::parseWindowUpdate`. -/
def parseWindowUpdate (s : Socket) (fr : H2Frame) : Socket × Nat :=
  if fr.len ≠ 4 then sendGoAway s s.maxStreamId ErrorProtocolError
  else
    let windowSizeIncrement := h2_be32 s.buffer 9
    if windowSizeIncrement = 0 then sendGoAway s s.maxStreamId ErrorProtocolError
    else if fr.streamId ≠ 0 then
      match findStream s.streams fr.streamId with
      | none => sendGoAway s s.maxStreamId ErrorStreamClosed
      | some stream =>
        if stream.state = .Idle then sendGoAway s s.maxStreamId ErrorProtocolError
        else
          let result := windowSum stream.windowSize windowSizeIncrement
          if result > 2147483647 then
            let stream1 : H2Stream := { stream with state := .Closed, windowSize := result }
            let s1 : Socket := { s with streams := setStream s.streams fr.streamId stream1 }
            ((sendRstStream s1 fr.streamId ErrorFlowControlError).1, 0)
          else
            let stream1 : H2Stream := { stream with windowSize := result }
            ({ s with streams := setStream s.streams fr.streamId stream1 }, 0)
    else
      let result := windowSum s.windowSize windowSizeIncrement
      if result > 2147483647 then sendGoAway s s.maxStreamId ErrorFlowControlError
      else ({ s with windowSize := result }, 0)

/-! ## The frame-processing loop of `readyRead` -/

/-- How one round of the loop `while (sock->buf_size && ret == 0)` ends: it falls
through to the loop test, leaves the loop with `break`, or leaves `readyRead` with
`return`. -/
inductive Flow where
  | next
  | brk
  | ret
  deriving DecidableEq

/-- The two statements that end a round in which a frame was handled: `buf_size -= 9 +
pktsize` and the `memmove` of the remaining octets to the start of the buffer. -/
def advance (s : Socket) : Socket := { s with buffer := s.buffer.drop (9 + s.pktsize) }

/-- The `if ... else if ...` chain on `fr->type`, with the statements after it.  `type`
is the (possibly re-tagged) type octet in the buffer and `frame` the decoded header. -/
def dispatch (p : ProtocolHttp2) (s : Socket) (type : Nat) (frame : H2Frame) :
    Socket × Nat × Flow :=
  if type = FrameSettings then
    let r := parseSettings s frame
    (advance r.1, r.2, .next)
  else if type = FramePriority then
    let r := parsePriority s frame
    (advance r.1, r.2, .next)
  else if type = FrameHeaders then
    let r := parseHeaders p s frame
    (advance r.1, r.2, .next)
  else if type = FramePing then
    let r := parsePing s frame
    (advance r.1, r.2, .next)
  else if type = FrameData then
    let r := parseData s frame
    (advance r.1, r.2, .next)
  else if type = FramePushPromise then
    let r := sendGoAway s s.maxStreamId ErrorProtocolError
    (r.1, r.2, .brk)
  else if type = FrameRstStream then
    let r := parseRstStream s frame
    (advance r.1, r.2, .next)
  else if type = FrameWindowUpdate then
    let r := parseWindowUpdate s frame
    (advance r.1, r.2, .next)
  else if type = FrameGoaway then (connectionClose s, 0, .ret)
  else if type = FrameContinuation then
    let r := sendGoAway s s.maxStreamId ErrorProtocolError
    (r.1, r.2, .brk)
  else (advance s, 0, .next)

/-- One round of the loop `while (sock->buf_size && ret == 0)` in `readyRead`, entered
with `ret == 0`: the resulting socket, the value of `ret`, and how the round ends. -/
def loopBody (p : ProtocolHttp2) (s : Socket) : Socket × Nat × Flow :=
  match s.connState with
  | .MethodLine =>
    if s.buffer.length ≥ PREFACE_SIZE then
      if s.buffer.take 24 = preface then
        let s1 : Socket := { s with buffer := s.buffer.drop PREFACE_SIZE, connState := .H2Frames }
        ((sendSettings s1 [(SETTINGS_MAX_FRAME_SIZE, p.m_maxFrameSize)]).1, 0, .next)
      else
        let r := sendGoAway s s.maxStreamId ErrorProtocolError
        (r.1, r.2, .next)
    else (s, 0, .next)
  | .H2Frames =>
    if s.buffer.length ≥ 9 then
      let frame := decodeFrameHeader s.buffer
      let s1 : Socket := { s with pktsize := frame.len, stream_id := frame.streamId }
      if frame.streamId ≠ 0 ∧ frame.streamId &&& 1 = 0 then
        let r := sendGoAway s1 s1.maxStreamId ErrorProtocolError
        (r.1, r.2, .brk)
      else if s1.pktsize > p.m_maxFrameSize then
        let r := sendGoAway s1 s1.maxStreamId ErrorFrameSizeError
        (r.1, r.2, .brk)
      else if s1.pktsize > s1.buffer.length - 9 then (s1, 0, .brk)
      else if s1.streamForContinuation ≠ 0 then
        if frame.type = FrameContinuation ∧ s1.streamForContinuation = frame.streamId then
          dispatch p { s1 with buffer := s1.buffer.set 3 FrameHeaders } FrameHeaders frame
        else
          let r := sendGoAway s1 s1.maxStreamId ErrorProtocolError
          (r.1, r.2, .brk)
      else dispatch p s1 frame.type frame
    else (s, 0, .next)

/-- The loop `while (sock->buf_size && ret == 0)` of `readyRead`, entered with `ret`;
the result is the socket and `ret` when the loop is left, and whether `readyRead`
returned from inside it.  `none` means the loop wants another round after `fuel` rounds. -/
def processLoop (p : ProtocolHttp2) : Nat → Socket → Nat → Option (Socket × Nat × Bool)
  | 0, s, ret => if s.buffer.length ≠ 0 ∧ ret = 0 then none else some (s, ret, false)
  | fuel + 1, s, ret =>
    if s.buffer.length ≠ 0 ∧ ret = 0 then
      match loopBody p s with
      | (s1, ret1, .next) => processLoop p fuel s1 ret1
      | (s1, ret1, .brk) => some (s1, ret1, false)
      | (s1, ret1, .ret) => some (s1, ret1, true)
    else some (s, ret, false)

/-- What `readyRead` does with the buffer after one successful `io->read`: `ret = 0`,
the frame loop, and `connectionClose()` when the loop left `ret` nonzero. -/
def processBuffer (p : ProtocolHttp2) (fuel : Nat) (s : Socket) : Option Socket :=
  match processLoop p fuel s 0 with
  | none => none
  | some (s1, ret, returned) =>
    if returned then some s1
    else if ret ≠ 0 then some (connectionClose s1)
    else some s1

/-- A codec that accepts every fragment and decodes no header; used for concrete runs. -/
def nullCodec : List Nat → H2Stream → Nat × List Header × H2Stream :=
  fun _ st => (0, [], st)

/-! ## Wire images used to state the theorems -/

/-- The seventeen octets of a GOAWAY frame: header (length 8, type 7, no flags, stream
0), last stream id, error code. -/
def goAwayOctets (lastStreamId error : Nat) : List Nat :=
  [0, 0, 8, 7, 0, 0, 0, 0, 0,
   quint8 (lastStreamId >>> 24), quint8 (lastStreamId >>> 16), quint8 (lastStreamId >>> 8),
   quint8 lastStreamId,
   quint8 (error >>> 24), quint8 (error >>> 16), quint8 (error >>> 8), quint8 error]

/-- The nine octets of a SETTINGS frame with the ACK flag: length 0, type 4, flags 1,
stream 0. -/
def settingsAckOctets : List Nat := [0, 0, 0, 4, 1, 0, 0, 0, 0]

/-- The protocol object for a buffer size of 16393, with the codec `nullCodec`. -/
def smallProtocol : ProtocolHttp2 :=
  { m_bufferSize := 16393, m_maxFrameSize := 16384, decode := nullCodec }

/-- The rejection rule for one SETTINGS pair as the specification states it, to be
compared with the loop of `parseSettings`.  The code for one (identifier, value) pair:
ENABLE_PUSH above 1 is PROTOCOL_ERROR, INITIAL_WINDOW_SIZE above 2^31-1 is
FLOW_CONTROL_ERROR, MAX_FRAME_SIZE outside [16384, 16777215] is PROTOCOL_ERROR; `none`
for a pair that passes. -/
def specPairErrorCode (identifier value : Nat) : Option Nat :=
  if identifier = SETTINGS_ENABLE_PUSH ∧ value > 1 then some ErrorProtocolError
  else if identifier = SETTINGS_INITIAL_WINDOW_SIZE ∧ value > 2147483647 then
    some ErrorFlowControlError
  else if identifier = SETTINGS_MAX_FRAME_SIZE ∧ (value < 16384 ∨ value > 16777215) then
    some ErrorProtocolError
  else none

/-- The `k`-th (identifier, value) pair of the payload of the frame at the start of the
buffer, in payload order. -/
def settingsPair (buffer : List Nat) (k : Nat) : Nat × Nat :=
  (h2_be16 buffer (9 + 6 * k), h2_be32 buffer (9 + 2 + 6 * k))

/-! ## Sending DATA -/

/-- The loop `while (i < dataLen)` of `sendData`, entered with offset `i` and the current
`flags`: each round sends a DATA frame of `windowSize` octets read from `data + i`, adds
`windowSize` to `i`, and sets the END_STREAM flag for the following rounds when
`(i + 1) == dataLen`.  `data` is the memory from the `data` pointer on, of which the
first `dataLen` octets are the payload.  `windowSize` is at least 1 here, so `fuel =
dataLen` rounds are never exhausted. -/
def sendDataLoop (streamId windowSize : Nat) (data : List Nat) (dataLen : Nat) :
    Nat → Socket → Nat → Nat → Socket
  | 0, s, _, _ => s
  | fuel + 1, s, i, flags =>
    if i < dataLen then
      let s1 := (sendFrame s FrameData flags streamId (data.drop i) windowSize).1
      let i1 := i + windowSize
      let flags1 := if i1 + 1 = dataLen then FlagDataEndStream else flags
      sendDataLoop streamId windowSize data dataLen fuel s1 i1 flags1
    else s

/-- The function `ProtocolHttp2::sendData`; `windowSize` is a signed `qint32`. -/
def sendData (s : Socket) (streamId : Nat) (windowSize : Int) (data : List Nat) (dataLen : Nat) :
    Socket × Nat :=
  if windowSize < 1 then (s, 0)
  else if windowSize < (dataLen : Int) then
    (sendDataLoop streamId windowSize.toNat data dataLen dataLen s 0 0, 0)
  else sendFrame s FrameData FlagDataEndStream streamId data dataLen

/-- The twelve octets of the reply body `"Hello World!"` of `sendDummyReply`. -/
def helloWorld : List Nat := [72, 101, 108, 108, 111, 32, 87, 111, 114, 108, 100, 33]

/-! ## The preamble of a HEADERS frame -/

/-- The value of `padLength` in `parseHeaders`: the octet at `buffer + 9` when the PADDED
flag is set, 0 otherwise. -/
def headersPadLength (s : Socket) (fr : H2Frame) : Nat :=
  if fr.flags &&& FlagHeadersPadded ≠ 0 then quint8 (s.buffer.getD 9 0) else 0

/-- The value of `pos` when `parseHeaders` executes `ptr += pos`: one octet for the pad
length, then four for the stream dependency and one for the weight. -/
def headersPos (fr : H2Frame) : Nat :=
  let pos := if fr.flags &&& FlagHeadersPadded ≠ 0 then 1 else 0
  if fr.flags &&& FlagHeadersPriority ≠ 0 then pos + 4 + 1 else pos

/-- The offsets from the start of the payload (`sock->buffer + 9`) of the octets that
the preamble of `parseHeaders` reads: `*(ptr + pos)` for the pad length, the four octets
of `h2_be32(ptr + pos)` and `*(ptr + pos)` for the weight. -/
def headersPreambleReads (fr : H2Frame) : List Nat :=
  let pos := if fr.flags &&& FlagHeadersPadded ≠ 0 then 1 else 0
  (if fr.flags &&& FlagHeadersPadded ≠ 0 then [0] else []) ++
    (if fr.flags &&& FlagHeadersPriority ≠ 0 then [pos, pos + 1, pos + 2, pos + 3, pos + 4]
     else [])

/-- The signed length `itEnd - it` of the range handed to `HPackTables::decode`, where
`itEnd = it + fr.len - pos - padLength`. -/
def headersFragmentLength (fr : H2Frame) (pos padLength : Nat) : Int :=
  (fr.len : Int) - (pos : Int) - (padLength : Int)

/-- A codec for concrete runs that decodes every octet `b` of a fragment into one header
with name `[b]` and value `[b]`, and leaves the stream alone. -/
def octetCodec : List Nat → H2Stream → Nat × List Header × H2Stream :=
  fun fragment st => (0, fragment.map (fun b => ([b], [b])), st)

/-- A stream in state Open with the values of a new stream otherwise; for concrete runs. -/
def openStream : H2Stream := { H2Stream.fresh with state := .Open }

/-- A connection in state H2Frames on which stream 1 is Open and is the highest stream
seen; for concrete runs. -/
def oneStreamSocket : Socket :=
  { Socket.fresh with connState := .H2Frames, maxStreamId := 1, streams := [(1, openStream)] }

/-- The protocol object for a buffer size of 16393, with the codec `octetCodec`. -/
def octetProtocol : ProtocolHttp2 :=
  { m_bufferSize := 16393, m_maxFrameSize := 16384, decode := octetCodec }

/-- A connection in state H2Frames with no stream yet, whose buffer holds one HEADERS
frame for stream 1 with the flags END_STREAM and END_HEADERS and no payload; for concrete
runs. -/
def requestSocket : Socket :=
  { Socket.fresh with connState := .H2Frames, stream_id := 1,
                      buffer := [0, 0, 0, 1, 5, 0, 0, 0, 1] }

/-- The decoded header of the frame in the buffer of `requestSocket`. -/
def requestFrame : H2Frame := { len := 0, streamId := 1, type := 1, flags := 5 }

/-- The protocol object the constructor makes for a buffer size of 16777225, with the
codec `nullCodec`; for concrete runs. -/
def largeProtocol : ProtocolHttp2 :=
  { m_bufferSize := 16777225, m_maxFrameSize := 16777216, decode := nullCodec }

/-- A connection in state H2Frames on which streams 1 and 3 are Open, whose buffer holds
one RST_STREAM frame for stream 1 with error code 8; for concrete runs. -/
def twoStreamSocket : Socket :=
  { Socket.fresh with connState := .H2Frames, maxStreamId := 3,
                      streams := [(1, openStream), (3, openStream)],
                      buffer := [0, 0, 4, 3, 0, 0, 0, 0, 1, 0, 0, 0, 8] }

/-! ## HTTP/1.1: `protocolhttp.cpp`

Strings (`QString::fromLatin1`, `QByteArray`) are lists of octets.  Pointers into
`sock->buf` are offsets from its start. -/

/-- The request that `sock->engine->processSocket(sock)` hands to the application: the
request members of the socket at the moment of the call. -/
structure H1Request where
  method : List Nat
  path : List Nat
  query : List Nat
  protocol : List Nat
  headers : List Header
deriving DecidableEq, Repr

/-- Modelled from the spec: the members of `TcpSocket` (declared in the absent `socket.h`)
that `protocolhttp.cpp` uses.  `buf` holds the `buf_size` valid octets of the 4096-octet
receive buffer.  `connState` is 0 while the request line is awaited and 1 while header
lines are read; `headerClose` is 0 (unset), 1 (keep-alive) or 2 (close).  `disconnected`
records a call of `disconnectFromHost()`, and `dispatched` the requests handed to
`processSocket`, oldest first.  The members `processing` and `start` are written but
never read by this file and are left out. -/
structure TcpSocket where
  buf : List Nat
  last : Nat
  beginLine : Nat
  connState : Nat
  headerClose : Nat
  method : List Nat
  path : List Nat
  query : List Nat
  protocol : List Nat
  headers : List Header
  disconnected : Bool
  dispatched : List H1Request
deriving DecidableEq, Repr

/-- Modelled from the spec: a connection as it is when accepted. -/
def TcpSocket.fresh : TcpSocket :=
  { buf := [], last := 0, beginLine := 0, connState := 0, headerClose := 0, method := [],
    path := [], query := [], protocol := [], headers := [], disconnected := false,
    dispatched := [] }

/-- Modelled from the spec: `resetSocket()` is declared in the absent `socket.h`; it
resets the per-request state (method, path, query, protocol, headers, connection
directive) and puts the parser back at the start of an empty buffer, waiting for a
request line.  (`readyRead` sets `buf_size` again after the call when pipelined octets
were moved to the front.) -/
def resetSocket (s : TcpSocket) : TcpSocket :=
  { s with connState := 0, buf := [], beginLine := 0, last := 0, headerClose := 0,
           method := [], path := [], query := [], protocol := [], headers := [] }

/-- Modelled from the spec: `sock->engine->processSocket(sock)` belongs to the application
collaborator; the request is recorded and the socket is otherwise left as it is. -/
def processSocket (s : TcpSocket) : TcpSocket :=
  { s with dispatched := s.dispatched ++
             [{ method := s.method, path := s.path, query := s.query,
                protocol := s.protocol, headers := s.headers }] }

/-- Modelled from the spec: `Cutelyst::Headers::pushHeader` (the class is outside the
given sources) appends one entry and keeps the earlier ones in order. -/
def pushHeader (headers : List Header) (key value : List Nat) : List Header :=
  headers ++ [(key, value)]

/-- The first offset at which the two octets CR LF occur. -/
def findCRLF : List Nat → Option Nat
  | [] => none
  | c :: rest =>
    if c = 13 ∧ rest.head? = some 10 then some 0 else (findCRLF rest).map (· + 1)

/-- The call `matcher.indexIn(sock->buf, sock->buf_size, from)` of the matcher for
"\r\n": the first offset not below `frm` at which CR LF occurs among the valid octets;
`none` stands for -1. -/
def indexIn (buf : List Nat) (frm : Nat) : Option Nat :=
  (findCRLF (buf.drop frm)).map (· + frm)

/-- The loop `while (cond(*wb) && wb < lim) ++wb;` run for at most `fuel` rounds. -/
def scanWhile (cond : Nat → Bool) (buf : List Nat) (lim : Nat) : Nat → Nat → Nat
  | 0, wb => wb
  | fuel + 1, wb =>
    if cond (buf.getD wb 0) = true ∧ wb < lim then scanWhile cond buf lim fuel (wb + 1)
    else wb

/-- The loop `while (cond(*wb) && wb < lim) ++wb;`: the value of `wb` when it is left.
The loop makes at most `lim - wb` rounds, since every round needs `wb < lim`. -/
def scan (cond : Nat → Bool) (buf : List Nat) (wb lim : Nat) : Nat :=
  scanWhile cond buf lim (lim - wb) wb

/-- The octets from offset `ptr` up to offset `wb`: `QString::fromLatin1(ptr, wb - ptr)`
and `QByteArray(ptr, wb - ptr)`.  In the calls made by `readyRead` the octet at `end` is
CR, so that no scan passes `end` and the size is never negative. -/
def slice (buf : List Nat) (ptr wb : Nat) : List Nat := (buf.take wb).drop ptr

/-- The four strings that `processRequest` takes from the line between `ptr` and `end_`:
method, path, query and protocol. -/
def requestLine (buf : List Nat) (ptr end_ : Nat) :
    List Nat × List Nat × List Nat × List Nat :=
  let wb1 := scan (fun c => c != 32) buf ptr end_
  let method := slice buf ptr wb1
  -- skip spaces
  let wb2 := scan (fun c => c == 32) buf wb1 end_
  -- skip leading slashes
  let ptr2 := scan (fun c => c == 47) buf wb2 (end_ + 1)
  -- find path end
  let wb3 := scan (fun c => c != 32 && c != 63) buf wb2 end_
  let path := slice buf ptr2 wb3
  let wb4 := if buf.getD wb3 0 = 63 then scan (fun c => c != 32) buf wb3 end_ else wb3
  let query := if buf.getD wb3 0 = 63 then slice buf wb3 wb4 else []
  -- skip spaces
  let wb5 := scan (fun c => c == 32) buf wb4 end_
  let wb6 := scan (fun c => c != 32) buf wb5 end_
  (method, path, query, slice buf wb5 wb6)

/-- `ProtocolHttp::processRequest(ptr, end, sock)`. -/
def processRequest (s : TcpSocket) (ptr end_ : Nat) : TcpSocket :=
  let r := requestLine s.buf ptr end_
  { s with method := r.1, path := r.2.1, query := r.2.2.1, protocol := r.2.2.2 }

/-- The strings `key` and `value` that `processHeader` takes from the line between `ptr`
and `end_`. -/
def headerLine (buf : List Nat) (ptr end_ : Nat) : Header :=
  let wb1 := scan (fun c => c != 58) buf ptr end_
  let key := slice buf ptr wb1
  let wb2 := scan (fun c => c == 58 || c == 32) buf wb1 end_
  (key, slice buf wb2 end_)

/-- Lower-casing of the letters A to Z. -/
def toLower (c : Nat) : Nat := if 65 ≤ c ∧ c ≤ 90 then c + 32 else c

/-- The test `a.compare(QLatin1String(b), Qt::CaseInsensitive) == 0` for a string `a` made
by `fromLatin1` and an ASCII literal `b`: among the Latin-1 characters only the letters A
to Z fold to an ASCII character other than themselves. -/
def equalsCI (a b : List Nat) : Bool := a.map toLower == b.map toLower

/-- The literal "Connection". -/
def connectionName : List Nat := [67, 111, 110, 110, 101, 99, 116, 105, 111, 110]

/-- The literal "close". -/
def closeValue : List Nat := [99, 108, 111, 115, 101]

/-- `ProtocolHttp::processHeader(ptr, end, sock)`. -/
def processHeader (s : TcpSocket) (ptr end_ : Nat) : TcpSocket :=
  let kv := headerLine s.buf ptr end_
  let s1 : TcpSocket :=
    if s.headerClose = 0 ∧ equalsCI kv.1 connectionName = true then
      if equalsCI kv.2 closeValue = true then { s with headerClose := 2 }
      else { s with headerClose := 1 }
    else s
  { s1 with headers := pushHeader s1.headers kv.1 kv.2 }

/-- One round of the loop `while (sock->last < sock->buf_size)` of
`ProtocolHttp::readyRead`: the socket after the round, and whether the round ended in
`break`.  `QCoreApplication::processEvents()` is taken to return without touching this
socket. -/
def httpLoopBody (s : TcpSocket) : TcpSocket × Bool :=
  match indexIn s.buf s.last with
  | some ix =>
    let len := ix - s.beginLine
    let ptr := s.beginLine
    let s1 : TcpSocket := { s with beginLine := ix + 2, last := ix + 2 }
    if s1.connState = 0 then
      let s2 := processRequest s1 ptr (ptr + len)
      ({ s2 with connState := 1, headers := [] }, false)
    else if s1.connState = 1 then
      if len ≠ 0 then (processHeader s1 ptr (ptr + len), false)
      else
        let s2 := processSocket s1
        if s2.headerClose = 2 then ({ s2 with disconnected := true }, true)
        else if s2.last < s2.buf.length then
          -- move pipelined request to 0
          ({ resetSocket s2 with buf := s2.buf.drop s2.last }, false)
        else (resetSocket s2, false)
    else (s1, false)
  | none => ({ s with last := s.buf.length }, false)

/-- The loop `while (sock->last < sock->buf_size)` of `ProtocolHttp::readyRead`; `none`
means the loop wants another round after `fuel` rounds. -/
def httpLoop : Nat → TcpSocket → Option TcpSocket
  | 0, s => if s.last < s.buf.length then none else some s
  | fuel + 1, s =>
    if s.last < s.buf.length then
      let r := httpLoopBody s
      if r.2 = true then some r.1 else httpLoop fuel r.1
    else some s

/-- `ProtocolHttp::readyRead()` when the transport has the octets `avail` ready: the read
takes as many of them as fit in the 4096-octet buffer, then the line loop runs.  The
statement `if (sock->buf_size == 4096)` after the loop has an empty body (a comment
only) and so has no counterpart here. -/
def readyRead (fuel : Nat) (s : TcpSocket) (avail : List Nat) : Option TcpSocket :=
  httpLoop fuel { s with buf := s.buf ++ avail.take (4096 - s.buf.length) }

/-- The octets of "GET / HTTP/1.1\r\nHost: a\r\n\r\n": one complete request. -/
def hostRequest : List Nat :=
  [71, 69, 84, 32, 47, 32, 72, 84, 84, 80, 47, 49, 46, 49, 13, 10,
   72, 111, 115, 116, 58, 32, 97, 13, 10, 13, 10]

/-- The octets of "GET /b HTTP/1.1\r\nHost: a\r\n\r\n": one complete request. -/
def hostRequestB : List Nat :=
  [71, 69, 84, 32, 47, 98, 32, 72, 84, 84, 80, 47, 49, 46, 49, 13, 10,
   72, 111, 115, 116, 58, 32, 97, 13, 10, 13, 10]

/-- The octets of "GET /b?x=1 HTTP/1.1\r\n": a request line with a query. -/
def queryLine : List Nat :=
  [71, 69, 84, 32, 47, 98, 63, 120, 61, 49, 32, 72, 84, 84, 80, 47, 49, 46, 49, 13, 10]

/-- The value of `headerClose` after `processHeader` has handled a line with the entry
`kv`, when it was `hc` before: the two nested tests of `processHeader`. -/
def directiveAfter (hc : Nat) (kv : Header) : Nat :=
  if hc = 0 ∧ equalsCI kv.1 connectionName = true then
    if equalsCI kv.2 closeValue = true then 2 else 1
  else hc

/-- The directive fixed by the first entry whose name is "Connection" in any letter case:
2 (close) when its value is "close" in any letter case, 1 (keep-alive) otherwise, and 0
(unset) when there is no such entry. -/
def firstConnectionDirective (hs : List Header) : Nat :=
  match hs.find? (fun kv => equalsCI kv.1 connectionName) with
  | none => 0
  | some kv => if equalsCI kv.2 closeValue = true then 2 else 1

/-- The directive in the words of the specification: 2 (close) when some entry named
"Connection" has the value "close", 1 (keep-alive) when there are entries named
"Connection" and none of them has the value "close", 0 (unset) when there is none. -/
def specDirective (hs : List Header) : Nat :=
  if hs.any (fun kv => equalsCI kv.1 connectionName && equalsCI kv.2 closeValue) = true then 2
  else if hs.any (fun kv => equalsCI kv.1 connectionName) = true then 1
  else 0

/-- The calls `processHeader(ptr, end, sock)` for the lines `(ptr, end)` of `calls`, made
one after the other on the same socket. -/
def processHeaders (s : TcpSocket) (calls : List (Nat × Nat)) : TcpSocket :=
  calls.foldl (fun s1 c => processHeader s1 c.1 c.2) s

/-- The octets of "Connection: keep-alive\r\nConnection: close\r\n\r\n": two header lines
and the blank line. -/
def twoConnectionHeaders : List Nat :=
  [67, 111, 110, 110, 101, 99, 116, 105, 111, 110, 58, 32,
   107, 101, 101, 112, 45, 97, 108, 105, 118, 101, 13, 10,
   67, 111, 110, 110, 101, 99, 116, 105, 111, 110, 58, 32, 99, 108, 111, 115, 101, 13, 10,
   13, 10]

/-- A buffer filled to its capacity with the letter "a": 4096 octets without a CR LF. -/
def fullBuffer : List Nat := List.replicate 4096 97

/-- The text of one request as a client sends it: the request line and the header lines,
each without its line end. -/
structure RequestText where
  line : List Nat
  headers : List (List Nat)
deriving DecidableEq, Repr

/-- The header lines on the wire, each followed by CR LF. -/
def renderHeaders : List (List Nat) → List Nat
  | [] => []
  | h :: hs => h ++ [13, 10] ++ renderHeaders hs

/-- One request on the wire: request line, header lines, blank line. -/
def render (r : RequestText) : List Nat :=
  r.line ++ [13, 10] ++ renderHeaders r.headers ++ [13, 10]

/-- Several requests on the wire, one after the other. -/
def renderAll : List RequestText → List Nat
  | [] => []
  | r :: rs => render r ++ renderAll rs

/-- The entry that `processHeader` makes of a header line that stands alone at the start
of a buffer. -/
def headerAlone (h : List Nat) : Header := headerLine (h ++ [13, 10]) 0 h.length

/-- The request that `processRequest` and `processHeader` make of the lines of `r` when
each line stands alone at the start of a buffer. -/
def parsedAlone (r : RequestText) : H1Request :=
  { method := (requestLine (r.line ++ [13, 10]) 0 r.line.length).1,
    path := (requestLine (r.line ++ [13, 10]) 0 r.line.length).2.1,
    query := (requestLine (r.line ++ [13, 10]) 0 r.line.length).2.2.1,
    protocol := (requestLine (r.line ++ [13, 10]) 0 r.line.length).2.2.2,
    headers := r.headers.map headerAlone }

/-- The connection directive that the header lines of `r` leave when handled from the
unset directive. -/
def directiveAlone (r : RequestText) : Nat :=
  (r.headers.map headerAlone).foldl directiveAfter 0

/-- No line of the request contains CR LF, and no header line is empty. -/
def wellFormed (r : RequestText) : Prop :=
  findCRLF r.line = none ∧ ∀ h ∈ r.headers, h ≠ [] ∧ findCRLF h = none

instance (r : RequestText) : Decidable (wellFormed r) := by
  unfold wellFormed
  infer_instance

/-- The number of lines of the requests, blank lines included: the rounds of the line
loop that they take. -/
def lineCount : List RequestText → Nat
  | [] => 0
  | r :: rs => r.headers.length + 2 + lineCount rs

/-- The two requests of Scenario C: "GET / HTTP/1.1" and "GET /b HTTP/1.1", each with the
header line "Host: a". -/
def scenarioC : List RequestText :=
  [{ line := [71, 69, 84, 32, 47, 32, 72, 84, 84, 80, 47, 49, 46, 49],
     headers := [[72, 111, 115, 116, 58, 32, 97]] },
   { line := [71, 69, 84, 32, 47, 98, 32, 72, 84, 84, 80, 47, 49, 46, 49],
     headers := [[72, 111, 115, 116, 58, 32, 97]] }]

/-- The request "GET /c HTTP/1.1" with the header line "Connection: close". -/
def closingRequest : RequestText :=
  { line := [71, 69, 84, 32, 47, 99, 32, 72, 84, 84, 80, 47, 49, 46, 49],
    headers := [[67, 111, 110, 110, 101, 99, 116, 105, 111, 110, 58, 32,
                 99, 108, 111, 115, 101]] }

/-- The condition on the stream table and the highest stream id: every key is odd (hence
positive) and at most `maxId`, and no stream is Idle, except possibly under the key
`skip` (0 for no exception: 0 is never a key). -/
def tableOk (skip : Nat) (streams : List (Nat × H2Stream)) (maxId : Nat) : Prop :=
  ∀ e ∈ streams, e.1 % 2 = 1 ∧ e.1 ≤ maxId ∧ (e.1 ≠ skip → e.2.state ≠ .Idle)

/-- The stream-table invariant of a connection: every key of the stream table is an odd
positive integer not above the highest stream id, and no stream in the table is Idle. -/
def streamTableInvariant (s : Socket) : Prop :=
  ∀ e ∈ s.streams, e.1 % 2 = 1 ∧ e.1 ≤ s.maxStreamId ∧ e.2.state ≠ .Idle

instance (s : Socket) : Decidable (streamTableInvariant s) := by
  unfold streamTableInvariant
  infer_instance

/-- One round of the `do ... while (bytesAvailable)` loop of `ProtocolHttp2::readyRead`
when the transport has the octets `avail` ready: `io->read` takes as many of them as fit
in the buffer of `m_bufferSize` octets; if it took any, the frame loop runs (with
`fuel` rounds at most), otherwise the round ends the invocation and nothing changes. -/
def readRound (p : ProtocolHttp2) (fuel : Nat) (s : Socket) (avail : List Nat) :
    Option Socket :=
  let data := avail.take (p.m_bufferSize - s.buffer.length)
  if data.length > 0 then processBuffer p fuel { s with buffer := s.buffer ++ data }
  else some s

/-- Several rounds of reading, one after the other, each with its own fuel and its own
available octets. -/
def readRounds (p : ProtocolHttp2) : List (Nat × List Nat) → Socket → Option Socket
  | [], s => some s
  | r :: rest, s =>
    match readRound p r.1 s r.2 with
    | none => none
    | some s1 => readRounds p rest s1

/-- The octets of the client preface followed by a HEADERS frame for stream 1 with the
flags END_STREAM and END_HEADERS and no payload; for concrete runs. -/
def prefaceAndRequest : List Nat := preface ++ [0, 0, 0, 1, 5, 0, 0, 0, 1]

/-- A connection in state H2Frames on which stream 1 is HalfClosed and awaits a
continuation (as a HEADERS frame with END_STREAM and without END_HEADERS leaves it),
whose buffer holds a frame with END_HEADERS for stream 1, its type octet already
re-tagged as HEADERS; for concrete runs. -/
def continuationSocket : Socket :=
  { Socket.fresh with connState := .H2Frames, stream_id := 1, maxStreamId := 1,
                      streamForContinuation := 1,
                      streams := [(1, { H2Stream.fresh with state := .HalfClosed })],
                      buffer := [0, 0, 0, 1, 4, 0, 0, 0, 1] }

/-- The decoded header of the CONTINUATION frame that `continuationSocket` handles. -/
def continuationFrame : H2Frame := { len := 0, streamId := 1, type := 9, flags := 4 }

/-! ## Theorems -/

theorem lor_shiftLeft_of_lt (a b i : Nat) (h : a < 2 ^ i) : a ||| (b <<< i) = a + b * 2 ^ i := by
  rw [Nat.shiftLeft_eq, Nat.or_comm, Nat.mul_comm b, ← Nat.mul_add_lt_is_or h]
  omega

theorem decode_frameHeader (type flags streamId dataLen : Nat) (rest : List Nat) :
    decodeFrameHeader (frameHeader type flags streamId dataLen ++ rest) =
      { len := dataLen % 2 ^ 24, streamId := streamId % 2 ^ 31,
        type := type % 256, flags := flags % 256 } := by
  have e7 : ∀ x : Nat, x &&& 0x7f = x % 2 ^ 7 := fun x => Nat.and_pow_two_sub_one_eq_mod x 7
  simp only [decodeFrameHeader, frameHeader, quint8, List.cons_append, List.getD_cons_zero,
    List.getD_cons_succ, e7, Nat.shiftRight_eq_div_pow]
  rw [lor_shiftLeft_of_lt _ _ 8 (by omega), lor_shiftLeft_of_lt _ _ 16 (by omega),
    lor_shiftLeft_of_lt _ _ 8 (by omega), lor_shiftLeft_of_lt _ _ 16 (by omega),
    lor_shiftLeft_of_lt _ _ 24 (by omega)]
  congr 1 <;> omega

theorem sendFrame_written_drop (s : Socket) (type flags streamId dataLen : Nat) (data : List Nat) :
    (sendFrame s type flags streamId data dataLen).1.written.drop s.written.length =
      frameHeader type flags streamId dataLen ++ data.take dataLen := by
  simp [sendFrame]

/-- C1 (amended): for every 8-bit type, 8-bit flags, stream id at most 2^31-1 and payload
length that is at most the negotiated max frame size and at most 2^24-1, the header
written by `sendFrame`, decoded by the frame-header decoder of `readyRead`, gives back
the same length, stream id, type and flags. -/
theorem sendFrame_header_roundtrip (p : ProtocolHttp2) (s : Socket)
    (type flags streamId dataLen : Nat) (data : List Nat)
    (ht : type < 256) (hf : flags < 256) (hs : streamId ≤ 2 ^ 31 - 1)
    (hl : dataLen ≤ min p.m_maxFrameSize 16777215) :
    decodeFrameHeader
        ((sendFrame s type flags streamId data dataLen).1.written.drop s.written.length) =
      { len := dataLen, streamId := streamId, type := type, flags := flags } := by
  rw [sendFrame_written_drop, decode_frameHeader]
  have hw : dataLen ≤ 16777215 := le_trans hl (Nat.min_le_right _ _)
  congr 1 <;> omega

theorem sendFrame_header_roundtrip_witness :
    decodeFrameHeader
        ((sendFrame Socket.fresh 1 5 3 [7, 7] 2).1.written.drop Socket.fresh.written.length) =
      { len := 2, streamId := 3, type := 1, flags := 5 } :=
  sendFrame_header_roundtrip
    { m_bufferSize := 16393, m_maxFrameSize := 16384, decode := nullCodec } Socket.fresh 1 5 3 2
    [7, 7] (by decide) (by decide) (by decide) (by decide)

/-- C1 fails as stated: a buffer size of 16777225 is accepted by the constructor and
gives the max frame size 16777216; a payload length of 16777216 is within it, but the
header written for it decodes to length 0. -/
theorem sendFrame_header_roundtrip_fails :
    (ProtocolHttp2.create 16777225 nullCodec).map (fun p => p.m_maxFrameSize) = some 16777216 ∧
    decodeFrameHeader
        ((sendFrame Socket.fresh 0 0 1 (List.replicate 16777216 0) 16777216).1.written.drop
          Socket.fresh.written.length) =
      { len := 0, streamId := 1, type := 0, flags := 0 } := by
  refine ⟨by decide, ?_⟩
  rw [sendFrame_written_drop, decode_frameHeader]
  decide

/-- C2 (amended): for every stream id at most 2^31-1 passed to `sendFrame`, the most
significant bit of header octet 5 (the first stream-id octet) is 0. -/
theorem sendFrame_reserved_bit_clear (s : Socket) (type flags streamId dataLen : Nat)
    (data : List Nat) (hs : streamId ≤ 2 ^ 31 - 1) :
    Nat.testBit
      (((sendFrame s type flags streamId data dataLen).1.written.drop s.written.length).getD 5 0)
      7 = false := by
  rw [sendFrame_written_drop]
  simp only [frameHeader, quint8, List.cons_append, List.getD_cons_zero, List.getD_cons_succ,
    Nat.shiftRight_eq_div_pow]
  apply Nat.testBit_lt_two_pow
  omega

theorem sendFrame_reserved_bit_clear_witness :
    Nat.testBit
      (((sendFrame Socket.fresh 0 0 2147483647 [] 0).1.written.drop
        Socket.fresh.written.length).getD 5 0) 7 = false :=
  sendFrame_reserved_bit_clear Socket.fresh 0 0 2147483647 0 [] (by decide)

/-- C2 fails as stated: for the 32-bit stream id 2^31, `sendFrame` writes header octet 5
as 128, whose most significant bit is 1. -/
theorem sendFrame_reserved_bit_set :
    ((sendFrame Socket.fresh 0 0 2147483648 [] 0).1.written.drop
        Socket.fresh.written.length).getD 5 0 = 128 ∧
    Nat.testBit
      (((sendFrame Socket.fresh 0 0 2147483648 [] 0).1.written.drop
        Socket.fresh.written.length).getD 5 0) 7 = true := by
  decide

theorem sendGoAway_eq (s : Socket) (lastStreamId error : Nat) :
    sendGoAway s lastStreamId error =
      ({ s with written := s.written ++ goAwayOctets lastStreamId error }, error) := by
  simp [sendGoAway, sendFrame, frameHeader, goAwayOctets, quint8]

theorem processBuffer_brk (p : ProtocolHttp2) (fuel : Nat) (s s1 : Socket) (ret1 : Nat)
    (hb : s.buffer ≠ []) (h : loopBody p s = (s1, ret1, Flow.brk)) :
    processBuffer p (fuel + 1) s = some (if ret1 ≠ 0 then connectionClose s1 else s1) := by
  by_cases hr : ret1 = 0 <;> simp [processBuffer, processLoop, hb, h, hr]

theorem processBuffer_next_err (p : ProtocolHttp2) (fuel : Nat) (s s1 : Socket) (ret1 : Nat)
    (hb : s.buffer ≠ []) (hr : ret1 ≠ 0) (h : loopBody p s = (s1, ret1, Flow.next)) :
    processBuffer p (fuel + 1) s = some (connectionClose s1) := by
  cases fuel <;> simp [processBuffer, processLoop, hb, h, hr]

theorem buffer_ne_nil_of_le (s : Socket) (n : Nat) (hn : 0 < n) (h : n ≤ s.buffer.length) :
    s.buffer ≠ [] := by
  intro h0
  rw [h0] at h
  simp at h
  omega

theorem loopBody_h2_even (p : ProtocolHttp2) (s : Socket) (hst : s.connState = .H2Frames)
    (h9 : 9 ≤ s.buffer.length)
    (hid : (decodeFrameHeader s.buffer).streamId ≠ 0 ∧ (decodeFrameHeader s.buffer).streamId % 2 = 0) :
    loopBody p s =
      ({ s with pktsize := (decodeFrameHeader s.buffer).len,
                stream_id := (decodeFrameHeader s.buffer).streamId,
                written := s.written ++ goAwayOctets s.maxStreamId ErrorProtocolError },
       ErrorProtocolError, Flow.brk) := by
  have hand : (decodeFrameHeader s.buffer).streamId &&& 1 = 0 := by
    rw [Nat.and_one_is_mod]; exact hid.2
  simp [loopBody, hst, h9, hid.1, hand, sendGoAway_eq]

theorem loopBody_h2_toobig (p : ProtocolHttp2) (s : Socket) (hst : s.connState = .H2Frames)
    (h9 : 9 ≤ s.buffer.length)
    (hid : ¬((decodeFrameHeader s.buffer).streamId ≠ 0 ∧
      (decodeFrameHeader s.buffer).streamId % 2 = 0))
    (hsz : p.m_maxFrameSize < (decodeFrameHeader s.buffer).len) :
    loopBody p s =
      ({ s with pktsize := (decodeFrameHeader s.buffer).len,
                stream_id := (decodeFrameHeader s.buffer).streamId,
                written := s.written ++ goAwayOctets s.maxStreamId ErrorFrameSizeError },
       ErrorFrameSizeError, Flow.brk) := by
  have hand : ¬((decodeFrameHeader s.buffer).streamId ≠ 0 ∧
      (decodeFrameHeader s.buffer).streamId &&& 1 = 0) := by
    rw [Nat.and_one_is_mod]; exact hid
  simp only [loopBody, hst, h9, ge_iff_le, if_true, hand, if_false, gt_iff_lt, hsz, sendGoAway_eq]

/-- C3: in state H2Frames with a 9-octet header buffered, a nonzero even stream id gives
GOAWAY(PROTOCOL_ERROR) whatever the declared length; otherwise a declared length above
the max frame size gives GOAWAY(FRAME_SIZE_ERROR) whether or not the payload is there.
In both cases the run ends with the connection closed and nothing else changed (no
handler ran: buffer, stream table and the other connection state are as before). -/
theorem header_validation_order (p : ProtocolHttp2) (s : Socket) (fuel : Nat)
    (hst : s.connState = .H2Frames) (h9 : 9 ≤ s.buffer.length) :
    (((decodeFrameHeader s.buffer).streamId ≠ 0 ∧ (decodeFrameHeader s.buffer).streamId % 2 = 0) →
      processBuffer p (fuel + 1) s =
        some { s with pktsize := (decodeFrameHeader s.buffer).len,
                      stream_id := (decodeFrameHeader s.buffer).streamId,
                      written := s.written ++ goAwayOctets s.maxStreamId ErrorProtocolError,
                      closed := true }) ∧
    (¬((decodeFrameHeader s.buffer).streamId ≠ 0 ∧ (decodeFrameHeader s.buffer).streamId % 2 = 0) →
      p.m_maxFrameSize < (decodeFrameHeader s.buffer).len →
      processBuffer p (fuel + 1) s =
        some { s with pktsize := (decodeFrameHeader s.buffer).len,
                      stream_id := (decodeFrameHeader s.buffer).streamId,
                      written := s.written ++ goAwayOctets s.maxStreamId ErrorFrameSizeError,
                      closed := true }) := by
  have hb : s.buffer ≠ [] := buffer_ne_nil_of_le s 9 (by decide) h9
  constructor
  · intro hid
    rw [processBuffer_brk p fuel s _ _ hb (loopBody_h2_even p s hst h9 hid)]
    simp [connectionClose]
  · intro hid hsz
    rw [processBuffer_brk p fuel s _ _ hb (loopBody_h2_toobig p s hst h9 hid hsz)]
    simp [connectionClose]

theorem header_validation_order_witness :
    processBuffer smallProtocol 1
        { Socket.fresh with connState := .H2Frames, buffer := [255, 255, 255, 6, 0, 0, 0, 0, 2] } =
      some { Socket.fresh with connState := .H2Frames,
                               buffer := [255, 255, 255, 6, 0, 0, 0, 0, 2],
                               pktsize := 16777215, stream_id := 2,
                               written := goAwayOctets 0 ErrorProtocolError, closed := true } ∧
    processBuffer smallProtocol 1
        { Socket.fresh with connState := .H2Frames, buffer := [0, 64, 1, 6, 0, 0, 0, 0, 0] } =
      some { Socket.fresh with connState := .H2Frames,
                               buffer := [0, 64, 1, 6, 0, 0, 0, 0, 0],
                               pktsize := 16385, stream_id := 0,
                               written := goAwayOctets 0 ErrorFrameSizeError, closed := true } :=
  ⟨(header_validation_order smallProtocol
      { Socket.fresh with connState := .H2Frames, buffer := [255, 255, 255, 6, 0, 0, 0, 0, 2] }
      0 rfl (by decide)).1 (by decide),
   (header_validation_order smallProtocol
      { Socket.fresh with connState := .H2Frames, buffer := [0, 64, 1, 6, 0, 0, 0, 0, 0] }
      0 rfl (by decide)).2 (by decide) (by decide)⟩

theorem idcheck_and (n : Nat) (h : ¬(n ≠ 0 ∧ n % 2 = 0)) : ¬(n ≠ 0 ∧ n &&& 1 = 0) := by
  rw [Nat.and_one_is_mod]; exact h

theorem loopBody_h2_incomplete (p : ProtocolHttp2) (s : Socket) (hst : s.connState = .H2Frames)
    (h9 : 9 ≤ s.buffer.length)
    (hid : ¬((decodeFrameHeader s.buffer).streamId ≠ 0 ∧
      (decodeFrameHeader s.buffer).streamId % 2 = 0))
    (hsz : (decodeFrameHeader s.buffer).len ≤ p.m_maxFrameSize)
    (hinc : s.buffer.length < 9 + (decodeFrameHeader s.buffer).len) :
    loopBody p s =
      ({ s with pktsize := (decodeFrameHeader s.buffer).len,
                stream_id := (decodeFrameHeader s.buffer).streamId }, 0, Flow.brk) := by
  have hand := idcheck_and _ hid
  have h1 : ¬ (p.m_maxFrameSize < (decodeFrameHeader s.buffer).len) := by omega
  have h2 : s.buffer.length - 9 < (decodeFrameHeader s.buffer).len := by omega
  simp only [loopBody, hst, h9, ge_iff_le, if_true, hand, if_false, gt_iff_lt, h1, h2]

/-- The socket a complete, well-formed frame is dispatched on: `pktsize` and `stream_id`
hold the decoded length and stream id. -/
theorem loopBody_h2_complete (p : ProtocolHttp2) (s : Socket) (hst : s.connState = .H2Frames)
    (h9 : 9 ≤ s.buffer.length)
    (hid : ¬((decodeFrameHeader s.buffer).streamId ≠ 0 ∧
      (decodeFrameHeader s.buffer).streamId % 2 = 0))
    (hsz : (decodeFrameHeader s.buffer).len ≤ p.m_maxFrameSize)
    (hcomp : 9 + (decodeFrameHeader s.buffer).len ≤ s.buffer.length) :
    loopBody p s =
      if s.streamForContinuation ≠ 0 then
        if (decodeFrameHeader s.buffer).type = FrameContinuation ∧
            s.streamForContinuation = (decodeFrameHeader s.buffer).streamId then
          dispatch p { s with pktsize := (decodeFrameHeader s.buffer).len,
                              stream_id := (decodeFrameHeader s.buffer).streamId,
                              buffer := s.buffer.set 3 FrameHeaders }
            FrameHeaders (decodeFrameHeader s.buffer)
        else
          ({ s with pktsize := (decodeFrameHeader s.buffer).len,
                    stream_id := (decodeFrameHeader s.buffer).streamId,
                    written := s.written ++ goAwayOctets s.maxStreamId ErrorProtocolError },
           ErrorProtocolError, Flow.brk)
      else
        dispatch p { s with pktsize := (decodeFrameHeader s.buffer).len,
                            stream_id := (decodeFrameHeader s.buffer).streamId }
          (decodeFrameHeader s.buffer).type (decodeFrameHeader s.buffer) := by
  have hand := idcheck_and _ hid
  have h1 : ¬ (p.m_maxFrameSize < (decodeFrameHeader s.buffer).len) := by omega
  have h2 : ¬ (s.buffer.length - 9 < (decodeFrameHeader s.buffer).len) := by omega
  simp only [loopBody, hst, h9, ge_iff_le, if_true, hand, if_false, gt_iff_lt, h1, h2,
    sendGoAway_eq]

/-- C4: in state H2Frames, a buffered header that passes the stream-id and size checks
but whose payload has not fully arrived ends the run without any write and without
closing: only the scratch fields `pktsize` and `stream_id` change, so the buffer, the
stream table, the highest stream id and the awaiting-continuation id are as before. -/
theorem incomplete_frame_waits (p : ProtocolHttp2) (s : Socket) (fuel : Nat)
    (hst : s.connState = .H2Frames) (h9 : 9 ≤ s.buffer.length)
    (hid : ¬((decodeFrameHeader s.buffer).streamId ≠ 0 ∧
      (decodeFrameHeader s.buffer).streamId % 2 = 0))
    (hsz : (decodeFrameHeader s.buffer).len ≤ p.m_maxFrameSize)
    (hinc : s.buffer.length < 9 + (decodeFrameHeader s.buffer).len) :
    processBuffer p (fuel + 1) s =
      some { s with pktsize := (decodeFrameHeader s.buffer).len,
                    stream_id := (decodeFrameHeader s.buffer).streamId } := by
  have hb : s.buffer ≠ [] := buffer_ne_nil_of_le s 9 (by decide) h9
  rw [processBuffer_brk p fuel s _ _ hb (loopBody_h2_incomplete p s hst h9 hid hsz hinc)]
  simp

theorem incomplete_frame_waits_witness :
    processBuffer smallProtocol 1
        { Socket.fresh with connState := .H2Frames,
                            buffer := [0, 0, 8, 6, 0, 0, 0, 0, 0, 1, 2, 3] } =
      some { Socket.fresh with connState := .H2Frames,
                               buffer := [0, 0, 8, 6, 0, 0, 0, 0, 0, 1, 2, 3],
                               pktsize := 8, stream_id := 0 } :=
  incomplete_frame_waits smallProtocol
    { Socket.fresh with connState := .H2Frames, buffer := [0, 0, 8, 6, 0, 0, 0, 0, 0, 1, 2, 3] }
    0 rfl (by decide) (by decide) (by decide) (by decide)

/-- C5: for a complete frame that passed the stream-id and size checks, (a) while a
stream `c` awaits a continuation, a CONTINUATION frame for `c` is handled by `parseHeaders`
(after which the frame is consumed), and every other frame gives GOAWAY(PROTOCOL_ERROR)
and a closed connection with no handler run; (b) while no stream awaits a continuation,
every CONTINUATION frame gives GOAWAY(PROTOCOL_ERROR) and a closed connection. -/
theorem continuation_gating (p : ProtocolHttp2) (s : Socket) (fuel : Nat)
    (hst : s.connState = .H2Frames) (h9 : 9 ≤ s.buffer.length)
    (hid : ¬((decodeFrameHeader s.buffer).streamId ≠ 0 ∧
      (decodeFrameHeader s.buffer).streamId % 2 = 0))
    (hsz : (decodeFrameHeader s.buffer).len ≤ p.m_maxFrameSize)
    (hcomp : 9 + (decodeFrameHeader s.buffer).len ≤ s.buffer.length) :
    (s.streamForContinuation ≠ 0 →
      (decodeFrameHeader s.buffer).type = FrameContinuation ∧
        (decodeFrameHeader s.buffer).streamId = s.streamForContinuation →
      loopBody p s =
        (advance (parseHeaders p
            { s with pktsize := (decodeFrameHeader s.buffer).len,
                     stream_id := (decodeFrameHeader s.buffer).streamId,
                     buffer := s.buffer.set 3 FrameHeaders }
            (decodeFrameHeader s.buffer)).1,
         (parseHeaders p
            { s with pktsize := (decodeFrameHeader s.buffer).len,
                     stream_id := (decodeFrameHeader s.buffer).streamId,
                     buffer := s.buffer.set 3 FrameHeaders }
            (decodeFrameHeader s.buffer)).2,
         Flow.next)) ∧
    (s.streamForContinuation ≠ 0 →
      ¬((decodeFrameHeader s.buffer).type = FrameContinuation ∧
        (decodeFrameHeader s.buffer).streamId = s.streamForContinuation) →
      processBuffer p (fuel + 1) s =
        some { s with pktsize := (decodeFrameHeader s.buffer).len,
                      stream_id := (decodeFrameHeader s.buffer).streamId,
                      written := s.written ++ goAwayOctets s.maxStreamId ErrorProtocolError,
                      closed := true }) ∧
    (s.streamForContinuation = 0 →
      (decodeFrameHeader s.buffer).type = FrameContinuation →
      processBuffer p (fuel + 1) s =
        some { s with pktsize := (decodeFrameHeader s.buffer).len,
                      stream_id := (decodeFrameHeader s.buffer).streamId,
                      written := s.written ++ goAwayOctets s.maxStreamId ErrorProtocolError,
                      closed := true }) := by
  have hb : s.buffer ≠ [] := buffer_ne_nil_of_le s 9 (by decide) h9
  have hbody := loopBody_h2_complete p s hst h9 hid hsz hcomp
  refine ⟨?_, ?_, ?_⟩
  · intro hc ht
    rw [hbody]
    simp [hc, ht.1, ht.2, dispatch]
  · intro hc ht
    have ht' : ¬((decodeFrameHeader s.buffer).type = FrameContinuation ∧
        s.streamForContinuation = (decodeFrameHeader s.buffer).streamId) := by
      intro h; exact ht ⟨h.1, h.2.symm⟩
    have hbody' : loopBody p s = _ := hbody
    rw [if_pos hc, if_neg ht'] at hbody'
    rw [processBuffer_brk p fuel s _ _ hb hbody']
    simp [connectionClose]
  · intro hc ht
    have hbody' : loopBody p s = _ := hbody
    have hc' : ¬ (s.streamForContinuation ≠ 0) := by simp [hc]
    rw [if_neg hc', ht] at hbody'
    simp only [dispatch, FrameContinuation, FrameSettings, FramePriority, FrameHeaders, FramePing,
      FrameData, FramePushPromise, FrameRstStream, FrameWindowUpdate, FrameGoaway,
      sendGoAway_eq] at hbody'
    simp only [Nat.reduceEqDiff, if_false, if_true] at hbody'
    rw [processBuffer_brk p fuel s _ _ hb hbody']
    simp [connectionClose]

theorem continuation_gating_witness :
    loopBody smallProtocol
        { Socket.fresh with connState := .H2Frames, maxStreamId := 1, streamForContinuation := 1,
                            streams := [(1, { H2Stream.fresh with state := .Open })],
                            buffer := [0, 0, 0, 9, 4, 0, 0, 0, 1] } =
      ({ Socket.fresh with connState := .H2Frames, maxStreamId := 1, streamForContinuation := 0,
                           streams := [(1, { H2Stream.fresh with state := .Open })],
                           pktsize := 0, stream_id := 1, buffer := [] }, 0, Flow.next) ∧
    processBuffer smallProtocol 1
        { Socket.fresh with connState := .H2Frames, maxStreamId := 1, streamForContinuation := 1,
                            streams := [(1, { H2Stream.fresh with state := .Open })],
                            buffer := [0, 0, 0, 4, 0, 0, 0, 0, 0] } =
      some { Socket.fresh with connState := .H2Frames, maxStreamId := 1,
                               streamForContinuation := 1,
                               streams := [(1, { H2Stream.fresh with state := .Open })],
                               buffer := [0, 0, 0, 4, 0, 0, 0, 0, 0],
                               pktsize := 0, stream_id := 0,
                               written := goAwayOctets 1 ErrorProtocolError, closed := true } ∧
    processBuffer smallProtocol 1
        { Socket.fresh with connState := .H2Frames, buffer := [0, 0, 0, 9, 4, 0, 0, 0, 1] } =
      some { Socket.fresh with connState := .H2Frames, buffer := [0, 0, 0, 9, 4, 0, 0, 0, 1],
                               pktsize := 0, stream_id := 1,
                               written := goAwayOctets 0 ErrorProtocolError, closed := true } :=
  ⟨(continuation_gating smallProtocol
      { Socket.fresh with connState := .H2Frames, maxStreamId := 1, streamForContinuation := 1,
                          streams := [(1, { H2Stream.fresh with state := .Open })],
                          buffer := [0, 0, 0, 9, 4, 0, 0, 0, 1] }
      0 rfl (by decide) (by decide) (by decide) (by decide)).1 (by decide) (by decide),
   (continuation_gating smallProtocol
      { Socket.fresh with connState := .H2Frames, maxStreamId := 1, streamForContinuation := 1,
                          streams := [(1, { H2Stream.fresh with state := .Open })],
                          buffer := [0, 0, 0, 4, 0, 0, 0, 0, 0] }
      0 rfl (by decide) (by decide) (by decide) (by decide)).2.1 (by decide) (by decide),
   (continuation_gating smallProtocol
      { Socket.fresh with connState := .H2Frames, buffer := [0, 0, 0, 9, 4, 0, 0, 0, 1] }
      0 rfl (by decide) (by decide) (by decide) (by decide)).2.2 rfl (by decide)⟩

theorem h2_be32_octets (b0 b1 b2 b3 : Nat) (rest : List Nat)
    (h0 : b0 < 256) (h1 : b1 < 256) (h2 : b2 < 256) (h3 : b3 < 256) :
    h2_be32 (b0 :: b1 :: b2 :: b3 :: rest) 0 = b0 * 2 ^ 24 + b1 * 2 ^ 16 + b2 * 2 ^ 8 + b3 := by
  have e8 : ∀ x : Nat, x &&& 0xff = x % 2 ^ 8 := fun x => Nat.and_pow_two_sub_one_eq_mod x 8
  simp only [h2_be32, loadWord, List.getD_cons_zero, List.getD_cons_succ, e8,
    Nat.shiftRight_eq_div_pow]
  rw [lor_shiftLeft_of_lt b0 b1 8 (by omega), lor_shiftLeft_of_lt _ b2 16 (by omega),
    lor_shiftLeft_of_lt _ b3 24 (by omega)]
  rw [lor_shiftLeft_of_lt _ _ 8 (by omega), lor_shiftLeft_of_lt _ _ 16 (by omega),
    lor_shiftLeft_of_lt _ _ 24 (by omega)]
  omega

theorem h2_be32_of_quint8 (n : Nat) (rest : List Nat) (hn : n < 2 ^ 32) :
    h2_be32 (quint8 (n >>> 24) :: quint8 (n >>> 16) :: quint8 (n >>> 8) :: quint8 n :: rest) 0
      = n := by
  have hq : ∀ x : Nat, quint8 x < 256 := fun x => Nat.mod_lt _ (by decide)
  rw [h2_be32_octets _ _ _ _ _ (hq _) (hq _) (hq _) (hq _)]
  simp only [quint8, Nat.shiftRight_eq_div_pow]
  omega

theorem create_maxFrameSize_lt (bufferSize : Nat)
    (decode : List Nat → H2Stream → Nat × List Header × H2Stream) (p : ProtocolHttp2)
    (h : ProtocolHttp2.create bufferSize decode = some p) : p.m_maxFrameSize < 2 ^ 32 := by
  unfold ProtocolHttp2.create at h
  simp only at h
  split at h
  · cases h
  · cases h
    have := Nat.min_le_right bufferSize 2147483647
    simp only
    omega

/-- C6: in state MethodLine with at least 24 octets buffered: if the first 24 octets are
the client preface, the round removes exactly these 24 octets (the rest keeps its
order), moves to H2Frames and appends to the output exactly one SETTINGS frame (length
6, no flags, stream 0) whose pair is identifier 5 and a value that, for a protocol object
made by the constructor, reads back as the max frame size; if they differ, the run
writes exactly one GOAWAY(PROTOCOL_ERROR), stays in MethodLine and closes the
connection. -/
theorem preface_step (p : ProtocolHttp2) (s : Socket) (fuel : Nat)
    (hst : s.connState = .MethodLine) (h24 : 24 ≤ s.buffer.length) :
    (s.buffer.take 24 = preface →
      loopBody p s =
        ({ s with buffer := s.buffer.drop 24, connState := .H2Frames,
                  written := s.written ++
                    [0, 0, 6, 4, 0, 0, 0, 0, 0, 0, 5,
                     quint8 (p.m_maxFrameSize >>> 24), quint8 (p.m_maxFrameSize >>> 16),
                     quint8 (p.m_maxFrameSize >>> 8), quint8 p.m_maxFrameSize] },
         0, Flow.next) ∧
      (∀ bufferSize decode, ProtocolHttp2.create bufferSize decode = some p →
        h2_be32 [quint8 (p.m_maxFrameSize >>> 24), quint8 (p.m_maxFrameSize >>> 16),
                 quint8 (p.m_maxFrameSize >>> 8), quint8 p.m_maxFrameSize] 0 =
          p.m_maxFrameSize)) ∧
    (s.buffer.take 24 ≠ preface →
      processBuffer p (fuel + 1) s =
        some { s with written := s.written ++ goAwayOctets s.maxStreamId ErrorProtocolError,
                      closed := true }) := by
  have hb : s.buffer ≠ [] := buffer_ne_nil_of_le s 24 (by decide) h24
  constructor
  · intro hp
    refine ⟨?_, fun b dec hc => h2_be32_of_quint8 _ _ (create_maxFrameSize_lt b dec p hc)⟩
    simp [loopBody, hst, h24, hp, sendSettings, settingsPayload, sendFrame, frameHeader, quint8]
  · intro hp
    have hbody : loopBody p s =
        ({ s with written := s.written ++ goAwayOctets s.maxStreamId ErrorProtocolError },
          ErrorProtocolError, Flow.next) := by
      simp [loopBody, hst, h24, hp, sendGoAway_eq]
    rw [processBuffer_next_err p fuel s _ _ hb (by decide) hbody]
    simp [connectionClose]

theorem preface_step_witness :
    loopBody smallProtocol { Socket.fresh with buffer := preface ++ [1, 2, 3] } =
      ({ Socket.fresh with buffer := [1, 2, 3], connState := .H2Frames,
                           written := [0, 0, 6, 4, 0, 0, 0, 0, 0, 0, 5, 0, 0, 64, 0] },
       0, Flow.next) ∧
    h2_be32 [0, 0, 64, 0] 0 = 16384 ∧
    processBuffer smallProtocol 1 { Socket.fresh with buffer := List.replicate 24 71 } =
      some { Socket.fresh with buffer := List.replicate 24 71,
                               written := goAwayOctets 0 ErrorProtocolError, closed := true } :=
  ⟨((preface_step smallProtocol { Socket.fresh with buffer := preface ++ [1, 2, 3] } 0 rfl
      (by decide)).1 (by decide)).1,
   ((preface_step smallProtocol { Socket.fresh with buffer := preface ++ [1, 2, 3] } 0 rfl
      (by decide)).1 (by decide)).2 16393 nullCodec rfl,
   (preface_step smallProtocol { Socket.fresh with buffer := List.replicate 24 71 } 0 rfl
      (by decide)).2 (by decide)⟩

theorem settingsLoop_valid (fuel : Nat) : ∀ (s : Socket) (i n : Nat), s.pktsize = 6 * n →
    n ≤ fuel + i →
    (∀ j, i ≤ j → j < n →
      specPairErrorCode (settingsPair s.buffer j).1 (settingsPair s.buffer j).2 = none) →
    ∃ cp ws, settingsLoop fuel s (6 * i) = ({ s with canPush := cp, windowSize := ws }, none) := by
  induction fuel with
  | zero =>
    intro s i n _ _ _
    exact ⟨s.canPush, s.windowSize, rfl⟩
  | succ fuel ih =>
    intro s i n hp hf hv
    by_cases hlt : i < n
    · have hv' := hv i (le_refl _) hlt
      have hcond : s.pktsize > 6 * i := by omega
      have e6 : 6 * i + 6 = 6 * (i + 1) := by ring
      simp only [specPairErrorCode, settingsPair] at hv'
      simp only [settingsLoop, hcond, if_true, e6]
      by_cases h2 : h2_be16 s.buffer (9 + 6 * i) = SETTINGS_ENABLE_PUSH
      · have hval : ¬ (h2_be32 s.buffer (9 + 2 + 6 * i) > 1) := by
          intro hgt; simp [h2, hgt] at hv'
        simp only [h2, if_true, hval, if_false]
        obtain ⟨cp, ws, h⟩ := ih { s with canPush := h2_be32 s.buffer (9 + 2 + 6 * i) } (i + 1) n
          hp (by omega) (fun j hj hjn => hv j (by omega) hjn)
        exact ⟨cp, ws, h⟩
      · by_cases h4 : h2_be16 s.buffer (9 + 6 * i) = SETTINGS_INITIAL_WINDOW_SIZE
        · have hval : ¬ (h2_be32 s.buffer (9 + 2 + 6 * i) > 2147483647) := by
            intro hgt; simp [h4, hgt] at hv'
          simp only [h2, h4, if_true, hval, if_false]
          obtain ⟨cp, ws, h⟩ := ih { s with windowSize := h2_be32 s.buffer (9 + 2 + 6 * i) }
            (i + 1) n hp (by omega) (fun j hj hjn => hv j (by omega) hjn)
          exact ⟨cp, ws, h⟩
        · have hval : ¬ (h2_be16 s.buffer (9 + 6 * i) = SETTINGS_MAX_FRAME_SIZE ∧
              (h2_be32 s.buffer (9 + 2 + 6 * i) < 16384 ∨
                h2_be32 s.buffer (9 + 2 + 6 * i) > 16777215)) := by
            intro hgt; simp [h2, h4, hgt] at hv'
          simp only [h2, h4, hval, if_false]
          exact ih s (i + 1) n hp (by omega) (fun j hj hjn => hv j (by omega) hjn)
    · have hcond : ¬ (s.pktsize > 6 * i) := by omega
      exact ⟨s.canPush, s.windowSize, by simp only [settingsLoop, hcond, if_false]⟩

theorem settingsLoop_invalid (fuel : Nat) : ∀ (s : Socket) (i k n c : Nat), s.pktsize = 6 * n →
    k < n → i ≤ k → k < fuel + i →
    (∀ j, i ≤ j → j < k →
      specPairErrorCode (settingsPair s.buffer j).1 (settingsPair s.buffer j).2 = none) →
    specPairErrorCode (settingsPair s.buffer k).1 (settingsPair s.buffer k).2 = some c →
    ∃ cp ws, settingsLoop fuel s (6 * i) =
      ({ s with canPush := cp, windowSize := ws,
                written := s.written ++ goAwayOctets s.maxStreamId c }, some c) := by
  induction fuel with
  | zero =>
    intro s i k n c _ _ hik hf _ _
    omega
  | succ fuel ih =>
    intro s i k n c hp hkn hik hf hv hk
    have hcond : s.pktsize > 6 * i := by omega
    have e6 : 6 * i + 6 = 6 * (i + 1) := by ring
    simp only [settingsLoop, hcond, if_true, e6, sendGoAway_eq]
    by_cases hik' : i = k
    · subst hik'
      simp only [specPairErrorCode, settingsPair] at hk
      by_cases h2 : h2_be16 s.buffer (9 + 6 * i) = SETTINGS_ENABLE_PUSH
      · by_cases hval : h2_be32 s.buffer (9 + 2 + 6 * i) > 1
        · simp [h2, hval] at hk
          subst hk
          simp only [h2, if_true, hval]
          exact ⟨s.canPush, s.windowSize, rfl⟩
        · simp [h2, hval] at hk
      · by_cases h4 : h2_be16 s.buffer (9 + 6 * i) = SETTINGS_INITIAL_WINDOW_SIZE
        · by_cases hval : h2_be32 s.buffer (9 + 2 + 6 * i) > 2147483647
          · simp [h4, hval] at hk
            subst hk
            simp only [h2, h4, if_true, hval, if_false]
            exact ⟨s.canPush, s.windowSize, rfl⟩
          · simp [h4, hval] at hk
        · by_cases hval : h2_be16 s.buffer (9 + 6 * i) = SETTINGS_MAX_FRAME_SIZE ∧
              (h2_be32 s.buffer (9 + 2 + 6 * i) < 16384 ∨
                h2_be32 s.buffer (9 + 2 + 6 * i) > 16777215)
          · simp only [h2, h4, hval] at hk
            simp at hk
            subst hk
            simp only [h2, h4, if_true, hval, if_false]
            exact ⟨s.canPush, s.windowSize, rfl⟩
          · simp only [h2, h4, hval] at hk
            simp at hk
    · have hlt : i < k := by omega
      have hv' := hv i (le_refl _) hlt
      simp only [specPairErrorCode, settingsPair] at hv'
      by_cases h2 : h2_be16 s.buffer (9 + 6 * i) = SETTINGS_ENABLE_PUSH
      · have hval : ¬ (h2_be32 s.buffer (9 + 2 + 6 * i) > 1) := by
          intro hgt; simp [h2, hgt] at hv'
        simp only [h2, if_true, hval, if_false]
        obtain ⟨cp, ws, h⟩ := ih { s with canPush := h2_be32 s.buffer (9 + 2 + 6 * i) } (i + 1) k n
          c hp hkn (by omega) (by omega) (fun j hj hjn => hv j (by omega) hjn) hk
        exact ⟨cp, ws, h⟩
      · by_cases h4 : h2_be16 s.buffer (9 + 6 * i) = SETTINGS_INITIAL_WINDOW_SIZE
        · have hval : ¬ (h2_be32 s.buffer (9 + 2 + 6 * i) > 2147483647) := by
            intro hgt; simp [h4, hgt] at hv'
          simp only [h2, h4, if_true, hval, if_false]
          obtain ⟨cp, ws, h⟩ := ih { s with windowSize := h2_be32 s.buffer (9 + 2 + 6 * i) }
            (i + 1) k n c hp hkn (by omega) (by omega) (fun j hj hjn => hv j (by omega) hjn) hk
          exact ⟨cp, ws, h⟩
        · have hval : ¬ (h2_be16 s.buffer (9 + 6 * i) = SETTINGS_MAX_FRAME_SIZE ∧
              (h2_be32 s.buffer (9 + 2 + 6 * i) < 16384 ∨
                h2_be32 s.buffer (9 + 2 + 6 * i) > 16777215)) := by
            intro hgt; simp [h2, h4, hgt] at hv'
          simp only [h2, h4, hval, if_false]
          exact ih s (i + 1) k n c hp hkn (by omega) (by omega)
            (fun j hj hjn => hv j (by omega) hjn) hk

theorem dispatch_of_complete (p : ProtocolHttp2) (s : Socket) (hst : s.connState = .H2Frames)
    (h9 : 9 ≤ s.buffer.length)
    (hid : ¬((decodeFrameHeader s.buffer).streamId ≠ 0 ∧
      (decodeFrameHeader s.buffer).streamId % 2 = 0))
    (hsz : (decodeFrameHeader s.buffer).len ≤ p.m_maxFrameSize)
    (hcomp : 9 + (decodeFrameHeader s.buffer).len ≤ s.buffer.length)
    (hsfc : s.streamForContinuation = 0) :
    loopBody p s =
      dispatch p { s with pktsize := (decodeFrameHeader s.buffer).len,
                          stream_id := (decodeFrameHeader s.buffer).streamId }
        (decodeFrameHeader s.buffer).type (decodeFrameHeader s.buffer) := by
  rw [loopBody_h2_complete p s hst h9 hid hsz hcomp]
  simp [hsfc]

/-- C7 (amended): for every non-ACK SETTINGS frame on stream 0 whose length is a multiple
of 6 and whose pairs all pass validation, the handler writes exactly one SETTINGS(ACK)
frame (type 4, flag ACK, stream 0, length 0) and, apart from the two configuration fields,
changes nothing: no other frame is written, the connection is not closed, the stream
table is as before, and the handler returns 0.  Scenario A: the preface followed by an
empty SETTINGS frame makes the server write its own SETTINGS frame and then exactly one
SETTINGS(ACK). -/
theorem settings_ack_once :
    (∀ (s : Socket) (fr : H2Frame),
      fr.flags &&& FlagSettingsAck = 0 → fr.len % 6 = 0 → fr.streamId = 0 →
      s.pktsize = fr.len →
      (∀ k, k < fr.len / 6 →
        specPairErrorCode (settingsPair s.buffer k).1 (settingsPair s.buffer k).2 = none) →
      ∃ cp ws, parseSettings s fr =
        ({ s with canPush := cp, windowSize := ws,
                  written := s.written ++ settingsAckOctets }, ErrorNoError)) ∧
    processBuffer smallProtocol 2
        { Socket.fresh with buffer := preface ++ [0, 0, 0, 4, 0, 0, 0, 0, 0] } =
      some { Socket.fresh with
               connState := .H2Frames,
               written := [0, 0, 6, 4, 0, 0, 0, 0, 0, 0, 5, 0, 0, 64, 0] ++ settingsAckOctets } := by
  refine ⟨?_, by decide⟩
  intro s fr hack hlen hid hpk hv
  have hn : s.pktsize = 6 * (fr.len / 6) := by omega
  obtain ⟨cp, ws, h⟩ := settingsLoop_valid s.pktsize s 0 (fr.len / 6) hn (by omega)
    (fun j _ hj => hv j hj)
  refine ⟨cp, ws, ?_⟩
  have h0 : settingsLoop s.pktsize s 0 = ({ s with canPush := cp, windowSize := ws }, none) := h
  have h1 : ¬((fr.flags &&& FlagSettingsAck ≠ 0 ∧ fr.len ≠ 0) ∨ fr.len % 6 ≠ 0) := by
    rintro (⟨ha, _⟩ | hl)
    · exact ha hack
    · exact hl hlen
  have h2 : ¬(fr.streamId ≠ 0) := fun h => h hid
  rw [parseSettings, if_neg h1, if_neg h2, if_pos hack, h0]
  simp [sendSettingsAck, sendFrame, frameHeader, quint8, settingsAckOctets]

theorem settings_ack_once_witness :
    ∃ cp ws, parseSettings
        { Socket.fresh with connState := .H2Frames, pktsize := 6,
                            buffer := [0, 0, 6, 4, 0, 0, 0, 0, 0, 0, 4, 0, 0, 1, 0] }
        { len := 6, streamId := 0, type := 4, flags := 0 } =
      ({ Socket.fresh with connState := .H2Frames, pktsize := 6,
                           buffer := [0, 0, 6, 4, 0, 0, 0, 0, 0, 0, 4, 0, 0, 1, 0],
                           canPush := cp, windowSize := ws,
                           written := settingsAckOctets }, ErrorNoError) :=
  settings_ack_once.1
    { Socket.fresh with connState := .H2Frames, pktsize := 6,
                        buffer := [0, 0, 6, 4, 0, 0, 0, 0, 0, 0, 4, 0, 0, 1, 0] }
    { len := 6, streamId := 0, type := 4, flags := 0 } (by decide) (by decide) rfl rfl (by decide)

/-- C7 fails as stated: a non-ACK SETTINGS frame of length 6 on stream 0 that carries
ENABLE_PUSH = 2 makes the server write GOAWAY(PROTOCOL_ERROR) and no SETTINGS(ACK), and
the connection is closed. -/
theorem settings_ack_missing :
    decodeFrameHeader [0, 0, 6, 4, 0, 0, 0, 0, 0, 0, 2, 0, 0, 0, 2] =
      { len := 6, streamId := 0, type := FrameSettings, flags := 0 } ∧
    processBuffer smallProtocol 1
        { Socket.fresh with connState := .H2Frames,
                            buffer := [0, 0, 6, 4, 0, 0, 0, 0, 0, 0, 2, 0, 0, 0, 2] } =
      some { Socket.fresh with connState := .H2Frames, buffer := [], pktsize := 6,
                               written := goAwayOctets 0 ErrorProtocolError,
                               closed := true } := by
  decide

theorem specPairErrorCode_ne_zero (identifier value c : Nat)
    (h : specPairErrorCode identifier value = some c) : c ≠ 0 := by
  unfold specPairErrorCode at h
  split at h
  · cases h; decide
  · split at h
    · cases h; decide
    · split at h
      · cases h; decide
      · cases h

/-- C8: a SETTINGS frame whose length is not a multiple of 6, or that has the ACK flag
and a nonzero length, gives GOAWAY(FRAME_SIZE_ERROR); otherwise a nonzero stream id gives
GOAWAY(PROTOCOL_ERROR); otherwise, for a non-ACK frame, the first pair in payload order
that fails validation decides the code (ENABLE_PUSH above 1: PROTOCOL_ERROR,
INITIAL_WINDOW_SIZE above 2^31-1: FLOW_CONTROL_ERROR, MAX_FRAME_SIZE outside
[16384, 16777215]: PROTOCOL_ERROR).  In each case the GOAWAY is the only frame written (no
SETTINGS(ACK)), the handler returns a nonzero value, and a nonzero return value of the
handler makes `readyRead` close the connection. -/
theorem settings_rejection_codes :
    (∀ (s : Socket) (fr : H2Frame),
      (fr.len % 6 ≠ 0 ∨ (fr.flags &&& FlagSettingsAck ≠ 0 ∧ fr.len ≠ 0)) →
      parseSettings s fr =
        ({ s with written := s.written ++ goAwayOctets s.maxStreamId ErrorFrameSizeError }, 1)) ∧
    (∀ (s : Socket) (fr : H2Frame),
      ¬(fr.len % 6 ≠ 0 ∨ (fr.flags &&& FlagSettingsAck ≠ 0 ∧ fr.len ≠ 0)) →
      fr.streamId ≠ 0 →
      parseSettings s fr =
        ({ s with written := s.written ++ goAwayOctets s.maxStreamId ErrorProtocolError }, 1)) ∧
    (∀ (s : Socket) (fr : H2Frame) (k c : Nat),
      ¬(fr.len % 6 ≠ 0 ∨ (fr.flags &&& FlagSettingsAck ≠ 0 ∧ fr.len ≠ 0)) →
      fr.streamId = 0 → fr.flags &&& FlagSettingsAck = 0 → s.pktsize = fr.len →
      k < fr.len / 6 →
      (∀ j, j < k →
        specPairErrorCode (settingsPair s.buffer j).1 (settingsPair s.buffer j).2 = none) →
      specPairErrorCode (settingsPair s.buffer k).1 (settingsPair s.buffer k).2 = some c →
      c ≠ 0 ∧
      ∃ cp ws, parseSettings s fr =
        ({ s with canPush := cp, windowSize := ws,
                  written := s.written ++ goAwayOctets s.maxStreamId c }, c)) ∧
    ((∀ v, v > 1 → specPairErrorCode SETTINGS_ENABLE_PUSH v = some ErrorProtocolError) ∧
     (∀ v, v > 2147483647 →
        specPairErrorCode SETTINGS_INITIAL_WINDOW_SIZE v = some ErrorFlowControlError) ∧
     (∀ v, v < 16384 ∨ v > 16777215 →
        specPairErrorCode SETTINGS_MAX_FRAME_SIZE v = some ErrorProtocolError)) ∧
    (∀ (p : ProtocolHttp2) (s : Socket) (fuel : Nat),
      s.connState = .H2Frames → 9 ≤ s.buffer.length →
      ¬((decodeFrameHeader s.buffer).streamId ≠ 0 ∧
        (decodeFrameHeader s.buffer).streamId % 2 = 0) →
      (decodeFrameHeader s.buffer).len ≤ p.m_maxFrameSize →
      9 + (decodeFrameHeader s.buffer).len ≤ s.buffer.length →
      s.streamForContinuation = 0 →
      (decodeFrameHeader s.buffer).type = FrameSettings →
      (parseSettings { s with pktsize := (decodeFrameHeader s.buffer).len,
                              stream_id := (decodeFrameHeader s.buffer).streamId }
          (decodeFrameHeader s.buffer)).2 ≠ 0 →
      processBuffer p (fuel + 1) s =
        some (connectionClose (advance
          (parseSettings { s with pktsize := (decodeFrameHeader s.buffer).len,
                                  stream_id := (decodeFrameHeader s.buffer).streamId }
            (decodeFrameHeader s.buffer)).1))) := by
  refine ⟨?_, ?_, ?_, ⟨?_, ?_, ?_⟩, ?_⟩
  · intro s fr h
    have h1 : (fr.flags &&& FlagSettingsAck ≠ 0 ∧ fr.len ≠ 0) ∨ fr.len % 6 ≠ 0 := h.symm
    rw [parseSettings, if_pos h1, sendGoAway_eq]
  · intro s fr h hid
    have h1 : ¬((fr.flags &&& FlagSettingsAck ≠ 0 ∧ fr.len ≠ 0) ∨ fr.len % 6 ≠ 0) :=
      fun h' => h h'.symm
    rw [parseSettings, if_neg h1, if_pos hid, sendGoAway_eq]
  · intro s fr k c h hid hack hpk hk hv hc
    have h1 : ¬((fr.flags &&& FlagSettingsAck ≠ 0 ∧ fr.len ≠ 0) ∨ fr.len % 6 ≠ 0) :=
      fun h' => h h'.symm
    have hlen : fr.len % 6 = 0 := by
      by_contra hne; exact h (Or.inl hne)
    have hn : s.pktsize = 6 * (fr.len / 6) := by omega
    refine ⟨specPairErrorCode_ne_zero _ _ _ hc, ?_⟩
    obtain ⟨cp, ws, hl⟩ := settingsLoop_invalid s.pktsize s 0 k (fr.len / 6) c hn hk
      (Nat.zero_le _) (by omega) (fun j _ hj => hv j hj) hc
    have h0 : settingsLoop s.pktsize s 0 =
        ({ s with canPush := cp, windowSize := ws,
                  written := s.written ++ goAwayOctets s.maxStreamId c }, some c) := hl
    have h2 : ¬(fr.streamId ≠ 0) := fun h => h hid
    refine ⟨cp, ws, ?_⟩
    rw [parseSettings, if_neg h1, if_neg h2, if_pos hack, h0]
  · intro v hv
    simp [specPairErrorCode, hv]
  · intro v hv
    simp [specPairErrorCode, hv]
  · intro v hv
    simp only [specPairErrorCode, SETTINGS_MAX_FRAME_SIZE, SETTINGS_ENABLE_PUSH,
      SETTINGS_INITIAL_WINDOW_SIZE]
    simp [hv]
  · intro p s fuel hst h9 hid hsz hcomp hsfc hty hret
    have hb : s.buffer ≠ [] := buffer_ne_nil_of_le s 9 (by decide) h9
    have hbody := dispatch_of_complete p s hst h9 hid hsz hcomp hsfc
    rw [hty] at hbody
    simp only [dispatch, if_true] at hbody
    exact processBuffer_next_err p fuel s _ _ hb hret hbody

theorem settings_rejection_codes_witness :
    parseSettings
        { Socket.fresh with connState := .H2Frames, pktsize := 5,
                            buffer := [0, 0, 5, 4, 0, 0, 0, 0, 0, 1, 2, 3, 4, 5] }
        { len := 5, streamId := 0, type := 4, flags := 0 } =
      ({ Socket.fresh with connState := .H2Frames, pktsize := 5,
                           buffer := [0, 0, 5, 4, 0, 0, 0, 0, 0, 1, 2, 3, 4, 5],
                           written := goAwayOctets 0 ErrorFrameSizeError }, 1) ∧
    parseSettings
        { Socket.fresh with connState := .H2Frames, stream_id := 1,
                            buffer := [0, 0, 0, 4, 0, 0, 0, 0, 1] }
        { len := 0, streamId := 1, type := 4, flags := 0 } =
      ({ Socket.fresh with connState := .H2Frames, stream_id := 1,
                           buffer := [0, 0, 0, 4, 0, 0, 0, 0, 1],
                           written := goAwayOctets 0 ErrorProtocolError }, 1) ∧
    (ErrorFlowControlError ≠ 0 ∧
      ∃ cp ws, parseSettings
        { Socket.fresh with connState := .H2Frames, pktsize := 12,
                            buffer := [0, 0, 12, 4, 0, 0, 0, 0, 0, 0, 2, 0, 0, 0, 0,
                                       0, 4, 128, 0, 0, 0] }
        { len := 12, streamId := 0, type := 4, flags := 0 } =
      ({ Socket.fresh with connState := .H2Frames, pktsize := 12,
                           buffer := [0, 0, 12, 4, 0, 0, 0, 0, 0, 0, 2, 0, 0, 0, 0,
                                      0, 4, 128, 0, 0, 0],
                           canPush := cp, windowSize := ws,
                           written := goAwayOctets 0 ErrorFlowControlError }, ErrorFlowControlError)) ∧
    processBuffer smallProtocol 1
        { Socket.fresh with connState := .H2Frames,
                            buffer := [0, 0, 12, 4, 0, 0, 0, 0, 0, 0, 2, 0, 0, 0, 0,
                                       0, 4, 128, 0, 0, 0] } =
      some { Socket.fresh with connState := .H2Frames, pktsize := 12, buffer := [], canPush := 0,
                               written := goAwayOctets 0 ErrorFlowControlError, closed := true } :=
  ⟨settings_rejection_codes.1 _ { len := 5, streamId := 0, type := 4, flags := 0 }
      (Or.inl (by decide)),
   settings_rejection_codes.2.1 _ { len := 0, streamId := 1, type := 4, flags := 0 }
      (by decide) (by decide),
   settings_rejection_codes.2.2.1
      { Socket.fresh with connState := .H2Frames, pktsize := 12,
                          buffer := [0, 0, 12, 4, 0, 0, 0, 0, 0, 0, 2, 0, 0, 0, 0,
                                     0, 4, 128, 0, 0, 0] }
      { len := 12, streamId := 0, type := 4, flags := 0 } 1 ErrorFlowControlError
      (by decide) rfl (by decide) rfl (by decide) (by decide) (by decide),
   settings_rejection_codes.2.2.2.2 smallProtocol
      { Socket.fresh with connState := .H2Frames,
                          buffer := [0, 0, 12, 4, 0, 0, 0, 0, 0, 0, 2, 0, 0, 0, 0,
                                     0, 4, 128, 0, 0, 0] }
      0 rfl (by decide) (by decide) (by decide) (by decide) rfl (by decide) (by decide)⟩

/-- C9: for every PING frame handed to `parsePing`: a length other than 8 gives exactly one
GOAWAY(FRAME_SIZE_ERROR), a closed connection and no PING; length 8 with a nonzero stream
id gives GOAWAY(PROTOCOL_ERROR); length 8 on stream 0 without the ACK flag gives exactly
one PING frame with flags ACK, stream 0 and the 8 payload octets of the received frame;
with the ACK flag nothing is written, nothing changes and the handler returns 0.  The last
part ties the handler to the loop: a dispatched PING frame is consumed after the handler. -/
theorem ping_handling :
    (∀ (s : Socket) (fr : H2Frame), fr.len ≠ 8 →
      parsePing s fr =
        ({ s with written := s.written ++ goAwayOctets s.maxStreamId ErrorFrameSizeError,
                  closed := true }, 1)) ∧
    (∀ (s : Socket) (fr : H2Frame), fr.len = 8 → fr.streamId ≠ 0 →
      parsePing s fr =
        ({ s with written := s.written ++ goAwayOctets s.maxStreamId ErrorProtocolError,
                  closed := true }, 1)) ∧
    (∀ (s : Socket) (fr : H2Frame), fr.len = 8 → fr.streamId = 0 →
      fr.flags &&& FlagPingAck = 0 →
      parsePing s fr =
        ({ s with written := s.written ++
                    ([0, 0, 8, FramePing, FlagPingAck, 0, 0, 0, 0] ++
                      (s.buffer.drop 9).take fr.len) }, 0) ∧
      (9 + fr.len ≤ s.buffer.length → ((s.buffer.drop 9).take fr.len).length = 8)) ∧
    (∀ (s : Socket) (fr : H2Frame), fr.len = 8 → fr.streamId = 0 →
      fr.flags &&& FlagPingAck ≠ 0 → parsePing s fr = (s, 0)) ∧
    (∀ (p : ProtocolHttp2) (s : Socket),
      s.connState = .H2Frames → 9 ≤ s.buffer.length →
      ¬((decodeFrameHeader s.buffer).streamId ≠ 0 ∧
        (decodeFrameHeader s.buffer).streamId % 2 = 0) →
      (decodeFrameHeader s.buffer).len ≤ p.m_maxFrameSize →
      9 + (decodeFrameHeader s.buffer).len ≤ s.buffer.length →
      s.streamForContinuation = 0 →
      (decodeFrameHeader s.buffer).type = FramePing →
      loopBody p s =
        (advance (parsePing { s with pktsize := (decodeFrameHeader s.buffer).len,
                                     stream_id := (decodeFrameHeader s.buffer).streamId }
            (decodeFrameHeader s.buffer)).1,
         (parsePing { s with pktsize := (decodeFrameHeader s.buffer).len,
                             stream_id := (decodeFrameHeader s.buffer).streamId }
            (decodeFrameHeader s.buffer)).2,
         Flow.next)) := by
  refine ⟨?_, ?_, ?_, ?_, ?_⟩
  · intro s fr hl
    rw [parsePing, if_pos hl, sendGoAway_eq]
    rfl
  · intro s fr hl hid
    have h1 : ¬(fr.len ≠ 8) := fun h => h hl
    rw [parsePing, if_neg h1, if_pos hid, sendGoAway_eq]
    rfl
  · intro s fr hl hid hack
    have h1 : ¬(fr.len ≠ 8) := fun h => h hl
    have h2 : ¬(fr.streamId ≠ 0) := fun h => h hid
    constructor
    · rw [parsePing, if_neg h1, if_neg h2, if_pos hack, hl]
      simp [sendPing, sendFrame, frameHeader, quint8]
    · intro hc
      rw [List.length_take, List.length_drop]
      omega
  · intro s fr hl hid hack
    have h1 : ¬(fr.len ≠ 8) := fun h => h hl
    have h2 : ¬(fr.streamId ≠ 0) := fun h => h hid
    rw [parsePing, if_neg h1, if_neg h2, if_neg hack]
  · intro p s hst h9 hid hsz hcomp hsfc hty
    have hbody := dispatch_of_complete p s hst h9 hid hsz hcomp hsfc
    rw [hty] at hbody
    simp only [dispatch, FramePing, FrameSettings, FramePriority, FrameHeaders] at hbody
    simp only [Nat.reduceEqDiff, if_false, if_true] at hbody
    exact hbody

theorem ping_handling_witness :
    parsePing
        { Socket.fresh with connState := .H2Frames, pktsize := 7,
                            buffer := [0, 0, 7, 6, 0, 0, 0, 0, 0, 1, 2, 3, 4, 5, 6, 7] }
        { len := 7, streamId := 0, type := 6, flags := 0 } =
      ({ Socket.fresh with connState := .H2Frames, pktsize := 7,
                           buffer := [0, 0, 7, 6, 0, 0, 0, 0, 0, 1, 2, 3, 4, 5, 6, 7],
                           written := goAwayOctets 0 ErrorFrameSizeError, closed := true }, 1) ∧
    parsePing
        { Socket.fresh with connState := .H2Frames, pktsize := 8, stream_id := 1,
                            buffer := [0, 0, 8, 6, 0, 0, 0, 0, 1, 1, 2, 3, 4, 5, 6, 7, 8] }
        { len := 8, streamId := 1, type := 6, flags := 0 } =
      ({ Socket.fresh with connState := .H2Frames, pktsize := 8, stream_id := 1,
                           buffer := [0, 0, 8, 6, 0, 0, 0, 0, 1, 1, 2, 3, 4, 5, 6, 7, 8],
                           written := goAwayOctets 0 ErrorProtocolError, closed := true }, 1) ∧
    parsePing
        { Socket.fresh with connState := .H2Frames, pktsize := 8,
                            buffer := [0, 0, 8, 6, 0, 0, 0, 0, 0, 1, 2, 3, 4, 5, 6, 7, 8] }
        { len := 8, streamId := 0, type := 6, flags := 0 } =
      ({ Socket.fresh with connState := .H2Frames, pktsize := 8,
                           buffer := [0, 0, 8, 6, 0, 0, 0, 0, 0, 1, 2, 3, 4, 5, 6, 7, 8],
                           written := [0, 0, 8, 6, 1, 0, 0, 0, 0, 1, 2, 3, 4, 5, 6, 7, 8] }, 0) ∧
    parsePing
        { Socket.fresh with connState := .H2Frames, pktsize := 8,
                            buffer := [0, 0, 8, 6, 1, 0, 0, 0, 0, 1, 2, 3, 4, 5, 6, 7, 8] }
        { len := 8, streamId := 0, type := 6, flags := 1 } =
      ({ Socket.fresh with connState := .H2Frames, pktsize := 8,
                           buffer := [0, 0, 8, 6, 1, 0, 0, 0, 0, 1, 2, 3, 4, 5, 6, 7, 8] }, 0) ∧
    loopBody smallProtocol
        { Socket.fresh with connState := .H2Frames,
                            buffer := [0, 0, 8, 6, 0, 0, 0, 0, 0, 1, 2, 3, 4, 5, 6, 7, 8] } =
      ({ Socket.fresh with connState := .H2Frames, pktsize := 8, buffer := [],
                           written := [0, 0, 8, 6, 1, 0, 0, 0, 0, 1, 2, 3, 4, 5, 6, 7, 8] },
       0, Flow.next) :=
  ⟨ping_handling.1 _ { len := 7, streamId := 0, type := 6, flags := 0 } (by decide),
   ping_handling.2.1 _ { len := 8, streamId := 1, type := 6, flags := 0 } rfl (by decide),
   (ping_handling.2.2.1 _ { len := 8, streamId := 0, type := 6, flags := 0 } rfl rfl
      (by decide)).1,
   ping_handling.2.2.2.1 _ { len := 8, streamId := 0, type := 6, flags := 1 } rfl rfl
      (by decide),
   ping_handling.2.2.2.2 smallProtocol
      { Socket.fresh with connState := .H2Frames,
                          buffer := [0, 0, 8, 6, 0, 0, 0, 0, 0, 1, 2, 3, 4, 5, 6, 7, 8] }
      rfl (by decide) (by decide) (by decide) (by decide) rfl rfl⟩

theorem findStream_cons (e : Nat × H2Stream) (rest : List (Nat × H2Stream)) (id : Nat) :
    findStream (e :: rest) id = if e.1 = id then some e.2 else findStream rest id := by
  unfold findStream
  rw [List.find?_cons]
  by_cases he : e.1 = id
  · have hb : (e.1 == id) = true := beq_iff_eq.mpr he
    rw [hb, if_pos he]
  · have hb : (e.1 == id) = false := beq_eq_false_iff_ne.mpr he
    rw [hb, if_neg he]

theorem findStream_setStream (streams : List (Nat × H2Stream)) (id : Nat) (st st1 : H2Stream)
    (h : findStream streams id = some st) :
    findStream (setStream streams id st1) id = some st1 := by
  induction streams with
  | nil => simp [findStream] at h
  | cons e rest ih =>
    rw [findStream_cons] at h
    by_cases he : e.1 = id
    · simp only [setStream, List.map_cons, he, if_true]
      rw [findStream_cons, if_pos rfl]
    · rw [if_neg he] at h
      have hrec := ih h
      simp only [setStream, List.map_cons, he, if_false] at hrec ⊢
      rw [findStream_cons, if_neg he]
      exact hrec

/-- C10 (amended): a RST_STREAM frame with nonzero stream id and length 4 that names a
stream present in the table and not Idle sets that stream's state to Closed, writes no
frame and returns 0 (the connection stays open); a frame violating a precondition is
rejected with one GOAWAY: PROTOCOL_ERROR for stream id 0 and for an Idle stream,
FRAME_SIZE_ERROR for a length other than 4, STREAM_CLOSED for a stream not in the table.
The last part ties the handler to the loop: a dispatched RST_STREAM frame is consumed
after the handler. -/
theorem rst_stream_handling :
    (∀ (s : Socket) (fr : H2Frame) (st : H2Stream),
      fr.streamId ≠ 0 → s.pktsize = fr.len → fr.len = 4 →
      findStream s.streams fr.streamId = some st → st.state ≠ .Idle →
      parseRstStream s fr =
        ({ s with streams := setStream s.streams fr.streamId { st with state := .Closed } }, 0) ∧
      findStream (setStream s.streams fr.streamId { st with state := .Closed }) fr.streamId =
        some { st with state := .Closed }) ∧
    (∀ (s : Socket) (fr : H2Frame), fr.streamId = 0 →
      parseRstStream s fr =
        ({ s with written := s.written ++ goAwayOctets s.maxStreamId ErrorProtocolError },
         ErrorProtocolError)) ∧
    (∀ (s : Socket) (fr : H2Frame), fr.streamId ≠ 0 → s.pktsize = fr.len → fr.len ≠ 4 →
      parseRstStream s fr =
        ({ s with written := s.written ++ goAwayOctets s.maxStreamId ErrorFrameSizeError },
         ErrorFrameSizeError)) ∧
    (∀ (s : Socket) (fr : H2Frame), fr.streamId ≠ 0 → s.pktsize = fr.len → fr.len = 4 →
      findStream s.streams fr.streamId = none →
      parseRstStream s fr =
        ({ s with written := s.written ++ goAwayOctets s.maxStreamId ErrorStreamClosed },
         ErrorStreamClosed)) ∧
    (∀ (s : Socket) (fr : H2Frame) (st : H2Stream),
      fr.streamId ≠ 0 → s.pktsize = fr.len → fr.len = 4 →
      findStream s.streams fr.streamId = some st → st.state = .Idle →
      parseRstStream s fr =
        ({ s with written := s.written ++ goAwayOctets s.maxStreamId ErrorProtocolError },
         ErrorProtocolError)) ∧
    (∀ (p : ProtocolHttp2) (s : Socket),
      s.connState = .H2Frames → 9 ≤ s.buffer.length →
      ¬((decodeFrameHeader s.buffer).streamId ≠ 0 ∧
        (decodeFrameHeader s.buffer).streamId % 2 = 0) →
      (decodeFrameHeader s.buffer).len ≤ p.m_maxFrameSize →
      9 + (decodeFrameHeader s.buffer).len ≤ s.buffer.length →
      s.streamForContinuation = 0 →
      (decodeFrameHeader s.buffer).type = FrameRstStream →
      loopBody p s =
        (advance (parseRstStream { s with pktsize := (decodeFrameHeader s.buffer).len,
                                          stream_id := (decodeFrameHeader s.buffer).streamId }
            (decodeFrameHeader s.buffer)).1,
         (parseRstStream { s with pktsize := (decodeFrameHeader s.buffer).len,
                                  stream_id := (decodeFrameHeader s.buffer).streamId }
            (decodeFrameHeader s.buffer)).2,
         Flow.next)) := by
  refine ⟨?_, ?_, ?_, ?_, ?_, ?_⟩
  · intro s fr st hid hpk hl hf hst
    have h1 : ¬(s.pktsize ≠ 4) := by omega
    refine ⟨?_, findStream_setStream _ _ _ _ hf⟩
    rw [parseRstStream, if_neg hid, if_neg h1, hf]
    simp only [hst, if_false]
  · intro s fr hid
    rw [parseRstStream, if_pos hid, sendGoAway_eq]
  · intro s fr hid hpk hl
    have h1 : s.pktsize ≠ 4 := by omega
    rw [parseRstStream, if_neg hid, if_pos h1, sendGoAway_eq]
  · intro s fr hid hpk hl hf
    have h1 : ¬(s.pktsize ≠ 4) := by omega
    rw [parseRstStream, if_neg hid, if_neg h1, hf]
    simp only [sendGoAway_eq]
  · intro s fr st hid hpk hl hf hst
    have h1 : ¬(s.pktsize ≠ 4) := by omega
    rw [parseRstStream, if_neg hid, if_neg h1, hf]
    simp only [hst, if_true, sendGoAway_eq]
  · intro p s hst h9 hid hsz hcomp hsfc hty
    have hbody := dispatch_of_complete p s hst h9 hid hsz hcomp hsfc
    rw [hty] at hbody
    simp only [dispatch, FrameRstStream, FramePing, FrameSettings, FramePriority, FrameHeaders,
      FrameData, FramePushPromise] at hbody
    simp only [Nat.reduceEqDiff, if_false, if_true] at hbody
    exact hbody

/-- C10 fails as stated: a RST_STREAM frame on stream 1 with length 0 is rejected with
GOAWAY(FRAME_SIZE_ERROR), a code that is neither PROTOCOL_ERROR nor STREAM_CLOSED. -/
theorem rst_stream_frame_size_code :
    decodeFrameHeader [0, 0, 0, 3, 0, 0, 0, 0, 1] =
      { len := 0, streamId := 1, type := FrameRstStream, flags := 0 } ∧
    processBuffer smallProtocol 1
        { Socket.fresh with connState := .H2Frames, buffer := [0, 0, 0, 3, 0, 0, 0, 0, 1] } =
      some { Socket.fresh with connState := .H2Frames, buffer := [], stream_id := 1,
                               written := goAwayOctets 0 ErrorFrameSizeError,
                               closed := true } ∧
    goAwayOctets 0 ErrorFrameSizeError ≠ goAwayOctets 0 ErrorProtocolError ∧
    goAwayOctets 0 ErrorFrameSizeError ≠ goAwayOctets 0 ErrorStreamClosed := by
  decide

theorem rst_stream_handling_witness :
    (parseRstStream
        { Socket.fresh with connState := .H2Frames, pktsize := 4, stream_id := 1, maxStreamId := 1,
                            streams := [(1, { H2Stream.fresh with state := .Open })],
                            buffer := [0, 0, 4, 3, 0, 0, 0, 0, 1, 0, 0, 0, 8] }
        { len := 4, streamId := 1, type := 3, flags := 0 } =
      ({ Socket.fresh with connState := .H2Frames, pktsize := 4, stream_id := 1, maxStreamId := 1,
                           streams := [(1, { H2Stream.fresh with state := .Closed })],
                           buffer := [0, 0, 4, 3, 0, 0, 0, 0, 1, 0, 0, 0, 8] }, 0) ∧
      findStream [(1, { H2Stream.fresh with state := .Closed })] 1 =
        some { H2Stream.fresh with state := .Closed }) ∧
    parseRstStream
        { Socket.fresh with connState := .H2Frames, pktsize := 4,
                            buffer := [0, 0, 4, 3, 0, 0, 0, 0, 0, 0, 0, 0, 8] }
        { len := 4, streamId := 0, type := 3, flags := 0 } =
      ({ Socket.fresh with connState := .H2Frames, pktsize := 4,
                           buffer := [0, 0, 4, 3, 0, 0, 0, 0, 0, 0, 0, 0, 8],
                           written := goAwayOctets 0 ErrorProtocolError }, ErrorProtocolError) ∧
    parseRstStream
        { Socket.fresh with connState := .H2Frames, pktsize := 0, stream_id := 1,
                            buffer := [0, 0, 0, 3, 0, 0, 0, 0, 1] }
        { len := 0, streamId := 1, type := 3, flags := 0 } =
      ({ Socket.fresh with connState := .H2Frames, pktsize := 0, stream_id := 1,
                           buffer := [0, 0, 0, 3, 0, 0, 0, 0, 1],
                           written := goAwayOctets 0 ErrorFrameSizeError }, ErrorFrameSizeError) ∧
    parseRstStream
        { Socket.fresh with connState := .H2Frames, pktsize := 4, stream_id := 1,
                            buffer := [0, 0, 4, 3, 0, 0, 0, 0, 1, 0, 0, 0, 8] }
        { len := 4, streamId := 1, type := 3, flags := 0 } =
      ({ Socket.fresh with connState := .H2Frames, pktsize := 4, stream_id := 1,
                           buffer := [0, 0, 4, 3, 0, 0, 0, 0, 1, 0, 0, 0, 8],
                           written := goAwayOctets 0 ErrorStreamClosed }, ErrorStreamClosed) ∧
    parseRstStream
        { Socket.fresh with connState := .H2Frames, pktsize := 4, stream_id := 1, maxStreamId := 1,
                            streams := [(1, H2Stream.fresh)],
                            buffer := [0, 0, 4, 3, 0, 0, 0, 0, 1, 0, 0, 0, 8] }
        { len := 4, streamId := 1, type := 3, flags := 0 } =
      ({ Socket.fresh with connState := .H2Frames, pktsize := 4, stream_id := 1, maxStreamId := 1,
                           streams := [(1, H2Stream.fresh)],
                           buffer := [0, 0, 4, 3, 0, 0, 0, 0, 1, 0, 0, 0, 8],
                           written := goAwayOctets 1 ErrorProtocolError }, ErrorProtocolError) ∧
    loopBody smallProtocol
        { Socket.fresh with connState := .H2Frames, maxStreamId := 1,
                            streams := [(1, { H2Stream.fresh with state := .Open })],
                            buffer := [0, 0, 4, 3, 0, 0, 0, 0, 1, 0, 0, 0, 8] } =
      ({ Socket.fresh with connState := .H2Frames, pktsize := 4, stream_id := 1, maxStreamId := 1,
                           streams := [(1, { H2Stream.fresh with state := .Closed })],
                           buffer := [] }, 0, Flow.next) :=
  ⟨rst_stream_handling.1 _ { len := 4, streamId := 1, type := 3, flags := 0 }
      { H2Stream.fresh with state := .Open } (by decide) rfl rfl rfl (by decide),
   rst_stream_handling.2.1 _ { len := 4, streamId := 0, type := 3, flags := 0 } rfl,
   rst_stream_handling.2.2.1 _ { len := 0, streamId := 1, type := 3, flags := 0 } (by decide) rfl
      (by decide),
   rst_stream_handling.2.2.2.1 _ { len := 4, streamId := 1, type := 3, flags := 0 } (by decide)
      rfl rfl rfl,
   rst_stream_handling.2.2.2.2.1 _ { len := 4, streamId := 1, type := 3, flags := 0 }
      H2Stream.fresh (by decide) rfl rfl rfl rfl,
   rst_stream_handling.2.2.2.2.2 smallProtocol
      { Socket.fresh with connState := .H2Frames, maxStreamId := 1,
                          streams := [(1, { H2Stream.fresh with state := .Open })],
                          buffer := [0, 0, 4, 3, 0, 0, 0, 0, 1, 0, 0, 0, 8] }
      rfl (by decide) (by decide) (by decide) (by decide) rfl rfl⟩

/-- C11 (code defect): with the window at its default 65535, a WINDOW_UPDATE frame whose
increment is 4294967295 would push the window to 4295032830, above 2^31-1; the 32-bit sum
wraps to 65534, so the stream-scoped frame (stream 1, Open) is accepted without any
RST_STREAM and the connection-scoped frame (stream 0) is accepted without any GOAWAY and
without closing the connection. -/
theorem window_update_sum_wraps :
    h2_be32 [0, 0, 4, 8, 0, 0, 0, 0, 1, 255, 255, 255, 255] 9 = 4294967295 ∧
    2147483647 < 65535 + 4294967295 ∧
    processBuffer smallProtocol 1
        { oneStreamSocket with buffer := [0, 0, 4, 8, 0, 0, 0, 0, 1, 255, 255, 255, 255] } =
      some { oneStreamSocket with buffer := [], pktsize := 4, stream_id := 1,
                                  streams := [(1, { openStream with windowSize := 65534 })] } ∧
    processBuffer smallProtocol 1
        { oneStreamSocket with buffer := [0, 0, 4, 8, 0, 0, 0, 0, 0, 255, 255, 255, 255] } =
      some { oneStreamSocket with buffer := [], pktsize := 4, stream_id := 0,
                                  windowSize := 65534 } := by
  decide

/-- C12 (code defect): before the frame the connection window and the window of stream 1
are 65535; a WINDOW_UPDATE frame on stream 1 with increment 2147483647 is answered with
RST_STREAM(FLOW_CONTROL_ERROR), and the window stored for stream 1 afterwards is
2147549182, above 2^31-1. -/
theorem window_stored_after_overflow :
    oneStreamSocket.windowSize ≤ 2147483647 ∧
    (∀ e ∈ oneStreamSocket.streams, e.2.windowSize ≤ 2147483647) ∧
    processBuffer smallProtocol 1
        { oneStreamSocket with buffer := [0, 0, 4, 8, 0, 0, 0, 0, 1, 127, 255, 255, 255] } =
      some { oneStreamSocket with
               buffer := [], pktsize := 4, stream_id := 1,
               written := [0, 0, 4, 3, 0, 0, 0, 0, 1, 0, 0, 0, 3],
               streams := [(1, { openStream with state := .Closed,
                                                 windowSize := 2147549182 })] } ∧
    ¬ (2147549182 ≤ 2147483647) := by
  decide

theorem headersTail_maxStreamId (p : ProtocolHttp2) (s : Socket) (fr : H2Frame)
    (pos padLength : Nat) (stream : H2Stream) :
    (headersTail p s fr pos padLength stream).1.maxStreamId = s.maxStreamId := by
  simp only [headersTail, sendGoAway_eq, schedule]
  split_ifs <;> rfl

/-- C13 (amended): for every connection state and every HEADERS frame whose stream id is
not in the stream table and is at most the connection's highest stream id, the frame is
rejected with GOAWAY(PROTOCOL_ERROR) and leaves the stream table (and everything but the
output) unchanged; and whenever a HEADERS frame for a stream id not in the table is
accepted, that id is strictly above the previous highest stream id and becomes the new
highest. -/
theorem headers_new_stream_ids_increase :
    (∀ (p : ProtocolHttp2) (s : Socket) (fr : H2Frame),
      findStream s.streams fr.streamId = none → fr.streamId ≤ s.maxStreamId →
      parseHeaders p s fr =
        ({ s with written := s.written ++ goAwayOctets s.maxStreamId ErrorProtocolError },
         ErrorProtocolError)) ∧
    (∀ (p : ProtocolHttp2) (s : Socket) (fr : H2Frame),
      findStream s.streams fr.streamId = none → (parseHeaders p s fr).2 = 0 →
      s.maxStreamId < fr.streamId ∧ (parseHeaders p s fr).1.maxStreamId = fr.streamId) := by
  constructor
  · intro p s fr hnone hle
    have hge : s.maxStreamId ≥ fr.streamId := hle
    simp only [parseHeaders, hnone, sendGoAway_eq, hge, if_true]
    split_ifs <;> rfl
  · intro p s fr hnone hacc
    simp only [parseHeaders, hnone, sendGoAway_eq] at hacc ⊢
    split_ifs at hacc ⊢
    all_goals first
      | (exfalso; simp at hacc; done)
      | (rw [headersTail_maxStreamId]; exact ⟨by omega, rfl⟩)

theorem headers_new_stream_ids_increase_witness :
    parseHeaders smallProtocol
        { Socket.fresh with connState := .H2Frames, maxStreamId := 3, stream_id := 1,
                            streams := [(3, openStream)],
                            buffer := [0, 0, 0, 1, 5, 0, 0, 0, 1] }
        { len := 0, streamId := 1, type := 1, flags := 5 } =
      ({ Socket.fresh with connState := .H2Frames, maxStreamId := 3, stream_id := 1,
                           streams := [(3, openStream)],
                           buffer := [0, 0, 0, 1, 5, 0, 0, 0, 1],
                           written := goAwayOctets 3 ErrorProtocolError }, ErrorProtocolError) ∧
    (0 < 1 ∧
      (parseHeaders smallProtocol
          { Socket.fresh with connState := .H2Frames, stream_id := 1,
                              buffer := [0, 0, 0, 1, 5, 0, 0, 0, 1] }
          { len := 0, streamId := 1, type := 1, flags := 5 }).1.maxStreamId = 1) :=
  ⟨headers_new_stream_ids_increase.1 smallProtocol
      { Socket.fresh with connState := .H2Frames, maxStreamId := 3, stream_id := 1,
                          streams := [(3, openStream)],
                          buffer := [0, 0, 0, 1, 5, 0, 0, 0, 1] }
      { len := 0, streamId := 1, type := 1, flags := 5 } (by decide) (by decide),
   headers_new_stream_ids_increase.2 smallProtocol
      { Socket.fresh with connState := .H2Frames, stream_id := 1,
                          buffer := [0, 0, 0, 1, 5, 0, 0, 0, 1] }
      { len := 0, streamId := 1, type := 1, flags := 5 } (by decide) (by decide)⟩

/-- C13 fails as stated: after HEADERS(stream 1, END_HEADERS) the highest stream id is
1; a second HEADERS frame on stream 1 (END_STREAM and END_HEADERS), whose id is not above
the highest stream id, is accepted: no GOAWAY is written, the connection stays open, the
stream record changes to HalfClosed and a completion is queued. -/
theorem headers_seen_id_accepted :
    (loopBody smallProtocol
        { Socket.fresh with connState := .H2Frames,
                            buffer := [0, 0, 0, 1, 4, 0, 0, 0, 1, 0, 0, 0, 1, 5, 0, 0, 0, 1] }).1 =
      { oneStreamSocket with stream_id := 1, buffer := [0, 0, 0, 1, 5, 0, 0, 0, 1] } ∧
    decodeFrameHeader [0, 0, 0, 1, 5, 0, 0, 0, 1] =
      { len := 0, streamId := 1, type := FrameHeaders, flags := 5 } ∧
    processBuffer smallProtocol 2
        { Socket.fresh with connState := .H2Frames,
                            buffer := [0, 0, 0, 1, 4, 0, 0, 0, 1, 0, 0, 0, 1, 5, 0, 0, 0, 1] } =
      some { oneStreamSocket with
               stream_id := 1,
               streams := [(1, { openStream with state := .HalfClosed })],
               deferred := [{ len := 0, streamId := 1, type := 1, flags := 5 }] } := by
  decide

theorem parseHeaders_new_stream (p : ProtocolHttp2) (s : Socket) (fr : H2Frame)
    (hid : fr.streamId ≠ 0)
    (hpad : ¬(fr.flags &&& FlagHeadersPadded ≠ 0 ∧ headersPadLength s fr > fr.len))
    (hdep : ¬(fr.flags &&& FlagHeadersPriority ≠ 0 ∧
      fr.streamId = h2_be32 s.buffer (9 + if fr.flags &&& FlagHeadersPadded ≠ 0 then 1 else 0)))
    (hnone : findStream s.streams fr.streamId = none) (hmax : s.maxStreamId < fr.streamId) :
    parseHeaders p s fr =
      headersTail p
        { s with maxStreamId := fr.streamId,
                 streams := insertStream s.streams fr.streamId H2Stream.fresh }
        fr (headersPos fr) (headersPadLength s fr) H2Stream.fresh := by
  have hge : ¬(s.maxStreamId ≥ fr.streamId) := by omega
  simp only [headersPadLength] at hpad
  simp only [parseHeaders, if_neg hid, hnone, if_neg hge, headersPos, headersPadLength]
  have hdep1 : ¬(fr.flags &&& FlagHeadersPriority ≠ 0 ∧
      fr.streamId = if fr.flags &&& FlagHeadersPriority ≠ 0 then
        h2_be32 s.buffer (9 + if fr.flags &&& FlagHeadersPadded ≠ 0 then 1 else 0) else 0) := by
    rintro ⟨hq, he⟩
    rw [if_pos hq] at he
    exact hdep ⟨hq, he⟩
  rw [if_neg hpad, if_neg hdep1]

theorem headersFragmentLength_toNat (fr : H2Frame) (pos padLength : Nat) :
    (headersFragmentLength fr pos padLength).toNat = fr.len - pos - padLength := by
  unfold headersFragmentLength
  omega

/-- C14 (code defect): a HEADERS frame of length 0 on the new stream 1 with the flags
PADDED, END_HEADERS and END_STREAM, followed in the buffer by another frame whose first
octet is 0, is accepted (the codec is invoked and the handler returns 0), although the
pad-length octet it reads at payload offset 0 lies outside its empty payload and the
range handed to the codec has the signed length 0 - 1 - 0 = -1. -/
theorem headers_preamble_outside_payload :
    parseHeaders smallProtocol
        { Socket.fresh with connState := .H2Frames, stream_id := 1,
                            buffer := [0, 0, 0, 1, 13, 0, 0, 0, 1, 0, 0, 0, 4, 0, 0, 0, 0, 0] }
        { len := 0, streamId := 1, type := 1, flags := 13 } =
      ({ Socket.fresh with
           connState := .H2Frames, stream_id := 1, maxStreamId := 1,
           buffer := [0, 0, 0, 1, 13, 0, 0, 0, 1, 0, 0, 0, 4, 0, 0, 0, 0, 0],
           streams := [(1, { H2Stream.fresh with state := .HalfClosed })],
           deferred := [{ len := 0, streamId := 1, type := 1, flags := 13 }] }, 0) ∧
    headersPreambleReads { len := 0, streamId := 1, type := 1, flags := 13 } = [0] ∧
    ¬ (0 < H2Frame.len { len := 0, streamId := 1, type := 1, flags := 13 }) ∧
    headersPos { len := 0, streamId := 1, type := 1, flags := 13 } = 1 ∧
    headersPadLength
        { Socket.fresh with connState := .H2Frames, stream_id := 1,
                            buffer := [0, 0, 0, 1, 13, 0, 0, 0, 1, 0, 0, 0, 4, 0, 0, 0, 0, 0] }
        { len := 0, streamId := 1, type := 1, flags := 13 } = 0 ∧
    headersFragmentLength { len := 0, streamId := 1, type := 1, flags := 13 } 1 0 = -1 := by
  decide

/-- C15 (code defect): with a codec that decodes each octet of a fragment into one
header, HEADERS(stream 1, no END_HEADERS, fragment [65]) leaves the stream with the one
header decoded from [65]; after the CONTINUATION frame for stream 1 with fragment [66]
the stream's header collection is only the header decoded from [66]: the header of the
first fragment is lost. -/
theorem continuation_overwrites_headers :
    (loopBody octetProtocol
        { Socket.fresh with
            connState := .H2Frames,
            buffer := [0, 0, 1, 1, 0, 0, 0, 0, 1, 65, 0, 0, 1, 9, 4, 0, 0, 0, 1, 66] }).1 =
      { oneStreamSocket with
          pktsize := 1, stream_id := 1, streamForContinuation := 1,
          buffer := [0, 0, 1, 9, 4, 0, 0, 0, 1, 66],
          streams := [(1, { openStream with headers := [([65], [65])] })] } ∧
    processBuffer octetProtocol 2
        { Socket.fresh with
            connState := .H2Frames,
            buffer := [0, 0, 1, 1, 0, 0, 0, 0, 1, 65, 0, 0, 1, 9, 4, 0, 0, 0, 1, 66] } =
      some { oneStreamSocket with
               pktsize := 1, stream_id := 1,
               streams := [(1, { openStream with headers := [([66], [66])] })] } ∧
    [([66], [66])] ≠ ([([65], [65])] ++ [([66], [66])] : List Header) := by
  decide

/-- C17 (code defect): on an Open stream with declared content-length 10 and nothing
consumed, a DATA frame of 4 octets without END_STREAM, which leaves the counter at 4,
below 10, is rejected with GOAWAY(PROTOCOL_ERROR); and a DATA frame of 12 octets without
END_STREAM, which takes the counter to 12, above 10, is accepted. -/
theorem data_content_length_inverted :
    processBuffer smallProtocol 1
        { oneStreamSocket with
            streams := [(1, { openStream with contentLength := 10 })],
            buffer := [0, 0, 4, 0, 0, 0, 0, 0, 1, 1, 2, 3, 4] } =
      some { oneStreamSocket with
               pktsize := 4, stream_id := 1, closed := true,
               written := goAwayOctets 1 ErrorProtocolError,
               streams := [(1, { openStream with contentLength := 10, consumedData := 4 })] } ∧
    processBuffer smallProtocol 1
        { oneStreamSocket with
            streams := [(1, { openStream with contentLength := 10 })],
            buffer := [0, 0, 12, 0, 0, 0, 0, 0, 1, 1, 2, 3, 4, 5, 6, 7, 8, 9, 10, 11, 12] } =
      some { oneStreamSocket with
               pktsize := 12, stream_id := 1,
               streams := [(1, { openStream with contentLength := 10, consumedData := 12 })] } := by
  decide

/-- C18 (amended): a DATA frame is accepted only if its stream id is nonzero and names a
stream of the table whose state is Open.  Stream id 0 gives GOAWAY(PROTOCOL_ERROR); a
PADDED frame whose pad length is not below the frame length gives GOAWAY(PROTOCOL_ERROR)
whatever the stream state; past the padding check an Idle stream gives
GOAWAY(PROTOCOL_ERROR) and a HalfClosed or Closed stream gives GOAWAY(STREAM_CLOSED).  In
each of these rejections only the output changes, so the consumed-byte counter is as
before; and in every rejected case (nonzero return) no completion is queued. -/
theorem data_acceptance_by_state :
    (∀ (s : Socket) (fr : H2Frame), (parseData s fr).2 = 0 →
      fr.streamId ≠ 0 ∧
      ∃ st, findStream s.streams fr.streamId = some st ∧ st.state = .Open) ∧
    (∀ (s : Socket) (fr : H2Frame), fr.streamId = 0 →
      parseData s fr =
        ({ s with written := s.written ++ goAwayOctets s.maxStreamId ErrorProtocolError },
         ErrorProtocolError)) ∧
    (∀ (s : Socket) (fr : H2Frame), fr.streamId ≠ 0 →
      (fr.flags &&& FlagDataPadded ≠ 0 ∧ quint8 (s.buffer.getD 9 0) ≥ fr.len) →
      parseData s fr =
        ({ s with written := s.written ++ goAwayOctets s.maxStreamId ErrorProtocolError },
         ErrorProtocolError)) ∧
    (∀ (s : Socket) (fr : H2Frame) (st : H2Stream), fr.streamId ≠ 0 →
      ¬(fr.flags &&& FlagDataPadded ≠ 0 ∧ quint8 (s.buffer.getD 9 0) ≥ fr.len) →
      findStream s.streams fr.streamId = some st → st.state = .Idle →
      parseData s fr =
        ({ s with written := s.written ++ goAwayOctets s.maxStreamId ErrorProtocolError },
         ErrorProtocolError)) ∧
    (∀ (s : Socket) (fr : H2Frame) (st : H2Stream), fr.streamId ≠ 0 →
      ¬(fr.flags &&& FlagDataPadded ≠ 0 ∧ quint8 (s.buffer.getD 9 0) ≥ fr.len) →
      findStream s.streams fr.streamId = some st →
      (st.state = .HalfClosed ∨ st.state = .Closed) →
      parseData s fr =
        ({ s with written := s.written ++ goAwayOctets s.maxStreamId ErrorStreamClosed },
         ErrorStreamClosed)) ∧
    (∀ (s : Socket) (fr : H2Frame), (parseData s fr).2 ≠ 0 →
      (parseData s fr).1.deferred = s.deferred) := by
  refine ⟨?_, ?_, ?_, ?_, ?_, ?_⟩
  · intro s fr hacc
    unfold parseData at hacc
    dsimp only at hacc
    generalize (if fr.flags &&& FlagDataPadded ≠ 0 then quint8 (s.buffer.getD 9 0) else 0) = pad
      at hacc
    by_cases h0 : fr.streamId = 0
    · rw [if_pos h0, sendGoAway_eq] at hacc
      simp at hacc
    · rw [if_neg h0] at hacc
      refine ⟨h0, ?_⟩
      by_cases hp : fr.flags &&& FlagDataPadded ≠ 0 ∧ pad ≥ fr.len
      · rw [if_pos hp, sendGoAway_eq] at hacc
        simp at hacc
      · rw [if_neg hp] at hacc
        cases hf : findStream s.streams fr.streamId with
        | none =>
          rw [hf] at hacc
          simp [sendGoAway_eq] at hacc
        | some st =>
          refine ⟨st, rfl, ?_⟩
          rw [hf] at hacc
          dsimp only at hacc
          by_cases hi : st.state = .Idle
          · rw [if_pos hi, sendGoAway_eq] at hacc
            simp at hacc
          · rw [if_neg hi] at hacc
            by_cases hc : st.state = .HalfClosed ∨ st.state = .Closed
            · rw [if_pos hc, sendGoAway_eq] at hacc
              simp at hacc
            · cases hst : st.state with
              | Idle => exact absurd hst hi
              | Open => rfl
              | HalfClosed => exact absurd (Or.inl hst) hc
              | Closed => exact absurd (Or.inr hst) hc
  · intro s fr h0
    unfold parseData
    rw [if_pos h0, sendGoAway_eq]
  · intro s fr h0 hp
    have hp1 : fr.flags &&& FlagDataPadded ≠ 0 ∧
        (if fr.flags &&& FlagDataPadded ≠ 0 then quint8 (s.buffer.getD 9 0) else 0) ≥ fr.len := by
      refine ⟨hp.1, ?_⟩
      rw [if_pos hp.1]
      exact hp.2
    unfold parseData
    dsimp only
    rw [if_neg h0, if_pos hp1, sendGoAway_eq]
  · intro s fr st h0 hp hf hst
    have hp1 : ¬(fr.flags &&& FlagDataPadded ≠ 0 ∧
        (if fr.flags &&& FlagDataPadded ≠ 0 then quint8 (s.buffer.getD 9 0) else 0) ≥ fr.len) := by
      rintro ⟨ha, hb⟩
      rw [if_pos ha] at hb
      exact hp ⟨ha, hb⟩
    unfold parseData
    dsimp only
    rw [if_neg h0, if_neg hp1, hf]
    dsimp only
    rw [if_pos hst, sendGoAway_eq]
  · intro s fr st h0 hp hf hst
    have hp1 : ¬(fr.flags &&& FlagDataPadded ≠ 0 ∧
        (if fr.flags &&& FlagDataPadded ≠ 0 then quint8 (s.buffer.getD 9 0) else 0) ≥ fr.len) := by
      rintro ⟨ha, hb⟩
      rw [if_pos ha] at hb
      exact hp ⟨ha, hb⟩
    have hni : ¬(st.state = .Idle) := by
      rcases hst with h | h <;> simp [h]
    unfold parseData
    dsimp only
    rw [if_neg h0, if_neg hp1, hf]
    dsimp only
    rw [if_neg hni, if_pos hst, sendGoAway_eq]
  · intro s fr hrej
    unfold parseData at hrej ⊢
    dsimp only at hrej ⊢
    generalize (if fr.flags &&& FlagDataPadded ≠ 0 then quint8 (s.buffer.getD 9 0) else 0) = pad
      at hrej ⊢
    by_cases h0 : fr.streamId = 0
    · rw [if_pos h0, sendGoAway_eq]
    · rw [if_neg h0] at hrej ⊢
      by_cases hp : fr.flags &&& FlagDataPadded ≠ 0 ∧ pad ≥ fr.len
      · rw [if_pos hp, sendGoAway_eq]
      · rw [if_neg hp] at hrej ⊢
        cases hf : findStream s.streams fr.streamId with
        | none =>
          dsimp only
          rw [sendGoAway_eq]
        | some st =>
          rw [hf] at hrej
          dsimp only at hrej ⊢
          by_cases hi : st.state = .Idle
          · rw [if_pos hi, sendGoAway_eq]
          · rw [if_neg hi] at hrej ⊢
            by_cases hc : st.state = .HalfClosed ∨ st.state = .Closed
            · rw [if_pos hc, sendGoAway_eq]
            · rw [if_neg hc] at hrej ⊢
              by_cases hcl : st.contentLength ≠ -1 ∧
                  ((fr.flags &&& FlagDataEndStream ≠ 0 ∧
                      st.contentLength ≠ st.consumedData + ((fr.len - pad : Nat) : Int)) ∨
                    st.contentLength > st.consumedData + ((fr.len - pad : Nat) : Int))
              · rw [if_pos hcl, sendGoAway_eq]
              · rw [if_neg hcl] at hrej
                by_cases he : fr.flags &&& FlagDataEndStream ≠ 0
                · rw [if_pos he] at hrej
                  simp at hrej
                · rw [if_neg he] at hrej
                  simp at hrej

theorem data_acceptance_by_state_witness :
    ((1 : Nat) ≠ 0 ∧
      ∃ st, findStream oneStreamSocket.streams 1 = some st ∧ st.state = .Open) ∧
    parseData { oneStreamSocket with buffer := [0, 0, 1, 0, 0, 0, 0, 0, 0, 7] }
        { len := 1, streamId := 0, type := 0, flags := 0 } =
      ({ oneStreamSocket with buffer := [0, 0, 1, 0, 0, 0, 0, 0, 0, 7],
                              written := goAwayOctets 1 ErrorProtocolError },
       ErrorProtocolError) ∧
    parseData { oneStreamSocket with buffer := [0, 0, 1, 0, 8, 0, 0, 0, 1, 5] }
        { len := 1, streamId := 1, type := 0, flags := 8 } =
      ({ oneStreamSocket with buffer := [0, 0, 1, 0, 8, 0, 0, 0, 1, 5],
                              written := goAwayOctets 1 ErrorProtocolError },
       ErrorProtocolError) ∧
    parseData { oneStreamSocket with streams := [(1, H2Stream.fresh)],
                                     buffer := [0, 0, 1, 0, 0, 0, 0, 0, 1, 7] }
        { len := 1, streamId := 1, type := 0, flags := 0 } =
      ({ oneStreamSocket with streams := [(1, H2Stream.fresh)],
                              buffer := [0, 0, 1, 0, 0, 0, 0, 0, 1, 7],
                              written := goAwayOctets 1 ErrorProtocolError },
       ErrorProtocolError) ∧
    parseData { oneStreamSocket with streams := [(1, { openStream with state := .HalfClosed })],
                                     buffer := [0, 0, 1, 0, 0, 0, 0, 0, 1, 7] }
        { len := 1, streamId := 1, type := 0, flags := 0 } =
      ({ oneStreamSocket with streams := [(1, { openStream with state := .HalfClosed })],
                              buffer := [0, 0, 1, 0, 0, 0, 0, 0, 1, 7],
                              written := goAwayOctets 1 ErrorStreamClosed },
       ErrorStreamClosed) ∧
    (parseData { oneStreamSocket with buffer := [0, 0, 1, 0, 0, 0, 0, 0, 0, 7] }
        { len := 1, streamId := 0, type := 0, flags := 0 }).1.deferred = [] :=
  ⟨data_acceptance_by_state.1 { oneStreamSocket with buffer := [0, 0, 1, 0, 0, 0, 0, 0, 1, 7] }
      { len := 1, streamId := 1, type := 0, flags := 0 } (by decide),
   data_acceptance_by_state.2.1 _ { len := 1, streamId := 0, type := 0, flags := 0 } rfl,
   data_acceptance_by_state.2.2.1 { oneStreamSocket with buffer := [0, 0, 1, 0, 8, 0, 0, 0, 1, 5] }
      { len := 1, streamId := 1, type := 0, flags := 8 } (by decide) (by decide),
   data_acceptance_by_state.2.2.2.1
      { oneStreamSocket with streams := [(1, H2Stream.fresh)],
                             buffer := [0, 0, 1, 0, 0, 0, 0, 0, 1, 7] }
      { len := 1, streamId := 1, type := 0, flags := 0 } H2Stream.fresh
      (by decide) (by decide) (by decide) rfl,
   data_acceptance_by_state.2.2.2.2.1
      { oneStreamSocket with streams := [(1, { openStream with state := .HalfClosed })],
                             buffer := [0, 0, 1, 0, 0, 0, 0, 0, 1, 7] }
      { len := 1, streamId := 1, type := 0, flags := 0 } { openStream with state := .HalfClosed }
      (by decide) (by decide) (by decide) (Or.inl rfl),
   data_acceptance_by_state.2.2.2.2.2
      { oneStreamSocket with buffer := [0, 0, 1, 0, 0, 0, 0, 0, 0, 7] }
      { len := 1, streamId := 0, type := 0, flags := 0 } (by decide)⟩

/-- C18 fails as stated: a PADDED DATA frame of length 1 with pad length 5 on the Closed
stream 1 gives GOAWAY(PROTOCOL_ERROR), not GOAWAY(STREAM_CLOSED); and a DATA frame of 4
octets with END_STREAM on an Open stream that declared content-length 10 is rejected
with GOAWAY(PROTOCOL_ERROR) after its consumed-byte counter went from 0 to 4. -/
theorem data_rejection_details :
    processBuffer smallProtocol 1
        { oneStreamSocket with
            streams := [(1, { openStream with state := .Closed })],
            buffer := [0, 0, 1, 0, 8, 0, 0, 0, 1, 5] } =
      some { oneStreamSocket with
               pktsize := 1, stream_id := 1, closed := true,
               written := goAwayOctets 1 ErrorProtocolError,
               streams := [(1, { openStream with state := .Closed })] } ∧
    goAwayOctets 1 ErrorProtocolError ≠ goAwayOctets 1 ErrorStreamClosed ∧
    processBuffer smallProtocol 1
        { oneStreamSocket with
            streams := [(1, { openStream with contentLength := 10 })],
            buffer := [0, 0, 4, 0, 1, 0, 0, 0, 1, 1, 2, 3, 4] } =
      some { oneStreamSocket with
               pktsize := 4, stream_id := 1, closed := true,
               written := goAwayOctets 1 ErrorProtocolError,
               streams := [(1, { openStream with contentLength := 10, consumedData := 4 })] } := by
  decide

theorem findStream_append_new (streams : List (Nat × H2Stream)) (id : Nat) (st : H2Stream)
    (h : findStream streams id = none) : findStream (streams ++ [(id, st)]) id = some st := by
  induction streams with
  | nil => rw [List.nil_append, findStream_cons, if_pos rfl]
  | cons e rest ih =>
    rw [findStream_cons] at h
    by_cases he : e.1 = id
    · rw [if_pos he] at h
      cases h
    · rw [if_neg he] at h
      rw [List.cons_append, findStream_cons, if_neg he]
      exact ih h

theorem findStream_insertStream (streams : List (Nat × H2Stream)) (id : Nat) (st : H2Stream) :
    findStream (insertStream streams id st) id = some st := by
  unfold insertStream
  cases hf : findStream streams id with
  | none =>
    simp only [Option.isSome_none, Bool.false_eq_true, if_false]
    exact findStream_append_new streams id st hf
  | some st0 =>
    simp only [Option.isSome_some, if_true]
    exact findStream_setStream streams id st0 st hf

theorem headersTail_accepted (p : ProtocolHttp2) (s : Socket) (fr : H2Frame)
    (pos padLength : Nat) (stream st0 : H2Stream)
    (hf : findStream s.streams fr.streamId = some st0)
    (hcodec : ∀ fragment st, (p.decode fragment st).2.2.state = st.state)
    (hacc : (headersTail p s fr pos padLength stream).2 = 0) :
    ∃ st, findStream (headersTail p s fr pos padLength stream).1.streams fr.streamId = some st ∧
      (fr.flags &&& FlagHeadersEndStream ≠ 0 → st.state = .HalfClosed) ∧
      (headersTail p s fr pos padLength stream).1.written = s.written ∧
      (fr.flags &&& FlagHeadersEndHeaders = 0 →
        (headersTail p s fr pos padLength stream).1.streamForContinuation = fr.streamId ∧
        (headersTail p s fr pos padLength stream).1.deferred = s.deferred) ∧
      (fr.flags &&& FlagHeadersEndHeaders ≠ 0 →
        (headersTail p s fr pos padLength stream).1.streamForContinuation = 0 ∧
        (st.state = .HalfClosed →
          (headersTail p s fr pos padLength stream).1.deferred = s.deferred ++ [fr]) ∧
        (st.state ≠ .HalfClosed →
          (headersTail p s fr pos padLength stream).1.deferred = s.deferred)) ∧
      st.state =
        (if fr.flags &&& FlagHeadersEndStream ≠ 0 then StreamState.HalfClosed
         else if stream.state = .Idle then StreamState.Open else stream.state) := by
  unfold headersTail at hacc ⊢
  dsimp only at hacc ⊢
  generalize hst2 : (if fr.flags &&& FlagHeadersEndStream ≠ 0 then
      ({ (if stream.state = StreamState.Idle then
            ({ stream with state := StreamState.Open } : H2Stream) else stream) with
          state := StreamState.HalfClosed } : H2Stream)
    else (if stream.state = StreamState.Idle then
            ({ stream with state := StreamState.Open } : H2Stream) else stream)) = stream2
    at hacc ⊢
  have hes : fr.flags &&& FlagHeadersEndStream ≠ 0 → stream2.state = .HalfClosed := by
    intro he
    rw [← hst2, if_pos he]
  have hs2 : stream2.state =
      (if fr.flags &&& FlagHeadersEndStream ≠ 0 then StreamState.HalfClosed
       else if stream.state = .Idle then StreamState.Open else stream.state) := by
    rw [← hst2]
    by_cases he : fr.flags &&& FlagHeadersEndStream ≠ 0
    · rw [if_pos he, if_pos he]
    · rw [if_neg he, if_neg he]
      by_cases hi : stream.state = .Idle
      · rw [if_pos hi, if_pos hi]
      · rw [if_neg hi, if_neg hi]
  have hdec := hcodec ((s.buffer.drop (9 + pos)).take (fr.len - pos - padLength)) stream2
  generalize p.decode ((s.buffer.drop (9 + pos)).take (fr.len - pos - padLength)) stream2 = r
    at hacc hdec ⊢
  by_cases hr : r.1 ≠ 0
  · rw [if_pos hr, sendGoAway_eq] at hacc
    exact absurd hacc hr
  · rw [if_neg hr]
    refine ⟨{ r.2.2 with headers := r.2.1 }, ?_, ?_, ?_, ?_, ?_, hdec.trans hs2⟩
    · by_cases heh : fr.flags &&& FlagHeadersEndHeaders ≠ 0
      · rw [if_pos heh]
        split_ifs
        · exact findStream_setStream _ _ _ _ hf
        · exact findStream_setStream _ _ _ _ hf
      · rw [if_neg heh]
        exact findStream_setStream _ _ _ _ hf
    · intro he
      show r.2.2.state = .HalfClosed
      rw [hdec]
      exact hes he
    · split_ifs <;> rfl
    · intro heh
      have heh1 : ¬(fr.flags &&& FlagHeadersEndHeaders ≠ 0) := fun h => h heh
      rw [if_neg heh1]
      exact ⟨rfl, rfl⟩
    · intro heh
      rw [if_pos heh]
      refine ⟨by split_ifs <;> rfl, ?_, ?_⟩
      · intro hh
        have hc : (r.2.2.state = StreamState.HalfClosed ∨ fr.flags &&& FlagHeadersEndStream ≠ 0) ∧
            (0 : Nat) = 0 := ⟨Or.inl hh, rfl⟩
        rw [if_pos hc]
        rfl
      · intro hh
        have hh1 : ¬(r.2.2.state = StreamState.HalfClosed) := hh
        have hc : ¬((r.2.2.state = StreamState.HalfClosed ∨
            fr.flags &&& FlagHeadersEndStream ≠ 0) ∧ (0 : Nat) = 0) := by
          rintro ⟨h1 | h2, _⟩
          · exact hh1 h1
          · apply hh1
            rw [hdec]
            exact hes h2
        rw [if_neg hc]

/-- C16: for every HEADERS frame (or CONTINUATION frame handled as HEADERS) on stream `s`
that `parseHeaders` accepts, with a codec that leaves the stream state alone: the stream
is in the table afterwards; its state is HalfClosed when END_STREAM is set on this frame,
and otherwise the state it had before the frame (Open for a stream that was Idle or not
yet in the table), so a stream that an earlier frame left HalfClosed is still HalfClosed;
nothing is written to the output; without END_HEADERS the awaiting-continuation id becomes
`s` and no completion is queued; with END_HEADERS the awaiting-continuation id becomes 0
and exactly one completion, for this frame, is queued when the stream is HalfClosed after
the frame, and none otherwise.  In particular a frame with END_HEADERS on a stream that
was HalfClosed before it queues exactly one completion. -/
theorem headers_completion_rule (p : ProtocolHttp2) (s : Socket) (fr : H2Frame)
    (hcodec : ∀ fragment st, (p.decode fragment st).2.2.state = st.state)
    (hacc : (parseHeaders p s fr).2 = 0) :
    ∃ st, findStream (parseHeaders p s fr).1.streams fr.streamId = some st ∧
      (fr.flags &&& FlagHeadersEndStream ≠ 0 → st.state = .HalfClosed) ∧
      (parseHeaders p s fr).1.written = s.written ∧
      (fr.flags &&& FlagHeadersEndHeaders = 0 →
        (parseHeaders p s fr).1.streamForContinuation = fr.streamId ∧
        (parseHeaders p s fr).1.deferred = s.deferred) ∧
      (fr.flags &&& FlagHeadersEndHeaders ≠ 0 →
        (parseHeaders p s fr).1.streamForContinuation = 0 ∧
        (st.state = .HalfClosed → (parseHeaders p s fr).1.deferred = s.deferred ++ [fr]) ∧
        (st.state ≠ .HalfClosed → (parseHeaders p s fr).1.deferred = s.deferred)) ∧
      (fr.flags &&& FlagHeadersEndStream = 0 →
        (∀ st0, findStream s.streams fr.streamId = some st0 →
          st.state = if st0.state = .Idle then StreamState.Open else st0.state) ∧
        (findStream s.streams fr.streamId = none → st.state = .Open)) ∧
      (∀ st0, findStream s.streams fr.streamId = some st0 → st0.state = .HalfClosed →
        st.state = .HalfClosed ∧
        (fr.flags &&& FlagHeadersEndHeaders ≠ 0 →
          (parseHeaders p s fr).1.deferred = s.deferred ++ [fr])) := by
  unfold parseHeaders at hacc ⊢
  dsimp only at hacc ⊢
  generalize (if fr.flags &&& FlagHeadersPadded ≠ 0 then quint8 (s.buffer.getD 9 0) else 0) = pad
    at hacc ⊢
  generalize (if fr.flags &&& FlagHeadersPriority ≠ 0 then
      h2_be32 s.buffer (9 + if fr.flags &&& FlagHeadersPadded ≠ 0 then 1 else 0) else 0) = dep
    at hacc ⊢
  generalize (if fr.flags &&& FlagHeadersPriority ≠ 0 then
      (if fr.flags &&& FlagHeadersPadded ≠ 0 then 1 else 0) + 4 + 1
    else if fr.flags &&& FlagHeadersPadded ≠ 0 then 1 else 0) = pos1 at hacc ⊢
  by_cases h0 : fr.streamId = 0
  · rw [if_pos h0, sendGoAway_eq] at hacc
    simp at hacc
  · rw [if_neg h0] at hacc ⊢
    by_cases hp : fr.flags &&& FlagHeadersPadded ≠ 0 ∧ pad > fr.len
    · rw [if_pos hp, sendGoAway_eq] at hacc
      simp at hacc
    · rw [if_neg hp] at hacc ⊢
      by_cases hd : fr.flags &&& FlagHeadersPriority ≠ 0 ∧ fr.streamId = dep
      · rw [if_pos hd, sendGoAway_eq] at hacc
        simp at hacc
      · rw [if_neg hd] at hacc ⊢
        cases hf : findStream s.streams fr.streamId with
        | some stream =>
          rw [hf] at hacc
          dsimp only at hacc ⊢
          by_cases hdup : fr.flags &&& FlagHeadersEndStream = 0 ∧ stream.state = .Open ∧
              s.streamForContinuation = 0
          · rw [if_pos hdup, sendGoAway_eq] at hacc
            simp at hacc
          · rw [if_neg hdup] at hacc ⊢
            obtain ⟨st, h1, h2, h3, h4, h5, h6⟩ :=
              headersTail_accepted p s fr pos1 pad stream stream hf hcodec hacc
            refine ⟨st, h1, h2, h3, h4, h5, ?_, ?_⟩
            · intro he
              rw [if_neg (fun h => h he)] at h6
              refine ⟨?_, fun hn => absurd hn (by simp)⟩
              intro st0 hst0
              rw [← Option.some.inj hst0]
              exact h6
            · intro st0 hst0 hhc
              rw [← Option.some.inj hst0] at hhc
              have hst : st.state = .HalfClosed := by
                rw [h6]
                by_cases he : fr.flags &&& FlagHeadersEndStream ≠ 0
                · rw [if_pos he]
                · rw [if_neg he, hhc, if_neg (fun h => StreamState.noConfusion h)]
              exact ⟨hst, fun heh => (h5 heh).2.1 hst⟩
        | none =>
          rw [hf] at hacc
          dsimp only at hacc ⊢
          by_cases hm : s.maxStreamId ≥ fr.streamId
          · rw [if_pos hm, sendGoAway_eq] at hacc
            simp at hacc
          · rw [if_neg hm] at hacc ⊢
            obtain ⟨st, h1, h2, h3, h4, h5, h6⟩ := headersTail_accepted p
              { s with maxStreamId := fr.streamId,
                       streams := insertStream s.streams fr.streamId H2Stream.fresh }
              fr pos1 pad H2Stream.fresh H2Stream.fresh
              (findStream_insertStream s.streams fr.streamId H2Stream.fresh) hcodec hacc
            refine ⟨st, h1, h2, h3, h4, h5, ?_, ?_⟩
            · intro he
              rw [if_neg (fun h => h he)] at h6
              exact ⟨fun st0 hst0 => absurd hst0 (by simp), fun _ => h6⟩
            · intro st0 hst0
              exact absurd hst0 (by simp)

/-- C16, concrete instances.  (1) A HEADERS frame for the new stream 1 with END_STREAM and
END_HEADERS: the stream is HalfClosed afterwards and one completion is queued.  (2) A
CONTINUATION frame with END_HEADERS, handled as HEADERS, on stream 1, which the HEADERS
frame before it (END_STREAM, no END_HEADERS) left HalfClosed and awaiting a
continuation: the stream is still HalfClosed, the awaiting-continuation id becomes 0 and
one completion is queued.  (3) The run of the two frames of (2) through the frame loop:
one completion, queued by the second frame. -/
theorem headers_completion_rule_witness :
    ((parseHeaders smallProtocol requestSocket requestFrame).2 = 0 ∧
      findStream (parseHeaders smallProtocol requestSocket requestFrame).1.streams 1 =
        some { H2Stream.fresh with state := .HalfClosed } ∧
      (parseHeaders smallProtocol requestSocket requestFrame).1.written = [] ∧
      (parseHeaders smallProtocol requestSocket requestFrame).1.streamForContinuation = 0 ∧
      (parseHeaders smallProtocol requestSocket requestFrame).1.deferred = [requestFrame]) ∧
    ((parseHeaders smallProtocol continuationSocket continuationFrame).2 = 0 ∧
      findStream continuationSocket.streams continuationFrame.streamId =
        some { H2Stream.fresh with state := .HalfClosed } ∧
      continuationFrame.flags &&& FlagHeadersEndStream = 0 ∧
      continuationFrame.flags &&& FlagHeadersEndHeaders ≠ 0 ∧
      ∃ st, findStream (parseHeaders smallProtocol continuationSocket
          continuationFrame).1.streams continuationFrame.streamId = some st ∧
        st.state = .HalfClosed ∧
        (parseHeaders smallProtocol continuationSocket continuationFrame).1.written =
          continuationSocket.written ∧
        (parseHeaders smallProtocol continuationSocket continuationFrame).1.streamForContinuation =
          0 ∧
        (parseHeaders smallProtocol continuationSocket continuationFrame).1.deferred =
          continuationSocket.deferred ++ [continuationFrame]) ∧
    processBuffer smallProtocol 2
        { Socket.fresh with
            connState := .H2Frames,
            buffer := [0, 0, 0, 1, 1, 0, 0, 0, 1, 0, 0, 0, 9, 4, 0, 0, 0, 1] } =
      some { Socket.fresh with
               connState := .H2Frames, stream_id := 1, maxStreamId := 1,
               streams := [(1, { H2Stream.fresh with state := .HalfClosed })],
               deferred := [continuationFrame] } := by
  refine ⟨by decide, ⟨by decide, by decide, by decide, by decide, ?_⟩, by decide⟩
  obtain ⟨st, h1, _, h3, _, h5, _, h7⟩ :=
    headers_completion_rule smallProtocol continuationSocket continuationFrame
      (fun _ _ => rfl) (by decide)
  have h8 := h7 { H2Stream.fresh with state := .HalfClosed } (by decide) rfl
  exact ⟨st, h1, h8.1, h3, (h5 (by decide)).1, h8.2 (by decide)⟩

/-- C19 (code defect): sending the 12-octet body `"Hello World!"` with window 5, where the
memory after the body holds the octets 0, 170, 187: `sendData` writes three DATA frames
of declared length 5 each; the third starts at offset 10 and carries the last two octets
of the body followed by the three octets behind it, so 15 octets are sent for a 12-octet
payload and the concatenation of the frame payloads is not the payload. -/
theorem send_data_reads_past_payload :
    sendData Socket.fresh 1 5 (helloWorld ++ [0, 170, 187]) 12 =
      ({ Socket.fresh with
           written := [0, 0, 5, 0, 0, 0, 0, 0, 1, 72, 101, 108, 108, 111] ++
                      [0, 0, 5, 0, 0, 0, 0, 0, 1, 32, 87, 111, 114, 108] ++
                      [0, 0, 5, 0, 0, 0, 0, 0, 1, 100, 33, 0, 170, 187] }, 0) ∧
    ([72, 101, 108, 108, 111] ++ [32, 87, 111, 114, 108] ++ [100, 33, 0, 170, 187] : List Nat) ≠
      helloWorld := by
  decide

/-- C20 (code defect): sending the 12-octet body `"Hello World!"` with window 4:
`sendData` writes three DATA frames of 4 octets, which together complete the payload,
and every one of them has flags 0: no frame carries END_STREAM. -/
theorem send_data_end_stream_missing :
    sendData Socket.fresh 1 4 helloWorld 12 =
      ({ Socket.fresh with
           written := [0, 0, 4, 0, 0, 0, 0, 0, 1, 72, 101, 108, 108] ++
                      [0, 0, 4, 0, 0, 0, 0, 0, 1, 111, 32, 87, 111] ++
                      [0, 0, 4, 0, 0, 0, 0, 0, 1, 114, 108, 100, 33] }, 0) := by
  decide

/-- C26 (code defect): the constructor accepts the buffer size 16777225 and derives the
max frame size 16777216, above 16777215; after the preface the server advertises this
value in its SETTINGS frame (pair 5, octets 01 00 00 00), a value that its own SETTINGS
validation rejects with PROTOCOL_ERROR. -/
theorem max_frame_size_above_bound :
    (ProtocolHttp2.create 16777225 nullCodec).map (fun p => (p.m_bufferSize, p.m_maxFrameSize)) =
      some (largeProtocol.m_bufferSize, largeProtocol.m_maxFrameSize) ∧
    ¬ (largeProtocol.m_maxFrameSize ≤ 16777215) ∧
    loopBody largeProtocol { Socket.fresh with buffer := preface } =
      ({ Socket.fresh with connState := .H2Frames,
                           written := [0, 0, 6, 4, 0, 0, 0, 0, 0, 0, 5, 1, 0, 0, 0] },
       0, Flow.next) ∧
    h2_be32 [1, 0, 0, 0] 0 = 16777216 ∧
    specPairErrorCode SETTINGS_MAX_FRAME_SIZE 16777216 = some ErrorProtocolError := by
  decide

theorem processLoop_spin (p : ProtocolHttp2) (s : Socket) (hb : s.buffer ≠ [])
    (hbody : loopBody p s = (s, 0, Flow.next)) : ∀ fuel, processLoop p fuel s 0 = none := by
  intro fuel
  induction fuel with
  | zero => simp [processLoop, hb]
  | succ fuel ih => simp [processLoop, hb, hbody, ih]

/-- C27 (code defect): with three octets buffered in state MethodLine, and with three
octets buffered in state H2Frames, a round of the frame loop changes nothing, so the loop
`while (sock->buf_size && ret == 0)` is still running after any number of rounds: the
loop does not terminate and `readyRead` does not return. -/
theorem incomplete_input_spins :
    loopBody smallProtocol { Socket.fresh with buffer := [80, 82, 73] } =
      ({ Socket.fresh with buffer := [80, 82, 73] }, 0, Flow.next) ∧
    (∀ fuel, processBuffer smallProtocol fuel { Socket.fresh with buffer := [80, 82, 73] } =
      none) ∧
    loopBody smallProtocol { Socket.fresh with connState := .H2Frames, buffer := [0, 0, 0] } =
      ({ Socket.fresh with connState := .H2Frames, buffer := [0, 0, 0] }, 0, Flow.next) ∧
    (∀ fuel, processBuffer smallProtocol fuel
        { Socket.fresh with connState := .H2Frames, buffer := [0, 0, 0] } = none) := by
  refine ⟨by decide, ?_, by decide, ?_⟩
  · intro fuel
    simp only [processBuffer]
    rw [processLoop_spin smallProtocol _ (by decide) (by decide) fuel]
  · intro fuel
    simp only [processBuffer]
    rw [processLoop_spin smallProtocol _ (by decide) (by decide) fuel]

/-- C30 (code defect): stream 1 is Open; a RST_STREAM frame closes it; the following
HEADERS frame on stream 1 with END_STREAM and END_HEADERS is accepted and moves the
stream from Closed to HalfClosed (and queues a completion). -/
theorem closed_stream_reopened :
    (loopBody smallProtocol
        { oneStreamSocket with
            buffer := [0, 0, 4, 3, 0, 0, 0, 0, 1, 0, 0, 0, 8, 0, 0, 0, 1, 5, 0, 0, 0, 1] }).1 =
      { oneStreamSocket with
          pktsize := 4, stream_id := 1, buffer := [0, 0, 0, 1, 5, 0, 0, 0, 1],
          streams := [(1, { openStream with state := .Closed })] } ∧
    processBuffer smallProtocol 2
        { oneStreamSocket with
            buffer := [0, 0, 4, 3, 0, 0, 0, 0, 1, 0, 0, 0, 8, 0, 0, 0, 1, 5, 0, 0, 0, 1] } =
      some { oneStreamSocket with
               stream_id := 1,
               streams := [(1, { openStream with state := .HalfClosed })],
               deferred := [{ len := 0, streamId := 1, type := 1, flags := 5 }] } := by
  decide

theorem setStream_cons (e : Nat × H2Stream) (rest : List (Nat × H2Stream)) (id : Nat)
    (st : H2Stream) :
    setStream (e :: rest) id st = (if e.1 = id then (e.1, st) else e) :: setStream rest id st :=
  rfl

theorem findStream_setStream_ne (streams : List (Nat × H2Stream)) (id id1 : Nat) (st : H2Stream)
    (h : id1 ≠ id) : findStream (setStream streams id st) id1 = findStream streams id1 := by
  induction streams with
  | nil => rfl
  | cons e rest ih =>
    rw [setStream_cons, findStream_cons, findStream_cons, ih]
    by_cases he : e.1 = id
    · have he1 : ¬ (e.1 = id1) := fun h1 => h (h1.symm.trans he)
      rw [if_pos he, if_neg he1, if_neg he1]
    · rw [if_neg he]

theorem findStream_append_ne (streams : List (Nat × H2Stream)) (id id1 : Nat) (st : H2Stream)
    (h : id1 ≠ id) : findStream (streams ++ [(id, st)]) id1 = findStream streams id1 := by
  induction streams with
  | nil =>
    rw [List.nil_append, findStream_cons, if_neg (fun h1 => h h1.symm)]
  | cons e rest ih =>
    rw [List.cons_append, findStream_cons, findStream_cons, ih]

theorem findStream_insertStream_ne (streams : List (Nat × H2Stream)) (id id1 : Nat)
    (st : H2Stream) (h : id1 ≠ id) :
    findStream (insertStream streams id st) id1 = findStream streams id1 := by
  unfold insertStream
  split_ifs
  · exact findStream_setStream_ne streams id id1 st h
  · exact findStream_append_ne streams id id1 st h

theorem settingsLoop_streams (fuel : Nat) : ∀ (s : Socket) (pos : Nat),
    (settingsLoop fuel s pos).1.streams = s.streams := by
  induction fuel with
  | zero => intro s pos; rfl
  | succ fuel ih =>
    intro s pos
    simp only [settingsLoop, sendGoAway_eq]
    split_ifs
    all_goals first
      | rfl
      | (rw [ih])

theorem parseSettings_streams (s : Socket) (fr : H2Frame) :
    (parseSettings s fr).1.streams = s.streams := by
  unfold parseSettings
  split_ifs
  · rw [sendGoAway_eq]
  · rw [sendGoAway_eq]
  · have h := settingsLoop_streams s.pktsize s 0
    split
    · rename_i s1 code heq
      rw [heq] at h
      exact h
    · rename_i s1 heq
      rw [heq] at h
      exact h
  · rfl
theorem parsePriority_streams (s : Socket) (fr : H2Frame) :
    (parsePriority s fr).1.streams = s.streams := by
  unfold parsePriority
  simp only [sendGoAway_eq, connectionClose]
  split_ifs <;> rfl

theorem parsePing_streams (s : Socket) (fr : H2Frame) :
    (parsePing s fr).1.streams = s.streams := by
  unfold parsePing
  simp only [sendGoAway_eq, connectionClose, sendPing, sendFrame]
  split_ifs <;> rfl

theorem parseRstStream_other (s : Socket) (fr : H2Frame) (id1 : Nat) (h : id1 ≠ fr.streamId) :
    findStream (parseRstStream s fr).1.streams id1 = findStream s.streams id1 := by
  unfold parseRstStream
  simp only [sendGoAway_eq]
  repeat' first
    | rfl
    | exact findStream_setStream_ne _ _ _ _ h
    | split

theorem parseWindowUpdate_other (s : Socket) (fr : H2Frame) (id1 : Nat)
    (h : id1 ≠ fr.streamId) :
    findStream (parseWindowUpdate s fr).1.streams id1 = findStream s.streams id1 := by
  unfold parseWindowUpdate
  simp only [sendGoAway_eq, sendRstStream, sendFrame]
  repeat' first
    | rfl
    | exact findStream_setStream_ne _ _ _ _ h
    | split

theorem parseData_other (s : Socket) (fr : H2Frame) (id1 : Nat) (h : id1 ≠ fr.streamId) :
    findStream (parseData s fr).1.streams id1 = findStream s.streams id1 := by
  unfold parseData
  dsimp only
  generalize (if fr.flags &&& FlagDataPadded ≠ 0 then quint8 (s.buffer.getD 9 0) else 0) = pad
  simp only [sendGoAway_eq, schedule]
  repeat' first
    | rfl
    | exact findStream_setStream_ne _ _ _ _ h
    | split

theorem headersTail_other (p : ProtocolHttp2) (s : Socket) (fr : H2Frame) (pos padLength : Nat)
    (stream : H2Stream) (id1 : Nat) (h : id1 ≠ fr.streamId) :
    findStream (headersTail p s fr pos padLength stream).1.streams id1 =
      findStream s.streams id1 := by
  unfold headersTail
  simp only [sendGoAway_eq, schedule]
  split_ifs
  all_goals exact findStream_setStream_ne _ _ _ _ h

theorem parseHeaders_other (p : ProtocolHttp2) (s : Socket) (fr : H2Frame) (id1 : Nat)
    (h : id1 ≠ fr.streamId) :
    findStream (parseHeaders p s fr).1.streams id1 = findStream s.streams id1 := by
  unfold parseHeaders
  dsimp only
  generalize (if fr.flags &&& FlagHeadersPadded ≠ 0 then quint8 (s.buffer.getD 9 0) else 0) = pad
  generalize (if fr.flags &&& FlagHeadersPriority ≠ 0 then
      h2_be32 s.buffer (9 + if fr.flags &&& FlagHeadersPadded ≠ 0 then 1 else 0) else 0) = dep
  generalize (if fr.flags &&& FlagHeadersPriority ≠ 0 then
      (if fr.flags &&& FlagHeadersPadded ≠ 0 then 1 else 0) + 4 + 1
    else if fr.flags &&& FlagHeadersPadded ≠ 0 then 1 else 0) = pos1
  by_cases h0 : fr.streamId = 0
  · rw [if_pos h0, sendGoAway_eq]
  · rw [if_neg h0]
    by_cases hp : fr.flags &&& FlagHeadersPadded ≠ 0 ∧ pad > fr.len
    · rw [if_pos hp, sendGoAway_eq]
    · rw [if_neg hp]
      by_cases hd : fr.flags &&& FlagHeadersPriority ≠ 0 ∧ fr.streamId = dep
      · rw [if_pos hd, sendGoAway_eq]
      · rw [if_neg hd]
        cases hf : findStream s.streams fr.streamId with
        | some stream =>
          dsimp only
          by_cases hdup : fr.flags &&& FlagHeadersEndStream = 0 ∧ stream.state = .Open ∧
              s.streamForContinuation = 0
          · rw [if_pos hdup, sendGoAway_eq]
          · rw [if_neg hdup]
            exact headersTail_other p s fr pos1 pad stream id1 h
        | none =>
          dsimp only
          by_cases hm : s.maxStreamId ≥ fr.streamId
          · rw [if_pos hm, sendGoAway_eq]
          · rw [if_neg hm, headersTail_other p _ fr pos1 pad H2Stream.fresh id1 h]
            exact findStream_insertStream_ne _ _ _ _ h

theorem dispatch_other (p : ProtocolHttp2) (s : Socket) (type : Nat) (fr : H2Frame) (id1 : Nat)
    (h : id1 ≠ fr.streamId) :
    findStream (dispatch p s type fr).1.streams id1 = findStream s.streams id1 := by
  unfold dispatch
  by_cases h0 : type = FrameSettings
  · rw [if_pos h0]
    have e := parseSettings_streams s fr
    generalize parseSettings s fr = r at e ⊢
    show findStream r.1.streams id1 = _
    rw [e]
  rw [if_neg h0]
  by_cases h1 : type = FramePriority
  · rw [if_pos h1]
    have e := parsePriority_streams s fr
    generalize parsePriority s fr = r at e ⊢
    show findStream r.1.streams id1 = _
    rw [e]
  rw [if_neg h1]
  by_cases h2 : type = FrameHeaders
  · rw [if_pos h2]
    have e := parseHeaders_other p s fr id1 h
    generalize parseHeaders p s fr = r at e ⊢
    exact e
  rw [if_neg h2]
  by_cases h3 : type = FramePing
  · rw [if_pos h3]
    have e := parsePing_streams s fr
    generalize parsePing s fr = r at e ⊢
    show findStream r.1.streams id1 = _
    rw [e]
  rw [if_neg h3]
  by_cases h4 : type = FrameData
  · rw [if_pos h4]
    have e := parseData_other s fr id1 h
    generalize parseData s fr = r at e ⊢
    exact e
  rw [if_neg h4]
  by_cases h5 : type = FramePushPromise
  · rw [if_pos h5]
    show findStream (sendGoAway s s.maxStreamId ErrorProtocolError).1.streams id1 = _
    rw [sendGoAway_eq]
  rw [if_neg h5]
  by_cases h6 : type = FrameRstStream
  · rw [if_pos h6]
    have e := parseRstStream_other s fr id1 h
    generalize parseRstStream s fr = r at e ⊢
    exact e
  rw [if_neg h6]
  by_cases h7 : type = FrameWindowUpdate
  · rw [if_pos h7]
    have e := parseWindowUpdate_other s fr id1 h
    generalize parseWindowUpdate s fr = r at e ⊢
    exact e
  rw [if_neg h7]
  by_cases h8 : type = FrameGoaway
  · rw [if_pos h8]
    rfl
  rw [if_neg h8]
  by_cases h9 : type = FrameContinuation
  · rw [if_pos h9]
    show findStream (sendGoAway s s.maxStreamId ErrorProtocolError).1.streams id1 = _
    rw [sendGoAway_eq]
  rw [if_neg h9]
  rfl

/-- C29: for every connection state and every round of the frame loop, with the frame at
the start of the buffer carrying some stream id, the record stored in the stream table
under any other id is the same before and after the round, and a record present before
is present afterwards; this holds whether the frame is accepted, rejected, incomplete or
malformed. -/
theorem sibling_streams_untouched (p : ProtocolHttp2) (s : Socket) (id1 : Nat)
    (h : id1 ≠ (decodeFrameHeader s.buffer).streamId) :
    findStream (loopBody p s).1.streams id1 = findStream s.streams id1 := by
  unfold loopBody
  cases hc : s.connState with
  | MethodLine =>
    dsimp only
    by_cases h1 : s.buffer.length ≥ PREFACE_SIZE
    · rw [if_pos h1]
      by_cases h2 : s.buffer.take 24 = preface
      · rw [if_pos h2]
        rfl
      · rw [if_neg h2]
        show findStream (sendGoAway s s.maxStreamId ErrorProtocolError).1.streams id1 = _
        rw [sendGoAway_eq]
    · rw [if_neg h1]
  | H2Frames =>
    dsimp only
    by_cases h1 : s.buffer.length ≥ 9
    · rw [if_pos h1]
      by_cases h2 : (decodeFrameHeader s.buffer).streamId ≠ 0 ∧
          (decodeFrameHeader s.buffer).streamId &&& 1 = 0
      · rw [if_pos h2, sendGoAway_eq]
      · rw [if_neg h2]
        by_cases h3 : (decodeFrameHeader s.buffer).len > p.m_maxFrameSize
        · rw [if_pos h3, sendGoAway_eq]
        · rw [if_neg h3]
          by_cases h4 : (decodeFrameHeader s.buffer).len > s.buffer.length - 9
          · rw [if_pos h4]
          · rw [if_neg h4]
            by_cases h5 : s.streamForContinuation ≠ 0
            · rw [if_pos h5]
              by_cases h6 : (decodeFrameHeader s.buffer).type = FrameContinuation ∧
                  s.streamForContinuation = (decodeFrameHeader s.buffer).streamId
              · rw [if_pos h6, dispatch_other p _ _ _ id1 h]
              · rw [if_neg h6, sendGoAway_eq]
            · rw [if_neg h5, dispatch_other p _ _ _ id1 h]
    · rw [if_neg h1]

/-- C29, a concrete instance: an RST_STREAM frame for stream 1 leaves the record of
stream 3 as it was. -/
theorem sibling_streams_untouched_witness :
    3 ≠ (decodeFrameHeader twoStreamSocket.buffer).streamId ∧
    findStream (loopBody smallProtocol twoStreamSocket).1.streams 3 =
      findStream twoStreamSocket.streams 3 :=
  ⟨by decide, sibling_streams_untouched smallProtocol twoStreamSocket 3 (by decide)⟩

/-- C21 (code defect): for the request line "GET /b?x=1 HTTP/1.1" `processRequest` stores
the method "GET", the path "b", the protocol "HTTP/1.1" and the query "?x=1": the stored
query begins with the question mark, it is not the text "x=1" after it.  For the line
"GET /b HTTP/1.1", which has no query, the four fields are (GET, b, empty, HTTP/1.1). -/
theorem request_query_keeps_question_mark :
    requestLine queryLine 0 19 =
      ([71, 69, 84], [98], [63, 120, 61, 49], [72, 84, 84, 80, 47, 49, 46, 49]) ∧
    (processRequest { TcpSocket.fresh with buf := queryLine } 0 19).query ≠ [120, 61, 49] ∧
    requestLine (hostRequestB.take 17) 0 15 =
      ([71, 69, 84], [98], [], [72, 84, 84, 80, 47, 49, 46, 49]) := by
  decide

/-- C28 (code defect): the request "GET / HTTP/1.1\r\nHost: a\r\n\r\n" delivered by one
read is dispatched as (GET, empty path, empty query, HTTP/1.1) with the header
(Host, a).  Delivered in two reads, the first ending after the CR that follows
"HTTP/1.1", the first read finds no line end and moves the search offset past the CR, so
the second read takes the text up to the next CR LF as the request line: the request is
dispatched with the protocol "HTTP/1.1\r\nHost:" and without any header. -/
theorem split_between_cr_and_lf_differs :
    (readyRead 3 TcpSocket.fresh hostRequest).map (fun s => s.dispatched) =
      some [{ method := [71, 69, 84], path := [], query := [],
              protocol := [72, 84, 84, 80, 47, 49, 46, 49],
              headers := [([72, 111, 115, 116], [97])] }] ∧
    readyRead 1 TcpSocket.fresh (hostRequest.take 15) =
      some { TcpSocket.fresh with buf := hostRequest.take 15, last := 15 } ∧
    ((readyRead 1 TcpSocket.fresh (hostRequest.take 15)).bind
        (fun s => readyRead 2 s (hostRequest.drop 15))).map (fun s => s.dispatched) =
      some [{ method := [71, 69, 84], path := [], query := [],
              protocol := [72, 84, 84, 80, 47, 49, 46, 49, 13, 10, 72, 111, 115, 116, 58],
              headers := [] }] := by
  decide

theorem getD_append_mid (pre mid post : List Nat) (i : Nat) (h : i < mid.length) :
    (pre ++ mid ++ post).getD (pre.length + i) 0 = mid.getD i 0 := by
  rw [List.append_assoc, List.getD_append_right _ _ _ _ (Nat.le_add_right _ _),
    Nat.add_sub_cancel_left, List.getD_append _ _ _ _ h]

theorem scanWhile_shift (cond : Nat → Bool) (pre mid post : List Nat) (l : Nat)
    (hl : l ≤ mid.length) : ∀ fuel i,
    scanWhile cond (pre ++ mid ++ post) (pre.length + l) fuel (pre.length + i) =
      pre.length + scanWhile cond mid l fuel i := by
  intro fuel
  induction fuel with
  | zero => intro i; rfl
  | succ fuel ih =>
    intro i
    unfold scanWhile
    by_cases hi : i < l
    · rw [getD_append_mid pre mid post i (by omega)]
      by_cases hc : cond (mid.getD i 0) = true
      · rw [if_pos ⟨hc, by omega⟩, if_pos ⟨hc, hi⟩, Nat.add_assoc, ih]
      · rw [if_neg (fun h => hc h.1), if_neg (fun h => hc h.1)]
    · rw [if_neg (fun h => hi (by omega)), if_neg (fun h => hi h.2)]

theorem scan_shift (cond : Nat → Bool) (pre mid post : List Nat) (i l : Nat)
    (hl : l ≤ mid.length) :
    scan cond (pre ++ mid ++ post) (pre.length + i) (pre.length + l) =
      pre.length + scan cond mid i l := by
  unfold scan
  rw [Nat.add_sub_add_left, scanWhile_shift cond pre mid post l hl]

theorem scanWhile_le (cond : Nat → Bool) (buf : List Nat) (l : Nat) : ∀ fuel i, i ≤ l →
    scanWhile cond buf l fuel i ≤ l := by
  intro fuel
  induction fuel with
  | zero => intro i hi; exact hi
  | succ fuel ih =>
    intro i hi
    unfold scanWhile
    split_ifs with h
    · exact ih (i + 1) h.2
    · exact hi

theorem scan_le (cond : Nat → Bool) (buf : List Nat) (i l : Nat) (hi : i ≤ l) :
    scan cond buf i l ≤ l :=
  scanWhile_le cond buf l (l - i) i hi

theorem slice_shift (pre mid post : List Nat) (a b : Nat) (hb : b ≤ mid.length) :
    slice (pre ++ mid ++ post) (pre.length + a) (pre.length + b) = slice mid a b := by
  unfold slice
  rw [List.append_assoc, List.take_append, List.take_append_of_le_length hb,
    List.drop_append]

theorem headerLine_shift (pre mid post : List Nat) (a l : Nat) (ha : a ≤ l)
    (hl : l ≤ mid.length) :
    headerLine (pre ++ mid ++ post) (pre.length + a) (pre.length + l) = headerLine mid a l := by
  unfold headerLine
  have b1 := scan_le (fun c => c != 58) mid a l ha
  have b2 := scan_le (fun c => c == 58 || c == 32) mid _ l b1
  dsimp only
  rw [scan_shift _ pre mid post a l hl, scan_shift _ pre mid post _ l hl,
    slice_shift pre mid post _ _ (by omega), slice_shift pre mid post _ _ hl]

theorem requestLine_shift (pre mid post : List Nat) (a l : Nat) (ha : a ≤ l)
    (hl : l < mid.length) :
    requestLine (pre ++ mid ++ post) (pre.length + a) (pre.length + l) =
      requestLine mid a l := by
  unfold requestLine
  have hl1 : l ≤ mid.length := by omega
  have b1 := scan_le (fun c => c != 32) mid a l ha
  have b2 := scan_le (fun c => c == 32) mid _ l b1
  have b3 := scan_le (fun c => c != 32 && c != 63) mid _ l b2
  have b4 := scan_le (fun c => c != 32) mid _ l b3
  dsimp only
  rw [scan_shift _ pre mid post a l hl1, scan_shift _ pre mid post _ l hl1,
    scan_shift _ pre mid post _ l hl1, Nat.add_assoc pre.length l 1,
    scan_shift _ pre mid post _ (l + 1) hl,
    getD_append_mid pre mid post _ (by omega),
    slice_shift pre mid post _ _ (by omega), slice_shift pre mid post _ _ (by omega)]
  by_cases hq : mid.getD (scan (fun c => c != 32 && c != 63) mid
      (scan (fun c => c == 32) mid (scan (fun c => c != 32) mid a l) l) l) 0 = 63
  · rw [if_pos hq, if_pos hq, if_pos hq, if_pos hq,
      scan_shift _ pre mid post _ l hl1, scan_shift _ pre mid post _ l hl1,
      scan_shift _ pre mid post _ l hl1,
      slice_shift pre mid post _ _ (by omega)]
    have b5 := scan_le (fun c => c == 32) mid _ l b4
    have b6 := scan_le (fun c => c != 32) mid _ l b5
    rw [slice_shift pre mid post _ _ (by omega)]
  · rw [if_neg hq, if_neg hq, if_neg hq, if_neg hq,
      scan_shift _ pre mid post _ l hl1, scan_shift _ pre mid post _ l hl1]
    have b5 := scan_le (fun c => c == 32) mid _ l b3
    have b6 := scan_le (fun c => c != 32) mid _ l b5
    rw [slice_shift pre mid post _ _ (by omega)]
theorem take_length_takeWhile (p : Nat → Bool) (l : List Nat) :
    l.take (l.takeWhile p).length = l.takeWhile p := by
  induction l with
  | nil => rfl
  | cons c l ih =>
    by_cases hc : p c = true
    · rw [List.takeWhile_cons_of_pos hc, List.length_cons, List.take_succ_cons, ih]
    · rw [List.takeWhile_cons_of_neg hc]
      rfl

theorem drop_length_takeWhile (p : Nat → Bool) (l : List Nat) :
    l.drop (l.takeWhile p).length = l.dropWhile p := by
  induction l with
  | nil => rfl
  | cons c l ih =>
    by_cases hc : p c = true
    · rw [List.takeWhile_cons_of_pos hc, List.dropWhile_cons_of_pos hc, List.length_cons,
        List.drop_succ_cons, ih]
    · rw [List.takeWhile_cons_of_neg hc, List.dropWhile_cons_of_neg hc]
      rfl

theorem scanWhile_append (cond : Nat → Bool) (line rest : List Nat) : ∀ fuel i,
    i ≤ line.length → line.length - i ≤ fuel →
    scanWhile cond (line ++ rest) line.length fuel i =
      i + ((line.drop i).takeWhile cond).length := by
  intro fuel
  induction fuel with
  | zero =>
    intro i hi hf
    have : i = line.length := by omega
    subst this
    rw [List.drop_length]
    rfl
  | succ fuel ih =>
    intro i hi _
    unfold scanWhile
    by_cases hlt : i < line.length
    · have hd : line.drop i = line.getD i 0 :: line.drop (i + 1) := by
        rw [List.getD_eq_getElem _ _ hlt]
        exact List.drop_eq_getElem_cons hlt
      rw [List.getD_append _ _ _ _ hlt, hd]
      generalize line.getD i 0 = c
      by_cases hc : cond c = true
      · rw [if_pos ⟨hc, hlt⟩, List.takeWhile_cons_of_pos hc, ih (i + 1) hlt (by omega),
          List.length_cons]
        omega
      · rw [if_neg (fun h => hc h.1), List.takeWhile_cons_of_neg hc]
        rfl
    · have hil : i = line.length := by omega
      subst hil
      rw [if_neg (fun h => hlt h.2), List.drop_length]
      rfl

theorem scan_append (cond : Nat → Bool) (line rest : List Nat) (i : Nat)
    (hi : i ≤ line.length) :
    scan cond (line ++ rest) i line.length = i + ((line.drop i).takeWhile cond).length :=
  scanWhile_append cond line rest (line.length - i) i hi (Nat.le_refl _)

theorem headerLine_eq (line rest : List Nat) :
    headerLine (line ++ rest) 0 line.length =
      (line.takeWhile (fun c => c != 58),
       (line.dropWhile (fun c => c != 58)).dropWhile (fun c => c == 58 || c == 32)) := by
  unfold headerLine
  dsimp only
  have hk : (line.takeWhile (fun c => c != 58)).length ≤ line.length := by
    have h := congrArg List.length (List.takeWhile_append_dropWhile (fun c => c != 58) line)
    rw [List.length_append] at h
    omega
  rw [scan_append _ line rest 0 (Nat.zero_le _), List.drop_zero, Nat.zero_add,
    scan_append _ line rest _ hk, drop_length_takeWhile]
  unfold slice
  rw [List.drop_zero, List.take_append_of_le_length hk, take_length_takeWhile,
    List.take_left, ← List.drop_drop, drop_length_takeWhile, drop_length_takeWhile]
theorem processHeader_eq (s : TcpSocket) (ptr end_ : Nat) :
    processHeader s ptr end_ =
      { s with headerClose := directiveAfter s.headerClose (headerLine s.buf ptr end_),
               headers := s.headers ++ [headerLine s.buf ptr end_] } := by
  unfold processHeader directiveAfter pushHeader
  dsimp only
  by_cases h1 : s.headerClose = 0 ∧ equalsCI (headerLine s.buf ptr end_).1 connectionName = true
  · rw [if_pos h1, if_pos h1]
    by_cases h2 : equalsCI (headerLine s.buf ptr end_).2 closeValue = true
    · rw [if_pos h2, if_pos h2]
    · rw [if_neg h2, if_neg h2]
  · rw [if_neg h1, if_neg h1]

theorem processHeaders_eq (calls : List (Nat × Nat)) : ∀ s : TcpSocket,
    processHeaders s calls =
      { s with headerClose :=
                 (calls.map (fun c => headerLine s.buf c.1 c.2)).foldl directiveAfter
                   s.headerClose,
               headers := s.headers ++ calls.map (fun c => headerLine s.buf c.1 c.2) } := by
  induction calls with
  | nil =>
    intro s
    simp only [processHeaders, List.foldl_nil, List.map_nil, List.append_nil]
  | cons c cs ih =>
    intro s
    have h := ih (processHeader s c.1 c.2)
    unfold processHeaders at h ⊢
    rw [List.foldl_cons, h, processHeader_eq]
    simp only [List.map_cons, List.foldl_cons, List.append_assoc, List.singleton_append]

theorem foldl_directiveAfter (hs : List Header) : ∀ hc : Nat,
    hs.foldl directiveAfter hc = if hc = 0 then firstConnectionDirective hs else hc := by
  induction hs with
  | nil =>
    intro hc
    by_cases h : hc = 0
    · rw [if_pos h, h]
      rfl
    · rw [if_neg h]
      rfl
  | cons kv hs ih =>
    intro hc
    rw [List.foldl_cons, ih]
    by_cases h : hc = 0
    · subst h
      rw [if_pos rfl]
      by_cases hk : equalsCI kv.1 connectionName = true
      · have hf : firstConnectionDirective (kv :: hs) =
            if equalsCI kv.2 closeValue = true then 2 else 1 := by
          unfold firstConnectionDirective
          simp only [List.find?_cons, hk]
        have hd : directiveAfter 0 kv = if equalsCI kv.2 closeValue = true then 2 else 1 := by
          unfold directiveAfter
          rw [if_pos ⟨rfl, hk⟩]
        rw [hf, hd]
        by_cases hv : equalsCI kv.2 closeValue = true
        · rw [if_pos hv]
          rfl
        · rw [if_neg hv]
          rfl
      · have hf : firstConnectionDirective (kv :: hs) = firstConnectionDirective hs := by
          unfold firstConnectionDirective
          simp only [List.find?_cons, hk]
        have hd : directiveAfter 0 kv = 0 := by
          unfold directiveAfter
          rw [if_neg (fun hh => hk hh.2)]
        rw [hf, hd, if_pos rfl]
    · have hd : directiveAfter hc kv = hc := by
        unfold directiveAfter
        rw [if_neg (fun hh => h hh.1)]
      rw [hd, if_neg h, if_neg h]

/-- C22 (a counterexample to the wording): for the line "X:  a", with two spaces after
the colon, the stored value is "a" and not " a"; for the line "X: :a" the stored value
is "a" and not ":a". -/
theorem header_value_skips_whole_run :
    (processHeader { TcpSocket.fresh with buf := [88, 58, 32, 32, 97, 13, 10] } 0 5).headers =
      [([88], [97])] ∧
    (processHeader { TcpSocket.fresh with buf := [88, 58, 32, 58, 97, 13, 10] } 0 5).headers =
      [([88], [97])] := by
  decide

/-- C22 (amended): for every header line, wherever it lies in the receive buffer,
`processHeader` appends exactly one entry to the header collection and keeps the earlier
entries; the name of the entry is the text before the first ':' (the whole line when it
has none), and its value is what remains of the line after the name and after the whole
run of ':' and ' ' characters that follows the name. -/
theorem header_line_split (s : TcpSocket) (pre line rest : List Nat) :
    (processHeader { s with buf := pre ++ line ++ rest } pre.length
        (pre.length + line.length)).headers =
      s.headers ++
        [(line.takeWhile (fun c => c != 58),
          (line.dropWhile (fun c => c != 58)).dropWhile (fun c => c == 58 || c == 32))] := by
  rw [processHeader_eq]
  have h := headerLine_shift pre line rest 0 line.length (Nat.zero_le _) (Nat.le_refl _)
  have h2 := headerLine_eq line []
  rw [List.append_nil] at h2
  rw [Nat.add_zero] at h
  show s.headers ++ [headerLine (pre ++ line ++ rest) pre.length (pre.length + line.length)] = _
  rw [h, h2]

/-- C23 (a counterexample to the wording): the header lines "Connection: keep-alive" and
"Connection: close", handled in this order from the unset directive, leave the directive
at keep-alive (1), although one of the two entries named "Connection" has the value
"close", for which the wording gives close (2).  A request with these two header lines
is therefore not followed by a disconnect: the request pipelined after it in the same
read is dispatched as well. -/
theorem later_close_header_ignored :
    (processHeaders { TcpSocket.fresh with buf := twoConnectionHeaders }
        [(0, 22), (24, 41)]).headers =
      [(connectionName, [107, 101, 101, 112, 45, 97, 108, 105, 118, 101]),
       (connectionName, closeValue)] ∧
    (processHeaders { TcpSocket.fresh with buf := twoConnectionHeaders }
        [(0, 22), (24, 41)]).headerClose = 1 ∧
    specDirective [(connectionName, [107, 101, 101, 112, 45, 97, 108, 105, 118, 101]),
                   (connectionName, closeValue)] = 2 ∧
    (readyRead 7 TcpSocket.fresh
        (hostRequest.take 16 ++ twoConnectionHeaders ++ hostRequestB)).map
      (fun s => (s.dispatched.length, s.disconnected)) = some (2, false) := by
  decide

/-- C23 (amended): after any sequence of header lines of one request handled from the
unset directive, the header collection has gained the entries of these lines in order,
and the directive is the one fixed by the first entry named "Connection" (in any letter
case): close iff the value of that first entry is "close" in any letter case, keep-alive
iff there is such an entry and the value of the first one is something else, unset iff
there is no such entry.  Later entries named "Connection" have no effect. -/
theorem first_connection_header_decides (s : TcpSocket) (calls : List (Nat × Nat)) :
    (processHeaders { s with headerClose := 0 } calls).headers =
      s.headers ++ calls.map (fun c => headerLine s.buf c.1 c.2) ∧
    (processHeaders { s with headerClose := 0 } calls).headerClose =
      firstConnectionDirective (calls.map (fun c => headerLine s.buf c.1 c.2)) := by
  rw [processHeaders_eq]
  refine ⟨rfl, ?_⟩
  show List.foldl directiveAfter 0 _ = _
  rw [foldl_directiveAfter, if_pos rfl]

theorem findCRLF_replicate (n : Nat) : findCRLF (List.replicate n 97) = none := by
  induction n with
  | zero => rfl
  | succ n ih =>
    rw [List.replicate_succ]
    unfold findCRLF
    rw [if_neg (fun h => absurd h.1 (by decide)), ih]
    rfl

theorem findCRLF_line (line rest : List Nat) (h : findCRLF line = none) :
    findCRLF (line ++ 13 :: 10 :: rest) = some line.length := by
  induction line with
  | nil =>
    show findCRLF (13 :: 10 :: rest) = some 0
    rw [findCRLF, if_pos ⟨rfl, rfl⟩]
  | cons c l ih =>
    unfold findCRLF at h
    by_cases hc : c = 13 ∧ l.head? = some 10
    · rw [if_pos hc] at h
      exact absurd h (by simp)
    · rw [if_neg hc] at h
      have hl : findCRLF l = none := by
        cases hf : findCRLF l with
        | none => rfl
        | some v =>
          rw [hf] at h
          exact absurd h (by simp)
      have hc1 : ¬ (c = 13 ∧ (l ++ 13 :: 10 :: rest).head? = some 10) := by
        cases l with
        | nil =>
          rintro ⟨_, h10⟩
          exact absurd h10 (by simp)
        | cons d l1 => exact hc
      rw [List.cons_append]
      unfold findCRLF
      rw [if_neg hc1, ih hl]
      rfl

theorem indexIn_line (pre line rest : List Nat) (h : findCRLF line = none) :
    indexIn (pre ++ line ++ 13 :: 10 :: rest) pre.length = some (pre.length + line.length) := by
  unfold indexIn
  rw [List.append_assoc, List.drop_left, findCRLF_line line rest h, Nat.add_comm]
  rfl

theorem httpLoop_done (fuel : Nat) (s : TcpSocket) (h : ¬ s.last < s.buf.length) :
    httpLoop fuel s = some s := by
  cases fuel with
  | zero =>
    unfold httpLoop
    rw [if_neg h]
  | succ fuel =>
    unfold httpLoop
    rw [if_neg h]

theorem httpLoop_step (fuel : Nat) (s s1 : TcpSocket) (h : s.last < s.buf.length)
    (hb : httpLoopBody s = (s1, false)) : httpLoop (fuel + 1) s = httpLoop fuel s1 := by
  rw [httpLoop, if_pos h]
  dsimp only
  rw [hb]
  rfl

theorem httpLoop_break (fuel : Nat) (s s1 : TcpSocket) (h : s.last < s.buf.length)
    (hb : httpLoopBody s = (s1, true)) : httpLoop (fuel + 1) s = some s1 := by
  rw [httpLoop, if_pos h]
  dsimp only
  rw [hb]
  rfl

theorem readyRead_no_line_end (b : List Nat) (hlen : b.length ≤ 4096) (hne : b ≠ [])
    (h : findCRLF b = none) (fuel : Nat) :
    readyRead (fuel + 1) TcpSocket.fresh b =
      some { TcpSocket.fresh with buf := b, last := b.length } := by
  unfold readyRead
  have hb : TcpSocket.fresh.buf ++ b.take (4096 - TcpSocket.fresh.buf.length) = b := by
    show [] ++ b.take (4096 - 0) = b
    rw [List.nil_append, List.take_of_length_le (by omega)]
  rw [hb]
  have hpos : 0 < b.length := List.length_pos.mpr hne
  have hbody : httpLoopBody { TcpSocket.fresh with buf := b } =
      ({ TcpSocket.fresh with buf := b, last := b.length }, false) := by
    unfold httpLoopBody
    have hix : indexIn b 0 = none := by
      unfold indexIn
      rw [List.drop_zero, h]
      rfl
    show (match indexIn b 0 with
      | some ix => _
      | none => _) = _
    rw [hix]
  rw [httpLoop_step fuel _ _ hpos hbody]
  exact httpLoop_done fuel _ (Nat.lt_irrefl _)

theorem readyRead_full (b more : List Nat) (hlen : b.length = 4096) (fuel : Nat) :
    readyRead fuel { TcpSocket.fresh with buf := b, last := 4096 } more =
      some { TcpSocket.fresh with buf := b, last := 4096 } := by
  unfold readyRead
  have hb : ({ TcpSocket.fresh with buf := b, last := 4096 } : TcpSocket).buf ++
      more.take (4096 - ({ TcpSocket.fresh with buf := b, last := 4096 } : TcpSocket).buf.length) =
      b := by
    show b ++ more.take (4096 - b.length) = b
    rw [hlen, Nat.sub_self, List.take_zero, List.append_nil]
  rw [hb]
  apply httpLoop_done
  show ¬ 4096 < b.length
  omega

theorem readyRead_fill (b : List Nat) (hlen : b.length = 4096) (h : findCRLF b = none)
    (fuel : Nat) :
    readyRead (fuel + 1) TcpSocket.fresh b =
      some { TcpSocket.fresh with buf := b, last := 4096 } := by
  have hne : b ≠ [] := by
    intro h0
    rw [h0] at hlen
    exact absurd hlen (by decide)
  have h1 := readyRead_no_line_end b (by omega) hne h fuel
  rw [hlen] at h1
  exact h1

/-- C25 (code defect): a read that fills the 4096-octet receive buffer with octets that
contain no CR LF ends with the connection in the ordinary waiting state: the request
line is still awaited, the search offset is at the end of the buffer, nothing is
dispatched and the connection is not disconnected; no error is recorded anywhere.  Every
later invocation, whatever octets the transport has ready, reads nothing and leaves this
state as it is. -/
theorem full_buffer_not_signalled :
    (∀ fuel, readyRead (fuel + 1) TcpSocket.fresh fullBuffer =
      some { TcpSocket.fresh with buf := fullBuffer, last := 4096 }) ∧
    (∀ fuel more, readyRead fuel { TcpSocket.fresh with buf := fullBuffer, last := 4096 } more =
      some { TcpSocket.fresh with buf := fullBuffer, last := 4096 }) ∧
    fullBuffer.length = 4096 ∧ indexIn fullBuffer 0 = none := by
  have hlen : fullBuffer.length = 4096 := List.length_replicate 4096 97
  have hcr : findCRLF fullBuffer = none := findCRLF_replicate 4096
  refine ⟨fun fuel => readyRead_fill fullBuffer hlen hcr fuel,
    fun fuel more => readyRead_full fullBuffer more hlen fuel, hlen, ?_⟩
  unfold indexIn
  rw [List.drop_zero, hcr]
  rfl
theorem requestLine_alone (pre line rest : List Nat) :
    requestLine (pre ++ line ++ 13 :: 10 :: rest) pre.length (pre.length + line.length) =
      requestLine (line ++ [13, 10]) 0 line.length := by
  have h := requestLine_shift pre (line ++ [13, 10]) rest 0 line.length (Nat.zero_le _)
    (by rw [List.length_append]; exact Nat.lt_add_of_pos_right (by decide))
  rw [Nat.add_zero] at h
  rw [← h]
  simp only [List.append_assoc, List.cons_append, List.nil_append]

theorem headerLine_alone (pre line rest : List Nat) :
    headerLine (pre ++ line ++ 13 :: 10 :: rest) pre.length (pre.length + line.length) =
      headerAlone line := by
  have h := headerLine_shift pre (line ++ [13, 10]) rest 0 line.length (Nat.zero_le _)
    (by rw [List.length_append]; exact Nat.le_add_right _ _)
  rw [Nat.add_zero] at h
  unfold headerAlone
  rw [← h]
  simp only [List.append_assoc, List.cons_append, List.nil_append]

theorem httpLoopBody_request (s : TcpSocket) (pre line rest : List Nat)
    (hc : s.connState = 0) (hb : s.buf = pre ++ line ++ 13 :: 10 :: rest)
    (hl : s.last = pre.length) (hbl : s.beginLine = pre.length)
    (hline : findCRLF line = none) :
    httpLoopBody s =
      ({ s with beginLine := pre.length + line.length + 2,
                last := pre.length + line.length + 2,
                connState := 1,
                headers := [],
                method := (requestLine (line ++ [13, 10]) 0 line.length).1,
                path := (requestLine (line ++ [13, 10]) 0 line.length).2.1,
                query := (requestLine (line ++ [13, 10]) 0 line.length).2.2.1,
                protocol := (requestLine (line ++ [13, 10]) 0 line.length).2.2.2 }, false) := by
  obtain ⟨buf, last, beginLine, connState, headerClose, method, path, query, protocol, headers,
    disconnected, dispatched⟩ := s
  dsimp only at hc hb hl hbl
  subst hc hb hl hbl
  unfold httpLoopBody
  dsimp only
  rw [indexIn_line pre line rest hline]
  dsimp only
  rw [if_pos rfl, Nat.add_sub_cancel_left]
  unfold processRequest
  dsimp only
  rw [requestLine_alone]

theorem httpLoopBody_header (s : TcpSocket) (pre line rest : List Nat)
    (hc : s.connState = 1) (hb : s.buf = pre ++ line ++ 13 :: 10 :: rest)
    (hl : s.last = pre.length) (hbl : s.beginLine = pre.length)
    (hline : findCRLF line = none) (hne : line ≠ []) :
    httpLoopBody s =
      ({ s with beginLine := pre.length + line.length + 2,
                last := pre.length + line.length + 2,
                headerClose := directiveAfter s.headerClose (headerAlone line),
                headers := s.headers ++ [headerAlone line] }, false) := by
  obtain ⟨buf, last, beginLine, connState, headerClose, method, path, query, protocol, headers,
    disconnected, dispatched⟩ := s
  dsimp only at hc hb hl hbl
  subst hc hb hl hbl
  have hlen : line.length ≠ 0 := fun h0 => hne (List.length_eq_zero.mp h0)
  unfold httpLoopBody
  dsimp only
  rw [indexIn_line pre line rest hline]
  dsimp only
  rw [if_neg (by decide), if_pos rfl, Nat.add_sub_cancel_left, if_pos hlen, processHeader_eq]
  dsimp only
  rw [headerLine_alone]

theorem httpLoopBody_blank (s : TcpSocket) (pre rest : List Nat)
    (hc : s.connState = 1) (hb : s.buf = pre ++ 13 :: 10 :: rest)
    (hl : s.last = pre.length) (hbl : s.beginLine = pre.length) :
    httpLoopBody s =
      if s.headerClose = 2 then
        ({ s with beginLine := pre.length + 2,
                  last := pre.length + 2,
                  disconnected := true,
                  dispatched := s.dispatched ++
                    [{ method := s.method, path := s.path, query := s.query,
                       protocol := s.protocol, headers := s.headers }] }, true)
      else
        ({ s with buf := rest,
                  beginLine := 0,
                  last := 0,
                  connState := 0,
                  headerClose := 0,
                  method := [],
                  path := [],
                  query := [],
                  protocol := [],
                  headers := [],
                  dispatched := s.dispatched ++
                    [{ method := s.method, path := s.path, query := s.query,
                       protocol := s.protocol, headers := s.headers }] }, false) := by
  obtain ⟨buf, last, beginLine, connState, headerClose, method, path, query, protocol, headers,
    disconnected, dispatched⟩ := s
  dsimp only at hc hb hl hbl
  subst hc hb hl hbl
  have hix := indexIn_line pre [] rest rfl
  rw [List.append_nil, List.length_nil, Nat.add_zero] at hix
  unfold httpLoopBody
  dsimp only
  rw [hix]
  dsimp only
  rw [if_neg (by decide), if_pos rfl, Nat.sub_self, if_neg (fun h => h rfl)]
  unfold processSocket resetSocket
  dsimp only
  have hdrop : (pre ++ 13 :: 10 :: rest).drop (pre.length + 2) = rest := by
    rw [List.drop_append]
    rfl
  by_cases h2 : headerClose = 2
  · rw [if_pos h2, if_pos h2]
  · rw [if_neg h2, if_neg h2, hdrop]
    by_cases hr : pre.length + 2 < (pre ++ 13 :: 10 :: rest).length
    · rw [if_pos hr]
    · rw [if_neg hr]
      have hr0 : rest = [] := by
        rw [List.length_append, List.length_cons, List.length_cons] at hr
        exact List.length_eq_zero.mp (by omega)
      rw [hr0]
theorem httpLoop_headers (hs : List (List Nat)) :
    ∀ (s : TcpSocket) (pre rest : List Nat) (fuel : Nat),
    s.connState = 1 → s.buf = pre ++ renderHeaders hs ++ rest → s.last = pre.length →
    s.beginLine = pre.length → (∀ h ∈ hs, h ≠ [] ∧ findCRLF h = none) →
    httpLoop (hs.length + fuel) s =
      httpLoop fuel
        { s with beginLine := pre.length + (renderHeaders hs).length,
                 last := pre.length + (renderHeaders hs).length,
                 headerClose := (hs.map headerAlone).foldl directiveAfter s.headerClose,
                 headers := s.headers ++ hs.map headerAlone } := by
  induction hs with
  | nil =>
    intro s pre rest fuel _ _ hl hbl _
    obtain ⟨buf, last, beginLine, connState, headerClose, method, path, query, protocol,
      headers, disconnected, dispatched⟩ := s
    dsimp only at hl hbl
    subst hl hbl
    simp only [renderHeaders, List.length_nil, Nat.add_zero, Nat.zero_add, List.map_nil,
      List.foldl_nil, List.append_nil]
  | cons h hs ih =>
    intro s pre rest fuel hc hb hl hbl hwf
    have hh := hwf h (List.mem_cons_self _ _)
    have hb1 : s.buf = pre ++ h ++ 13 :: 10 :: (renderHeaders hs ++ rest) := by
      rw [hb]
      simp only [renderHeaders, List.append_assoc, List.cons_append, List.nil_append]
    have hbody := httpLoopBody_header s pre h _ hc hb1 hl hbl hh.2 hh.1
    have hlt : s.last < s.buf.length := by
      rw [hl, hb1]
      simp only [List.length_append, List.length_cons]
      omega
    have hfuel : (h :: hs).length + fuel = (hs.length + fuel) + 1 := by
      rw [List.length_cons]
      omega
    rw [hfuel, httpLoop_step _ _ _ hlt hbody]
    have hb2 : s.buf = (pre ++ h ++ [13, 10]) ++ renderHeaders hs ++ rest := by
      rw [hb1]
      simp only [List.append_assoc, List.cons_append, List.nil_append]
    have hlen2 : (pre ++ h ++ [13, 10]).length = pre.length + h.length + 2 := by
      simp only [List.length_append, List.length_cons, List.length_nil]
    have ih1 := ih
      { s with beginLine := pre.length + h.length + 2,
               last := pre.length + h.length + 2,
               headerClose := directiveAfter s.headerClose (headerAlone h),
               headers := s.headers ++ [headerAlone h] }
      (pre ++ h ++ [13, 10]) rest fuel hc hb2 hlen2.symm hlen2.symm
      (fun x hx => hwf x (List.mem_cons_of_mem _ hx))
    refine ih1.trans ?_
    congr 1
    obtain ⟨buf, last, beginLine, connState, headerClose, method, path, query, protocol,
      headers, disconnected, dispatched⟩ := s
    simp only [TcpSocket.mk.injEq, renderHeaders, List.length_append, List.length_cons,
      List.length_nil, List.map_cons, List.foldl_cons, List.append_assoc, List.cons_append,
      List.nil_append, true_and, and_true]
    omega
theorem httpLoop_request (r : RequestText) (s : TcpSocket) (tail : List Nat) (fuel : Nat)
    (hc : s.connState = 0) (hb : s.buf = render r ++ tail) (hl : s.last = 0)
    (hbl : s.beginLine = 0) (hh : s.headerClose = 0) (hwf : wellFormed r) :
    httpLoop (r.headers.length + 2 + fuel) s =
      if directiveAlone r = 2 then
        some { s with beginLine := (render r).length,
                      last := (render r).length,
                      connState := 1,
                      headerClose := 2,
                      method := (parsedAlone r).method,
                      path := (parsedAlone r).path,
                      query := (parsedAlone r).query,
                      protocol := (parsedAlone r).protocol,
                      headers := (parsedAlone r).headers,
                      disconnected := true,
                      dispatched := s.dispatched ++ [parsedAlone r] }
      else
        httpLoop fuel
          { s with buf := tail,
                   method := [],
                   path := [],
                   query := [],
                   protocol := [],
                   headers := [],
                   dispatched := s.dispatched ++ [parsedAlone r] } := by
  obtain ⟨buf, last, beginLine, connState, headerClose, method, path, query, protocol,
    headers, disconnected, dispatched⟩ := s
  dsimp only at hc hb hl hbl hh
  subst hc hl hbl hh
  obtain ⟨line, hs⟩ := r
  obtain ⟨hline, hhs⟩ := hwf
  dsimp only at hline hhs
  -- the request line
  have hb1 : buf = [] ++ line ++ 13 :: 10 :: (renderHeaders hs ++ ([13, 10] ++ tail)) := by
    rw [hb]
    simp only [render, List.append_assoc, List.cons_append, List.nil_append]
  have hbody1 := httpLoopBody_request
    { buf := buf, last := 0, beginLine := 0, connState := 0, headerClose := 0, method := method,
      path := path, query := query, protocol := protocol, headers := headers,
      disconnected := disconnected, dispatched := dispatched }
    [] line _ rfl hb1 rfl rfl hline
  dsimp only at hbody1
  rw [List.length_nil, Nat.zero_add] at hbody1
  have hlt1 : (0 : Nat) < buf.length := by
    rw [hb1]
    simp only [List.length_append, List.length_cons]
    omega
  have hfuel : hs.length + 2 + fuel = (hs.length + (fuel + 1)) + 1 := by omega
  dsimp only
  rw [hfuel, httpLoop_step _ _ _ hlt1 hbody1]
  -- the header lines
  have hb2 : buf = (line ++ [13, 10]) ++ renderHeaders hs ++ ([13, 10] ++ tail) := by
    rw [hb]
    simp only [render, List.append_assoc, List.cons_append, List.nil_append]
  have hlen2 : line.length + 2 = (line ++ [13, 10]).length := by
    simp only [List.length_append, List.length_cons, List.length_nil]
  rw [httpLoop_headers hs _ (line ++ [13, 10]) ([13, 10] ++ tail) (fuel + 1) rfl hb2 hlen2 hlen2
    hhs]
  -- the blank line
  have hb3 : buf = (line ++ [13, 10] ++ renderHeaders hs) ++ 13 :: 10 :: tail := by
    rw [hb]
    simp only [render, List.append_assoc, List.cons_append, List.nil_append]
  have hlen3 : (line ++ [13, 10]).length + (renderHeaders hs).length =
      (line ++ [13, 10] ++ renderHeaders hs).length := by
    simp only [List.length_append]
  have hbody3 := httpLoopBody_blank
    { buf := buf, last := (line ++ [13, 10]).length + (renderHeaders hs).length,
      beginLine := (line ++ [13, 10]).length + (renderHeaders hs).length,
      connState := 1,
      headerClose := (hs.map headerAlone).foldl directiveAfter 0,
      method := (requestLine (line ++ [13, 10]) 0 line.length).1,
      path := (requestLine (line ++ [13, 10]) 0 line.length).2.1,
      query := (requestLine (line ++ [13, 10]) 0 line.length).2.2.1,
      protocol := (requestLine (line ++ [13, 10]) 0 line.length).2.2.2,
      headers := [] ++ hs.map headerAlone, disconnected := disconnected,
      dispatched := dispatched }
    (line ++ [13, 10] ++ renderHeaders hs) tail rfl hb3 hlen3 hlen3
  have hlt3 : (line ++ [13, 10]).length + (renderHeaders hs).length < buf.length := by
    rw [hb3]
    simp only [List.length_append, List.length_cons]
    omega
  have hrl : (render { line := line, headers := hs }).length =
      (line ++ [13, 10] ++ renderHeaders hs).length + 2 := by
    simp only [render, List.length_append, List.length_cons, List.length_nil]
  dsimp only at hbody3
  by_cases hd : (hs.map headerAlone).foldl directiveAfter 0 = 2
  · rw [if_pos hd] at hbody3
    rw [httpLoop_break _ _ _ hlt3 hbody3]
    unfold directiveAlone
    dsimp only
    rw [if_pos hd, hrl, hd]
    rfl
  · rw [if_neg hd] at hbody3
    rw [httpLoop_step _ _ _ hlt3 hbody3]
    unfold directiveAlone
    dsimp only
    rw [if_neg hd]
    rfl
theorem httpLoop_requests (rs : List RequestText) :
    ∀ (s : TcpSocket) (tail : List Nat) (fuel : Nat),
    s.connState = 0 → s.buf = renderAll rs ++ tail → s.last = 0 → s.beginLine = 0 →
    s.headerClose = 0 → (∀ r ∈ rs, wellFormed r ∧ directiveAlone r ≠ 2) →
    ∃ s1 : TcpSocket, httpLoop (lineCount rs + fuel) s = httpLoop fuel s1 ∧
      s1.connState = 0 ∧ s1.buf = tail ∧ s1.last = 0 ∧ s1.beginLine = 0 ∧
      s1.headerClose = 0 ∧ s1.disconnected = s.disconnected ∧
      s1.dispatched = s.dispatched ++ rs.map parsedAlone := by
  induction rs with
  | nil =>
    intro s tail fuel hc hb hl hbl hh _
    refine ⟨s, ?_, hc, ?_, hl, hbl, hh, rfl, ?_⟩
    · rw [lineCount, Nat.zero_add]
    · rw [hb, renderAll, List.nil_append]
    · rw [List.map_nil, List.append_nil]
  | cons r rs ih =>
    intro s tail fuel hc hb hl hbl hh hall
    have hr := hall r (List.mem_cons_self _ _)
    have hb1 : s.buf = render r ++ (renderAll rs ++ tail) := by
      rw [hb, renderAll, List.append_assoc]
    have hreq := httpLoop_request r s (renderAll rs ++ tail) (lineCount rs + fuel) hc hb1 hl hbl
      hh hr.1
    rw [if_neg hr.2] at hreq
    have hfuel : lineCount (r :: rs) + fuel = r.headers.length + 2 + (lineCount rs + fuel) := by
      rw [lineCount]
      omega
    obtain ⟨s1, h1, h2, h3, h4, h5, h6, h7, h8⟩ := ih
      { s with buf := renderAll rs ++ tail,
               method := [],
               path := [],
               query := [],
               protocol := [],
               headers := [],
               dispatched := s.dispatched ++ [parsedAlone r] }
      tail fuel hc rfl hl hbl hh (fun x hx => hall x (List.mem_cons_of_mem _ hx))
    refine ⟨s1, ?_, h2, h3, h4, h5, h6, h7, ?_⟩
    · rw [hfuel, hreq, h1]
    · rw [h8]
      simp only [List.map_cons, List.append_assoc, List.singleton_append]

theorem readyRead_fresh (fuel : Nat) (b : List Nat) (h : b.length ≤ 4096) :
    readyRead fuel TcpSocket.fresh b = httpLoop fuel { TcpSocket.fresh with buf := b } := by
  unfold readyRead
  have hb : TcpSocket.fresh.buf ++ b.take (4096 - TcpSocket.fresh.buf.length) = b := by
    show [] ++ b.take (4096 - 0) = b
    rw [List.nil_append, List.take_of_length_le (by omega)]
  rw [hb]

theorem directiveAlone_ne_close (r : RequestText)
    (h : ∀ l ∈ r.headers, ¬ (equalsCI (headerAlone l).1 connectionName = true ∧
      equalsCI (headerAlone l).2 closeValue = true)) : directiveAlone r ≠ 2 := by
  unfold directiveAlone
  rw [foldl_directiveAfter, if_pos rfl]
  unfold firstConnectionDirective
  cases hf : (r.headers.map headerAlone).find? (fun kv => equalsCI kv.1 connectionName) with
  | none => exact fun h0 => absurd h0 (by decide)
  | some kv =>
    dsimp only
    have hk := List.find?_some hf
    have hm : kv ∈ r.headers.map headerAlone := List.mem_of_find?_eq_some hf
    obtain ⟨l, hl, hkv⟩ := List.mem_map.mp hm
    by_cases hv : equalsCI kv.2 closeValue = true
    · exact absurd ⟨hkv ▸ hk, hkv ▸ hv⟩ (h l hl)
    · rw [if_neg hv]
      decide

/-- C24: (1) for every list of requests on the wire (request line, non-empty header
lines, blank line; no line containing CR LF) none of which leaves the connection
directive at close, in particular when none carries "Connection: close", if the
requests together fit in the 4096-octet buffer and arrive in one read, then one
invocation of `readyRead` returns (after as many rounds of the line loop as there are
lines) having dispatched exactly these requests in order, the i-th dispatch holding the
method, path, query, protocol and headers that the lines of the i-th request give when
parsed alone; the connection is not disconnected and waits with an empty buffer.
(2) When such a list is followed by a request whose directive is close and then by any
further octets, the invocation dispatches the requests up to and including the closing
one, disconnects, and dispatches nothing of what follows.  (3) Scenario C: the two GET
requests in one read are dispatched as (GET, empty path, empty query, HTTP/1.1,
[Host: a]) and (GET, b, empty query, HTTP/1.1, [Host: a]).  (4) A request none of whose
header lines is "Connection: close" (name and value in any letter case) does not leave
the directive at close. -/
theorem pipelined_requests_dispatched :
    (∀ (rs : List RequestText) (fuel : Nat),
      (∀ r ∈ rs, wellFormed r ∧ directiveAlone r ≠ 2) → (renderAll rs).length ≤ 4096 →
      lineCount rs ≤ fuel →
      ∃ s1 : TcpSocket, readyRead fuel TcpSocket.fresh (renderAll rs) = some s1 ∧
        s1.dispatched = rs.map parsedAlone ∧ s1.disconnected = false ∧ s1.buf = [] ∧
        s1.connState = 0 ∧ s1.headerClose = 0) ∧
    (∀ (rs : List RequestText) (rc : RequestText) (junk : List Nat) (fuel : Nat),
      (∀ r ∈ rs, wellFormed r ∧ directiveAlone r ≠ 2) → wellFormed rc →
      directiveAlone rc = 2 → (renderAll rs ++ render rc ++ junk).length ≤ 4096 →
      lineCount (rs ++ [rc]) ≤ fuel →
      ∃ s1 : TcpSocket,
        readyRead fuel TcpSocket.fresh (renderAll rs ++ render rc ++ junk) = some s1 ∧
        s1.dispatched = (rs ++ [rc]).map parsedAlone ∧ s1.disconnected = true) ∧
    (readyRead 6 TcpSocket.fresh (hostRequest ++ hostRequestB)).map (fun s => s.dispatched) =
      some [{ method := [71, 69, 84], path := [], query := [],
              protocol := [72, 84, 84, 80, 47, 49, 46, 49],
              headers := [([72, 111, 115, 116], [97])] },
            { method := [71, 69, 84], path := [98], query := [],
              protocol := [72, 84, 84, 80, 47, 49, 46, 49],
              headers := [([72, 111, 115, 116], [97])] }] ∧
    (∀ r : RequestText,
      (∀ l ∈ r.headers, ¬ (equalsCI (headerAlone l).1 connectionName = true ∧
        equalsCI (headerAlone l).2 closeValue = true)) → directiveAlone r ≠ 2) := by
  refine ⟨?_, ?_, by decide, directiveAlone_ne_close⟩
  · intro rs fuel hall hfit hfuel
    rw [readyRead_fresh fuel _ hfit]
    obtain ⟨s1, h1, h2, h3, h4, _, h6, h7, h8⟩ := httpLoop_requests rs
      { TcpSocket.fresh with buf := renderAll rs } [] (fuel - lineCount rs) rfl
      (List.append_nil _).symm rfl rfl rfl hall
    rw [Nat.add_sub_cancel' hfuel] at h1
    refine ⟨s1, ?_, ?_, h7, h3, h2, h6⟩
    · rw [h1]
      apply httpLoop_done
      rw [h3, h4]
      exact Nat.lt_irrefl _
    · rw [h8]
      exact List.nil_append _
  · intro rs rc junk fuel hall hwf hclose hfit hfuel
    rw [readyRead_fresh fuel _ hfit]
    have hcount : lineCount (rs ++ [rc]) = lineCount rs + (rc.headers.length + 2) := by
      clear hall hfit hfuel
      induction rs with
      | nil =>
        rw [List.nil_append, lineCount, lineCount, lineCount, Nat.zero_add, Nat.add_zero]
      | cons r rs ih =>
        rw [List.cons_append, lineCount, lineCount, ih]
        omega
    obtain ⟨s1, h1, h2, h3, h4, h5, h6, _, h8⟩ := httpLoop_requests rs
      { TcpSocket.fresh with buf := renderAll rs ++ render rc ++ junk } (render rc ++ junk)
      (rc.headers.length + 2 + (fuel - lineCount (rs ++ [rc]))) rfl
      (List.append_assoc _ _ _) rfl rfl rfl hall
    have hf : lineCount rs + (rc.headers.length + 2 + (fuel - lineCount (rs ++ [rc]))) = fuel := by
      omega
    rw [hf] at h1
    have hreq := httpLoop_request rc s1 junk (fuel - lineCount (rs ++ [rc])) h2 h3 h4 h5 h6 hwf
    rw [if_pos hclose] at hreq
    rw [h1, hreq]
    refine ⟨_, rfl, ?_, rfl⟩
    show s1.dispatched ++ [parsedAlone rc] = _
    rw [h8, List.map_append]
    rfl

/-- C24, concrete instances: the two requests of Scenario C are dispatched by one
invocation, and when they are followed by a request with "Connection: close" and by a
further request, the three are dispatched, the connection is disconnected and the
further request is not dispatched. -/
theorem pipelined_requests_dispatched_witness :
    ((∀ r ∈ scenarioC, wellFormed r ∧ directiveAlone r ≠ 2) ∧
      (renderAll scenarioC).length ≤ 4096 ∧ lineCount scenarioC ≤ 6 ∧
      ∃ s1 : TcpSocket, readyRead 6 TcpSocket.fresh (renderAll scenarioC) = some s1 ∧
        s1.dispatched = scenarioC.map parsedAlone ∧ s1.disconnected = false ∧ s1.buf = [] ∧
        s1.connState = 0 ∧ s1.headerClose = 0) ∧
    (wellFormed closingRequest ∧ directiveAlone closingRequest = 2 ∧
      (renderAll scenarioC ++ render closingRequest ++ hostRequest).length ≤ 4096 ∧
      lineCount (scenarioC ++ [closingRequest]) ≤ 9 ∧
      ∃ s1 : TcpSocket,
        readyRead 9 TcpSocket.fresh (renderAll scenarioC ++ render closingRequest ++ hostRequest) =
          some s1 ∧
        s1.dispatched = (scenarioC ++ [closingRequest]).map parsedAlone ∧
        s1.disconnected = true) ∧
    ((∀ l ∈ (scenarioC.getD 0 closingRequest).headers,
        ¬ (equalsCI (headerAlone l).1 connectionName = true ∧
          equalsCI (headerAlone l).2 closeValue = true)) ∧
      directiveAlone (scenarioC.getD 0 closingRequest) ≠ 2) :=
  ⟨⟨by decide, by decide, by decide,
      pipelined_requests_dispatched.1 scenarioC 6 (by decide) (by decide) (by decide)⟩,
    ⟨by decide, by decide, by decide, by decide,
      pipelined_requests_dispatched.2.1 scenarioC closingRequest hostRequest 9 (by decide)
        (by decide) (by decide) (by decide) (by decide)⟩,
    ⟨by decide,
      pipelined_requests_dispatched.2.2.2 (scenarioC.getD 0 closingRequest) (by decide)⟩⟩

theorem dispatch_unknown (p : ProtocolHttp2) (s : Socket) (type : Nat) (fr : H2Frame)
    (h : 9 < type) : dispatch p s type fr = (advance s, 0, Flow.next) := by
  have hne : ∀ k, k ≤ 9 → type ≠ k := by
    intro k hk h0
    omega
  unfold dispatch
  simp only [FrameSettings, FramePriority, FrameHeaders, FramePing, FrameData, FramePushPromise,
    FrameRstStream, FrameWindowUpdate, FrameGoaway, FrameContinuation,
    hne 0 (by decide), hne 1 (by decide), hne 2 (by decide), hne 3 (by decide),
    hne 4 (by decide), hne 5 (by decide), hne 6 (by decide), hne 7 (by decide),
    hne 8 (by decide), hne 9 (by decide), if_false]

/-- C31: in state H2Frames, for every complete frame at the start of the buffer whose
type is greater than 9, whose stream id is zero or odd and whose length is at most the
max frame size, received while no stream awaits a continuation, one round of the frame
loop removes exactly the 9 + length octets of the frame from the front of the buffer
(what follows keeps its order) and changes nothing else but the scratch fields `pktsize`
and `stream_id`: nothing is written, the connection is not closed, and the stream table,
the highest stream id, the window, the push setting, the awaiting-continuation id and
the queue of completions are as before; `ret` stays 0 and the loop goes on with the rest
of the buffer.  When the frame is all that is buffered, the run returns in this state. -/
theorem unknown_frame_skipped (p : ProtocolHttp2) (s : Socket) (fuel : Nat)
    (hst : s.connState = .H2Frames) (h9 : 9 ≤ s.buffer.length)
    (hid : ¬((decodeFrameHeader s.buffer).streamId ≠ 0 ∧
      (decodeFrameHeader s.buffer).streamId % 2 = 0))
    (hsz : (decodeFrameHeader s.buffer).len ≤ p.m_maxFrameSize)
    (hcomp : 9 + (decodeFrameHeader s.buffer).len ≤ s.buffer.length)
    (hsfc : s.streamForContinuation = 0)
    (htype : 9 < (decodeFrameHeader s.buffer).type) :
    loopBody p s =
      ({ s with pktsize := (decodeFrameHeader s.buffer).len,
                stream_id := (decodeFrameHeader s.buffer).streamId,
                buffer := s.buffer.drop (9 + (decodeFrameHeader s.buffer).len) },
       0, Flow.next) ∧
    processLoop p (fuel + 1) s 0 =
      processLoop p fuel
        { s with pktsize := (decodeFrameHeader s.buffer).len,
                 stream_id := (decodeFrameHeader s.buffer).streamId,
                 buffer := s.buffer.drop (9 + (decodeFrameHeader s.buffer).len) } 0 ∧
    (s.buffer.length = 9 + (decodeFrameHeader s.buffer).len →
      processBuffer p (fuel + 1) s =
        some { s with pktsize := (decodeFrameHeader s.buffer).len,
                      stream_id := (decodeFrameHeader s.buffer).streamId,
                      buffer := [] }) := by
  have hb : s.buffer ≠ [] := buffer_ne_nil_of_le s 9 (by decide) h9
  have hbody : loopBody p s =
      ({ s with pktsize := (decodeFrameHeader s.buffer).len,
                stream_id := (decodeFrameHeader s.buffer).streamId,
                buffer := s.buffer.drop (9 + (decodeFrameHeader s.buffer).len) },
       0, Flow.next) := by
    rw [dispatch_of_complete p s hst h9 hid hsz hcomp hsfc, dispatch_unknown p _ _ _ htype]
    rfl
  have hloop : processLoop p (fuel + 1) s 0 =
      processLoop p fuel
        { s with pktsize := (decodeFrameHeader s.buffer).len,
                 stream_id := (decodeFrameHeader s.buffer).streamId,
                 buffer := s.buffer.drop (9 + (decodeFrameHeader s.buffer).len) } 0 := by
    have hlen : s.buffer.length ≠ 0 := fun h0 => hb (List.length_eq_zero.mp h0)
    rw [processLoop, if_pos ⟨hlen, rfl⟩, hbody]
  refine ⟨hbody, hloop, ?_⟩
  intro hall
  have hdrop : s.buffer.drop (9 + (decodeFrameHeader s.buffer).len) = [] := by
    rw [← hall]
    exact List.drop_length s.buffer
  unfold processBuffer
  rw [hloop, hdrop]
  cases fuel <;> simp [processLoop]

/-- C31, a concrete instance: a frame of type 10 with two payload octets on stream 3,
followed by one further octet, is removed and the further octet stays; the same frame
alone leaves an empty buffer. -/
theorem unknown_frame_skipped_witness :
    loopBody smallProtocol
        { oneStreamSocket with buffer := [0, 0, 2, 10, 0, 0, 0, 0, 3, 170, 187, 204] } =
      ({ oneStreamSocket with pktsize := 2, stream_id := 3, buffer := [204] }, 0, Flow.next) ∧
    processBuffer smallProtocol 1
        { oneStreamSocket with buffer := [0, 0, 2, 10, 0, 0, 0, 0, 3, 170, 187] } =
      some { oneStreamSocket with pktsize := 2, stream_id := 3, buffer := [] } :=
  ⟨(unknown_frame_skipped smallProtocol
      { oneStreamSocket with buffer := [0, 0, 2, 10, 0, 0, 0, 0, 3, 170, 187, 204] } 0 rfl
      (by decide) (by decide) (by decide) (by decide) rfl (by decide)).1,
   (unknown_frame_skipped smallProtocol
      { oneStreamSocket with buffer := [0, 0, 2, 10, 0, 0, 0, 0, 3, 170, 187] } 0 rfl
      (by decide) (by decide) (by decide) (by decide) rfl (by decide)).2.2 (by decide)⟩

/-- C33 (code defect): two runs without any GOAWAY and without a close in which two
completions are queued for stream 1.  (1) Two HEADERS frames on stream 1, each with
END_STREAM and END_HEADERS: the first creates the stream, leaves it HalfClosed and
queues a completion; the second is accepted on the HalfClosed stream and queues another.
(2) A HEADERS frame with END_HEADERS only opens stream 1; each of the two DATA frames
with END_STREAM that follow queues a completion, and the stream is still Open after
them. -/
theorem completion_queued_twice :
    processBuffer smallProtocol 2
        { Socket.fresh with
            connState := .H2Frames,
            buffer := [0, 0, 0, 1, 5, 0, 0, 0, 1, 0, 0, 0, 1, 5, 0, 0, 0, 1] } =
      some { Socket.fresh with
               connState := .H2Frames, stream_id := 1, maxStreamId := 1,
               streams := [(1, { H2Stream.fresh with state := .HalfClosed })],
               deferred := [{ len := 0, streamId := 1, type := 1, flags := 5 },
                            { len := 0, streamId := 1, type := 1, flags := 5 }] } ∧
    processBuffer smallProtocol 3
        { Socket.fresh with
            connState := .H2Frames,
            buffer := [0, 0, 0, 1, 4, 0, 0, 0, 1, 0, 0, 0, 0, 1, 0, 0, 0, 1,
                       0, 0, 0, 0, 1, 0, 0, 0, 1] } =
      some { Socket.fresh with
               connState := .H2Frames, stream_id := 1, maxStreamId := 1,
               streams := [(1, { H2Stream.fresh with state := .Open })],
               deferred := [{ len := 0, streamId := 1, type := 0, flags := 1 },
                            { len := 0, streamId := 1, type := 0, flags := 1 }] } := by
  decide

theorem inv_same (s t : Socket) (hinv : streamTableInvariant s) (hs : t.streams = s.streams)
    (hm : t.maxStreamId = s.maxStreamId) : streamTableInvariant t := by
  unfold streamTableInvariant at hinv ⊢
  rw [hs, hm]
  exact hinv

theorem inv_of_tableOk (s t : Socket) (id : Nat) (st : H2Stream)
    (hok : tableOk id s.streams s.maxStreamId) (hst : st.state ≠ .Idle)
    (hs : t.streams = setStream s.streams id st) (hm : t.maxStreamId = s.maxStreamId) :
    streamTableInvariant t := by
  unfold streamTableInvariant
  rw [hs, hm]
  intro e he
  unfold setStream at he
  obtain ⟨e0, he0, heq⟩ := List.mem_map.mp he
  obtain ⟨h1, h2, h3⟩ := hok e0 he0
  by_cases hid : e0.1 = id
  · rw [if_pos hid] at heq
    rw [← heq]
    exact ⟨h1, h2, hst⟩
  · rw [if_neg hid] at heq
    rw [← heq]
    exact ⟨h1, h2, h3 hid⟩

theorem tableOk_of_inv (s : Socket) (id : Nat) (hinv : streamTableInvariant s) :
    tableOk id s.streams s.maxStreamId :=
  fun e he => ⟨(hinv e he).1, (hinv e he).2.1, fun _ => (hinv e he).2.2⟩

theorem inv_setStream (s t : Socket) (id : Nat) (st : H2Stream)
    (hinv : streamTableInvariant s) (hst : st.state ≠ .Idle)
    (hs : t.streams = setStream s.streams id st) (hm : t.maxStreamId = s.maxStreamId) :
    streamTableInvariant t :=
  inv_of_tableOk s t id st (tableOk_of_inv s id hinv) hst hs hm

theorem findStream_some_mem (streams : List (Nat × H2Stream)) (id : Nat) (st : H2Stream)
    (h : findStream streams id = some st) : ∃ e ∈ streams, e.1 = id ∧ e.2 = st := by
  unfold findStream at h
  cases hf : streams.find? (fun e => e.1 == id) with
  | none =>
    rw [hf] at h
    exact absurd h (by simp)
  | some e =>
    rw [hf] at h
    have hk := List.find?_some hf
    exact ⟨e, List.mem_of_find?_eq_some hf, beq_iff_eq.mp hk, Option.some.inj h⟩

theorem inv_found_not_idle (s : Socket) (id : Nat) (st : H2Stream)
    (hinv : streamTableInvariant s) (h : findStream s.streams id = some st) :
    st.state ≠ .Idle := by
  obtain ⟨e, he, _, h2⟩ := findStream_some_mem s.streams id st h
  rw [← h2]
  exact (hinv e he).2.2

theorem parseData_inv (s : Socket) (fr : H2Frame) (hinv : streamTableInvariant s) :
    streamTableInvariant (parseData s fr).1 := by
  unfold parseData
  dsimp only
  generalize (if fr.flags &&& FlagDataPadded ≠ 0 then quint8 (s.buffer.getD 9 0) else 0) = pad
  simp only [sendGoAway_eq, schedule]
  repeat' first
    | exact inv_same s _ hinv rfl rfl
    | (refine inv_setStream s _ _ _ hinv ?_ rfl rfl; assumption)
    | split

theorem parseRstStream_inv (s : Socket) (fr : H2Frame) (hinv : streamTableInvariant s) :
    streamTableInvariant (parseRstStream s fr).1 := by
  unfold parseRstStream
  simp only [sendGoAway_eq]
  repeat' first
    | exact inv_same s _ hinv rfl rfl
    | (refine inv_setStream s _ _ _ hinv ?_ rfl rfl; exact fun h => StreamState.noConfusion h)
    | split

theorem parseWindowUpdate_inv (s : Socket) (fr : H2Frame) (hinv : streamTableInvariant s) :
    streamTableInvariant (parseWindowUpdate s fr).1 := by
  unfold parseWindowUpdate
  simp only [sendGoAway_eq, sendRstStream, sendFrame]
  repeat' first
    | exact inv_same s _ hinv rfl rfl
    | (refine inv_setStream s _ _ _ hinv ?_ rfl rfl
       first | exact fun h => StreamState.noConfusion h | assumption)
    | split

theorem parseData_maxStreamId (s : Socket) (fr : H2Frame) :
    (parseData s fr).1.maxStreamId = s.maxStreamId := by
  unfold parseData
  dsimp only
  generalize (if fr.flags &&& FlagDataPadded ≠ 0 then quint8 (s.buffer.getD 9 0) else 0) = pad
  simp only [sendGoAway_eq, schedule]
  repeat' first
    | rfl
    | split

theorem parseRstStream_maxStreamId (s : Socket) (fr : H2Frame) :
    (parseRstStream s fr).1.maxStreamId = s.maxStreamId := by
  unfold parseRstStream
  simp only [sendGoAway_eq]
  repeat' first
    | rfl
    | split

theorem parseWindowUpdate_maxStreamId (s : Socket) (fr : H2Frame) :
    (parseWindowUpdate s fr).1.maxStreamId = s.maxStreamId := by
  unfold parseWindowUpdate
  simp only [sendGoAway_eq, sendRstStream, sendFrame]
  repeat' first
    | rfl
    | split

theorem parsePriority_maxStreamId (s : Socket) (fr : H2Frame) :
    (parsePriority s fr).1.maxStreamId = s.maxStreamId := by
  unfold parsePriority
  simp only [sendGoAway_eq, connectionClose]
  split_ifs <;> rfl

theorem parsePing_maxStreamId (s : Socket) (fr : H2Frame) :
    (parsePing s fr).1.maxStreamId = s.maxStreamId := by
  unfold parsePing
  simp only [sendGoAway_eq, connectionClose, sendPing, sendFrame]
  split_ifs <;> rfl

theorem settingsLoop_maxStreamId (fuel : Nat) : ∀ (s : Socket) (pos : Nat),
    (settingsLoop fuel s pos).1.maxStreamId = s.maxStreamId := by
  induction fuel with
  | zero => intro s pos; rfl
  | succ fuel ih =>
    intro s pos
    simp only [settingsLoop, sendGoAway_eq]
    split_ifs
    all_goals first
      | rfl
      | (rw [ih])

theorem parseSettings_maxStreamId (s : Socket) (fr : H2Frame) :
    (parseSettings s fr).1.maxStreamId = s.maxStreamId := by
  unfold parseSettings
  split_ifs
  · rw [sendGoAway_eq]
  · rw [sendGoAway_eq]
  · have h := settingsLoop_maxStreamId s.pktsize s 0
    split
    · rename_i s1 code heq
      rw [heq] at h
      exact h
    · rename_i s1 heq
      rw [heq] at h
      exact h
  · rfl
theorem headersTail_inv (p : ProtocolHttp2) (s : Socket) (fr : H2Frame) (pos padLength : Nat)
    (stream : H2Stream)
    (hcodec : ∀ fragment st, st.state ≠ .Idle → (p.decode fragment st).2.2.state ≠ .Idle)
    (hok : tableOk fr.streamId s.streams s.maxStreamId) :
    streamTableInvariant (headersTail p s fr pos padLength stream).1 := by
  simp only [headersTail, sendGoAway_eq, schedule]
  repeat' first
    | (refine inv_of_tableOk s _ fr.streamId _ hok ?_ rfl rfl
       refine hcodec _ _ ?_
       first | exact fun h => StreamState.noConfusion h | assumption)
    | split

theorem tableOk_insert (s : Socket) (id : Nat) (st : H2Stream) (hinv : streamTableInvariant s)
    (hf : findStream s.streams id = none) (hmax : s.maxStreamId ≤ id) (hodd : id % 2 = 1) :
    tableOk id (insertStream s.streams id st) id := by
  unfold insertStream
  rw [hf, if_neg (by simp)]
  intro e he
  rcases List.mem_append.mp he with h | h
  · exact ⟨(hinv e h).1, Nat.le_trans (hinv e h).2.1 hmax, fun _ => (hinv e h).2.2⟩
  · rw [List.mem_singleton] at h
    rw [h]
    exact ⟨hodd, Nat.le_refl _, fun hne => absurd rfl hne⟩

theorem parseHeaders_inv (p : ProtocolHttp2) (s : Socket) (fr : H2Frame)
    (hcodec : ∀ fragment st, st.state ≠ .Idle → (p.decode fragment st).2.2.state ≠ .Idle)
    (hodd : fr.streamId = 0 ∨ fr.streamId % 2 = 1) (hinv : streamTableInvariant s) :
    streamTableInvariant (parseHeaders p s fr).1 ∧
      s.maxStreamId ≤ (parseHeaders p s fr).1.maxStreamId := by
  unfold parseHeaders
  dsimp only
  generalize (if fr.flags &&& FlagHeadersPadded ≠ 0 then quint8 (s.buffer.getD 9 0) else 0) = pad
  generalize (if fr.flags &&& FlagHeadersPriority ≠ 0 then
      h2_be32 s.buffer (9 + if fr.flags &&& FlagHeadersPadded ≠ 0 then 1 else 0) else 0) = dep
  generalize (if fr.flags &&& FlagHeadersPriority ≠ 0 then
      (if fr.flags &&& FlagHeadersPadded ≠ 0 then 1 else 0) + 4 + 1
    else if fr.flags &&& FlagHeadersPadded ≠ 0 then 1 else 0) = pos1
  have hsame : ∀ code, streamTableInvariant (sendGoAway s s.maxStreamId code).1 ∧
      s.maxStreamId ≤ (sendGoAway s s.maxStreamId code).1.maxStreamId := by
    intro code
    rw [sendGoAway_eq]
    exact ⟨inv_same s _ hinv rfl rfl, Nat.le_refl _⟩
  by_cases h0 : fr.streamId = 0
  · rw [if_pos h0]
    exact hsame _
  · rw [if_neg h0]
    have hodd1 : fr.streamId % 2 = 1 := hodd.resolve_left h0
    by_cases hp : fr.flags &&& FlagHeadersPadded ≠ 0 ∧ pad > fr.len
    · rw [if_pos hp]
      exact hsame _
    · rw [if_neg hp]
      by_cases hd : fr.flags &&& FlagHeadersPriority ≠ 0 ∧ fr.streamId = dep
      · rw [if_pos hd]
        exact hsame _
      · rw [if_neg hd]
        cases hf : findStream s.streams fr.streamId with
        | some stream =>
          dsimp only
          by_cases hdup : fr.flags &&& FlagHeadersEndStream = 0 ∧ stream.state = .Open ∧
              s.streamForContinuation = 0
          · rw [if_pos hdup]
            exact hsame _
          · rw [if_neg hdup, headersTail_maxStreamId]
            exact ⟨headersTail_inv p s fr pos1 pad stream hcodec
              (tableOk_of_inv s fr.streamId hinv), Nat.le_refl _⟩
        | none =>
          dsimp only
          by_cases hm : s.maxStreamId ≥ fr.streamId
          · rw [if_pos hm]
            exact hsame _
          · rw [if_neg hm, headersTail_maxStreamId]
            refine ⟨headersTail_inv p _ fr pos1 pad H2Stream.fresh hcodec ?_, ?_⟩
            · exact tableOk_insert s fr.streamId H2Stream.fresh hinv hf (by omega) hodd1
            · show s.maxStreamId ≤ fr.streamId
              omega
theorem dispatch_inv (p : ProtocolHttp2) (s : Socket) (type : Nat) (fr : H2Frame)
    (hcodec : ∀ fragment st, st.state ≠ .Idle → (p.decode fragment st).2.2.state ≠ .Idle)
    (hodd : fr.streamId = 0 ∨ fr.streamId % 2 = 1) (hinv : streamTableInvariant s) :
    streamTableInvariant (dispatch p s type fr).1 ∧
      s.maxStreamId ≤ (dispatch p s type fr).1.maxStreamId := by
  unfold dispatch
  by_cases h0 : type = FrameSettings
  · rw [if_pos h0]
    have e : streamTableInvariant (parseSettings s fr).1 ∧
        s.maxStreamId ≤ (parseSettings s fr).1.maxStreamId :=
      ⟨inv_same s _ hinv (parseSettings_streams s fr) (parseSettings_maxStreamId s fr),
      Nat.le_of_eq (parseSettings_maxStreamId s fr).symm⟩
    generalize parseSettings s fr = r at e ⊢
    exact ⟨inv_same r.1 _ e.1 rfl rfl, e.2⟩
  rw [if_neg h0]
  by_cases h1 : type = FramePriority
  · rw [if_pos h1]
    have e : streamTableInvariant (parsePriority s fr).1 ∧
        s.maxStreamId ≤ (parsePriority s fr).1.maxStreamId :=
      ⟨inv_same s _ hinv (parsePriority_streams s fr) (parsePriority_maxStreamId s fr),
      Nat.le_of_eq (parsePriority_maxStreamId s fr).symm⟩
    generalize parsePriority s fr = r at e ⊢
    exact ⟨inv_same r.1 _ e.1 rfl rfl, e.2⟩
  rw [if_neg h1]
  by_cases h2 : type = FrameHeaders
  · rw [if_pos h2]
    have e : streamTableInvariant (parseHeaders p s fr).1 ∧
        s.maxStreamId ≤ (parseHeaders p s fr).1.maxStreamId :=
      parseHeaders_inv p s fr hcodec hodd hinv
    generalize parseHeaders p s fr = r at e ⊢
    exact ⟨inv_same r.1 _ e.1 rfl rfl, e.2⟩
  rw [if_neg h2]
  by_cases h3 : type = FramePing
  · rw [if_pos h3]
    have e : streamTableInvariant (parsePing s fr).1 ∧
        s.maxStreamId ≤ (parsePing s fr).1.maxStreamId :=
      ⟨inv_same s _ hinv (parsePing_streams s fr) (parsePing_maxStreamId s fr),
      Nat.le_of_eq (parsePing_maxStreamId s fr).symm⟩
    generalize parsePing s fr = r at e ⊢
    exact ⟨inv_same r.1 _ e.1 rfl rfl, e.2⟩
  rw [if_neg h3]
  by_cases h4 : type = FrameData
  · rw [if_pos h4]
    have e : streamTableInvariant (parseData s fr).1 ∧
        s.maxStreamId ≤ (parseData s fr).1.maxStreamId :=
      ⟨parseData_inv s fr hinv, Nat.le_of_eq (parseData_maxStreamId s fr).symm⟩
    generalize parseData s fr = r at e ⊢
    exact ⟨inv_same r.1 _ e.1 rfl rfl, e.2⟩
  rw [if_neg h4]
  by_cases h5 : type = FramePushPromise
  · rw [if_pos h5]
    show streamTableInvariant (sendGoAway s s.maxStreamId ErrorProtocolError).1 ∧
      s.maxStreamId ≤ (sendGoAway s s.maxStreamId ErrorProtocolError).1.maxStreamId
    rw [sendGoAway_eq]
    exact ⟨inv_same s _ hinv rfl rfl, Nat.le_refl _⟩
  rw [if_neg h5]
  by_cases h6 : type = FrameRstStream
  · rw [if_pos h6]
    have e : streamTableInvariant (parseRstStream s fr).1 ∧
        s.maxStreamId ≤ (parseRstStream s fr).1.maxStreamId :=
      ⟨parseRstStream_inv s fr hinv,
      Nat.le_of_eq (parseRstStream_maxStreamId s fr).symm⟩
    generalize parseRstStream s fr = r at e ⊢
    exact ⟨inv_same r.1 _ e.1 rfl rfl, e.2⟩
  rw [if_neg h6]
  by_cases h7 : type = FrameWindowUpdate
  · rw [if_pos h7]
    have e : streamTableInvariant (parseWindowUpdate s fr).1 ∧
        s.maxStreamId ≤ (parseWindowUpdate s fr).1.maxStreamId :=
      ⟨parseWindowUpdate_inv s fr hinv,
      Nat.le_of_eq (parseWindowUpdate_maxStreamId s fr).symm⟩
    generalize parseWindowUpdate s fr = r at e ⊢
    exact ⟨inv_same r.1 _ e.1 rfl rfl, e.2⟩
  rw [if_neg h7]
  by_cases h8 : type = FrameGoaway
  · rw [if_pos h8]
    exact ⟨inv_same s _ hinv rfl rfl, Nat.le_refl _⟩
  rw [if_neg h8]
  by_cases h9 : type = FrameContinuation
  · rw [if_pos h9]
    show streamTableInvariant (sendGoAway s s.maxStreamId ErrorProtocolError).1 ∧
      s.maxStreamId ≤ (sendGoAway s s.maxStreamId ErrorProtocolError).1.maxStreamId
    rw [sendGoAway_eq]
    exact ⟨inv_same s _ hinv rfl rfl, Nat.le_refl _⟩
  rw [if_neg h9]
  exact ⟨inv_same s _ hinv rfl rfl, Nat.le_refl _⟩

theorem loopBody_inv (p : ProtocolHttp2) (s : Socket)
    (hcodec : ∀ fragment st, st.state ≠ .Idle → (p.decode fragment st).2.2.state ≠ .Idle)
    (hinv : streamTableInvariant s) :
    streamTableInvariant (loopBody p s).1 ∧ s.maxStreamId ≤ (loopBody p s).1.maxStreamId := by
  have hsame : ∀ t : Socket, t.streams = s.streams → t.maxStreamId = s.maxStreamId →
      streamTableInvariant t ∧ s.maxStreamId ≤ t.maxStreamId :=
    fun t h1 h2 => ⟨inv_same s t hinv h1 h2, Nat.le_of_eq h2.symm⟩
  unfold loopBody
  cases hc : s.connState with
  | MethodLine =>
    dsimp only
    by_cases h1 : s.buffer.length ≥ PREFACE_SIZE
    · rw [if_pos h1]
      by_cases h2 : s.buffer.take 24 = preface
      · rw [if_pos h2]
        exact hsame _ rfl rfl
      · rw [if_neg h2]
        show streamTableInvariant (sendGoAway s s.maxStreamId ErrorProtocolError).1 ∧
          s.maxStreamId ≤ (sendGoAway s s.maxStreamId ErrorProtocolError).1.maxStreamId
        rw [sendGoAway_eq]
        exact hsame _ rfl rfl
    · rw [if_neg h1]
      exact hsame _ rfl rfl
  | H2Frames =>
    dsimp only
    by_cases h1 : s.buffer.length ≥ 9
    · rw [if_pos h1]
      by_cases h2 : (decodeFrameHeader s.buffer).streamId ≠ 0 ∧
          (decodeFrameHeader s.buffer).streamId &&& 1 = 0
      · rw [if_pos h2, sendGoAway_eq]
        exact hsame _ rfl rfl
      · rw [if_neg h2]
        have hodd : (decodeFrameHeader s.buffer).streamId = 0 ∨
            (decodeFrameHeader s.buffer).streamId % 2 = 1 := by
          by_cases h0 : (decodeFrameHeader s.buffer).streamId = 0
          · exact Or.inl h0
          · right
            have h3 : ¬ ((decodeFrameHeader s.buffer).streamId &&& 1 = 0) := fun h => h2 ⟨h0, h⟩
            rw [Nat.and_one_is_mod] at h3
            omega
        by_cases h3 : (decodeFrameHeader s.buffer).len > p.m_maxFrameSize
        · rw [if_pos h3, sendGoAway_eq]
          exact hsame _ rfl rfl
        · rw [if_neg h3]
          by_cases h4 : (decodeFrameHeader s.buffer).len > s.buffer.length - 9
          · rw [if_pos h4]
            exact hsame _ rfl rfl
          · rw [if_neg h4]
            by_cases h5 : s.streamForContinuation ≠ 0
            · rw [if_pos h5]
              by_cases h6 : (decodeFrameHeader s.buffer).type = FrameContinuation ∧
                  s.streamForContinuation = (decodeFrameHeader s.buffer).streamId
              · rw [if_pos h6]
                exact dispatch_inv p _ _ _ hcodec hodd (inv_same s _ hinv rfl rfl)
              · rw [if_neg h6, sendGoAway_eq]
                exact hsame _ rfl rfl
            · rw [if_neg h5]
              exact dispatch_inv p _ _ _ hcodec hodd (inv_same s _ hinv rfl rfl)
    · rw [if_neg h1]
      exact hsame _ rfl rfl

theorem processLoop_inv (p : ProtocolHttp2)
    (hcodec : ∀ fragment st, st.state ≠ .Idle → (p.decode fragment st).2.2.state ≠ .Idle)
    (fuel : Nat) : ∀ (s : Socket) (ret : Nat) (r : Socket × Nat × Bool),
    streamTableInvariant s → processLoop p fuel s ret = some r →
    streamTableInvariant r.1 ∧ s.maxStreamId ≤ r.1.maxStreamId := by
  induction fuel with
  | zero =>
    intro s ret r hinv h
    unfold processLoop at h
    by_cases hc : s.buffer.length ≠ 0 ∧ ret = 0
    · rw [if_pos hc] at h
      exact absurd h (by simp)
    · rw [if_neg hc] at h
      rw [← Option.some.inj h]
      exact ⟨hinv, Nat.le_refl _⟩
  | succ fuel ih =>
    intro s ret r hinv h
    unfold processLoop at h
    by_cases hc : s.buffer.length ≠ 0 ∧ ret = 0
    · rw [if_pos hc] at h
      have hb := loopBody_inv p s hcodec hinv
      generalize loopBody p s = b at hb h
      obtain ⟨s1, ret1, flow⟩ := b
      cases flow with
      | next =>
        have h1 := ih s1 ret1 r hb.1 h
        exact ⟨h1.1, Nat.le_trans hb.2 h1.2⟩
      | brk =>
        rw [← Option.some.inj h]
        exact hb
      | ret =>
        rw [← Option.some.inj h]
        exact hb
    · rw [if_neg hc] at h
      rw [← Option.some.inj h]
      exact ⟨hinv, Nat.le_refl _⟩

theorem processBuffer_inv (p : ProtocolHttp2)
    (hcodec : ∀ fragment st, st.state ≠ .Idle → (p.decode fragment st).2.2.state ≠ .Idle)
    (fuel : Nat) (s s1 : Socket) (hinv : streamTableInvariant s)
    (h : processBuffer p fuel s = some s1) :
    streamTableInvariant s1 ∧ s.maxStreamId ≤ s1.maxStreamId := by
  unfold processBuffer at h
  cases hl : processLoop p fuel s 0 with
  | none =>
    rw [hl] at h
    exact absurd h (by simp)
  | some r =>
    rw [hl] at h
    have hr := processLoop_inv p hcodec fuel s 0 r hinv hl
    obtain ⟨s2, ret, returned⟩ := r
    dsimp only at h hr
    by_cases h1 : returned = true
    · rw [if_pos h1] at h
      rw [← Option.some.inj h]
      exact hr
    · rw [if_neg h1] at h
      by_cases h2 : ret ≠ 0
      · rw [if_pos h2] at h
        rw [← Option.some.inj h]
        exact ⟨inv_same s2 _ hr.1 rfl rfl, hr.2⟩
      · rw [if_neg h2] at h
        rw [← Option.some.inj h]
        exact hr

theorem readRound_inv (p : ProtocolHttp2)
    (hcodec : ∀ fragment st, st.state ≠ .Idle → (p.decode fragment st).2.2.state ≠ .Idle)
    (fuel : Nat) (s s1 : Socket) (avail : List Nat) (hinv : streamTableInvariant s)
    (h : readRound p fuel s avail = some s1) :
    streamTableInvariant s1 ∧ s.maxStreamId ≤ s1.maxStreamId := by
  unfold readRound at h
  dsimp only at h
  by_cases hc : (avail.take (p.m_bufferSize - s.buffer.length)).length > 0
  · rw [if_pos hc] at h
    exact processBuffer_inv p hcodec fuel
      { s with buffer := s.buffer ++ avail.take (p.m_bufferSize - s.buffer.length) } s1
      (inv_same s _ hinv rfl rfl) h
  · rw [if_neg hc] at h
    rw [← Option.some.inj h]
    exact ⟨hinv, Nat.le_refl _⟩

theorem readRounds_inv (p : ProtocolHttp2)
    (hcodec : ∀ fragment st, st.state ≠ .Idle → (p.decode fragment st).2.2.state ≠ .Idle)
    (rounds : List (Nat × List Nat)) : ∀ (s s1 : Socket), streamTableInvariant s →
    readRounds p rounds s = some s1 →
    streamTableInvariant s1 ∧ s.maxStreamId ≤ s1.maxStreamId := by
  induction rounds with
  | nil =>
    intro s s1 hinv h
    unfold readRounds at h
    rw [← Option.some.inj h]
    exact ⟨hinv, Nat.le_refl _⟩
  | cons r rest ih =>
    intro s s1 hinv h
    unfold readRounds at h
    cases hr : readRound p r.1 s r.2 with
    | none =>
      rw [hr] at h
      exact absurd h (by simp)
    | some s2 =>
      rw [hr] at h
      have h2 := readRound_inv p hcodec r.1 s s2 r.2 hinv hr
      have h3 := ih s2 s1 h2.1 h
      exact ⟨h3.1, Nat.le_trans h2.2 h3.2⟩
/-- C32: with a header codec that never leaves a stream Idle that was not Idle when
handed to it, the stream-table invariant (every key of the stream table is odd, hence
positive, and at most the highest stream id; no stream in the table is Idle) holds for
the fresh connection, whose highest stream id is 0, and is kept by every round of the
frame loop and by every round of reading, neither of which lowers the highest stream id;
so it holds in every state reached from the fresh connection by any rounds of reading.
Hence, in every such state, the record found in the table for any stream id is not Idle:
the test `stream->state == Idle` on the record found, which guards the Idle rejection in
the DATA, RST_STREAM and WINDOW_UPDATE handlers, is never true. -/
theorem stream_table_invariant (p : ProtocolHttp2)
    (hcodec : ∀ fragment st, st.state ≠ .Idle → (p.decode fragment st).2.2.state ≠ .Idle) :
    (streamTableInvariant Socket.fresh ∧ Socket.fresh.maxStreamId = 0) ∧
    (∀ s : Socket, streamTableInvariant s →
      streamTableInvariant (loopBody p s).1 ∧ s.maxStreamId ≤ (loopBody p s).1.maxStreamId) ∧
    (∀ (fuel : Nat) (s s1 : Socket) (avail : List Nat), streamTableInvariant s →
      readRound p fuel s avail = some s1 →
      streamTableInvariant s1 ∧ s.maxStreamId ≤ s1.maxStreamId) ∧
    (∀ (rounds : List (Nat × List Nat)) (s1 : Socket),
      readRounds p rounds Socket.fresh = some s1 → streamTableInvariant s1) ∧
    (∀ (s : Socket) (id : Nat) (st : H2Stream), streamTableInvariant s →
      findStream s.streams id = some st →
      st.state ≠ .Idle ∧ id % 2 = 1 ∧ id ≤ s.maxStreamId) := by
  have hfresh : streamTableInvariant Socket.fresh := by
    intro e he
    exact absurd he (List.not_mem_nil e)
  refine ⟨⟨hfresh, rfl⟩, fun s hinv => loopBody_inv p s hcodec hinv,
    fun fuel s s1 avail hinv h => readRound_inv p hcodec fuel s s1 avail hinv h,
    fun rounds s1 h => (readRounds_inv p hcodec rounds Socket.fresh s1 hfresh h).1, ?_⟩
  intro s id st hinv hf
  obtain ⟨e, he, h1, h2⟩ := findStream_some_mem s.streams id st hf
  rw [← h1, ← h2]
  exact ⟨(hinv e he).2.2, (hinv e he).1, (hinv e he).2.1⟩

/-- C32, a concrete instance: the preface and a HEADERS frame for stream 1 with
END_STREAM and END_HEADERS, read in one round, leave a table with the single key 1, a
HalfClosed stream and the highest stream id 1, for which the invariant holds. -/
theorem stream_table_invariant_witness :
    readRounds smallProtocol [(2, prefaceAndRequest)] Socket.fresh =
      some { Socket.fresh with
               connState := .H2Frames, stream_id := 1, maxStreamId := 1,
               streams := [(1, { H2Stream.fresh with state := .HalfClosed })],
               written := [0, 0, 6, 4, 0, 0, 0, 0, 0, 0, 5, 0, 0, 64, 0],
               deferred := [requestFrame] } ∧
    streamTableInvariant
      { Socket.fresh with
          connState := .H2Frames, stream_id := 1, maxStreamId := 1,
          streams := [(1, { H2Stream.fresh with state := .HalfClosed })],
          written := [0, 0, 6, 4, 0, 0, 0, 0, 0, 0, 5, 0, 0, 64, 0],
          deferred := [requestFrame] } :=
  ⟨by decide,
   (stream_table_invariant smallProtocol (fun _ _ h => h)).2.2.2.1 [(2, prefaceAndRequest)] _
     (by decide)⟩

end CWSGI
